import Mathlib

/-!
EdgeGrid client pipeline: validation, execution, error normalisation.

A shallow embedding of the request pipeline of `pkg/iam/properties.go`,
`pkg/papi/include_activations.go` and `pkg/papi/property.go`:
validate the request, build the HTTP request, hand it to the transport,
branch on the status code, resolve the response link.

Go values are embedded as follows.
* `string` is `String`, `int64` and `int` are `Int`, a slice is a `List`,
  a pointer is an `Option`.
* `error` is `Option` of an error value (`none` is `nil`).
* A function returning `(T, error)` returns a `Res T`; an operation is a
  program over the session, a `Prog`, whose only access to the transport is the
  call of `Exec`; run over a transport it gives an `Outcome`, the result next
  to the calls of `Exec` it made.
-/

namespace EdgeGrid

/-! ## The validation engine (go-ozzo/ozzo-validation v4) -/

/-- A validation failure: either the message of one violated rule, or a
`validation.Errors` map from field name (or slice index) to the failure found
there. The map is kept as an association list in the order of the literal. -/
inductive VErr where
  | rule (msg : String) : VErr
  | errors (m : List (String × VErr)) : VErr

/-- The field names a validation failure reports at its top level. -/
def VErr.fields : VErr → List String
  | .rule _ => []
  | .errors m => m.map Prod.fst

/-- The failure recorded under a field name, if any. -/
def VErr.at : VErr → String → Option VErr
  | .rule _, _ => none
  | .errors m, k => (m.find? (fun p => p.1 == k)).map Prod.snd

/-- What the reflective parts of ozzo-validation see of a Go type:
`validation.IsEmpty` and the validation that `validation.Validate` runs after
the rules (the value's own `Validate` method when the type is `Validatable`,
the element-wise validation of a slice of such values, nothing otherwise). -/
class GoValue (α : Type) where
  isEmpty : α → Bool
  own : α → Option VErr

/-- Kind `String`: empty when of length zero. -/
instance : GoValue String where
  isEmpty s := s == ""
  own _ := none

/-- Kinds `Int`, `Int64`: empty when zero. -/
instance : GoValue Int where
  isEmpty n := n == 0
  own _ := none

/-- Kind `Bool`: empty when false. -/
instance : GoValue Bool where
  isEmpty b := !b
  own _ := none

namespace validation

/-- The body of `validateSlice`: every element is validated and the failures
are keyed by the decimal index. -/
def validateSliceFrom {α : Type} [GoValue α] : Nat → List α → List (String × VErr)
  | _, [] => []
  | i, x :: xs =>
    match GoValue.own x with
    | some e => (toString i, e) :: validateSliceFrom (i + 1) xs
    | none => validateSliceFrom (i + 1) xs

/-- Function `validateSlice`: nil when no element fails. -/
def validateSlice {α : Type} [GoValue α] (xs : List α) : Option VErr :=
  match validateSliceFrom 0 xs with
  | [] => none
  | e :: es => some (.errors (e :: es))

end validation

/-- Kind `Slice`: empty when of length zero; validated element-wise. -/
instance {α : Type} [GoValue α] : GoValue (List α) where
  isEmpty xs := xs.isEmpty
  own xs := validation.validateSlice xs

/-- Kind `Ptr`: empty when nil or pointing to an empty value; a nil pointer is
not validated further, a non-nil one through the value it points to. -/
instance {α : Type} [GoValue α] : GoValue (Option α) where
  isEmpty
    | none => true
    | some v => GoValue.isEmpty v
  own
    | none => none
    | some v => GoValue.own v

namespace validation

/-- A rule of ozzo-validation on values of type `α`. -/
abbrev Rule (α : Type) := α → Option VErr

/-- Rule `validation.Required`: fails on an empty value. -/
def Required {α : Type} [GoValue α] : Rule α :=
  fun v => if GoValue.isEmpty v then some (.rule "cannot be blank") else none

/-- Rule `validation.In(values...)`: an empty value passes, any other value
must be one of the listed ones. -/
def In {α : Type} [GoValue α] [DecidableEq α] (values : List α) : Rule α :=
  fun v =>
    if GoValue.isEmpty v then none
    else if v ∈ values then none
    else some (.rule "must be a valid value")

/-- The rule loop of `validation.Validate`: the first failing rule decides. -/
def applyRules {α : Type} (value : α) : List (Rule α) → Option VErr
  | [] => none
  | r :: rs =>
    match r value with
    | some e => some e
    | none => applyRules value rs

/-- Function `validation.Validate(value, rules...)`: the rules in order, and
when all pass the value's own validation. -/
def Validate {α : Type} [GoValue α] (value : α) (rules : List (Rule α)) : Option VErr :=
  match applyRules value rules with
  | some e => some e
  | none => GoValue.own value

/-- A `validation.Errors` literal: field name and the result of validating
that field (`none` is a nil entry). -/
abbrev Errors := List (String × Option VErr)

/-- The entries of a `validation.Errors` literal that are not nil. -/
def Errors.violations : Errors → List (String × VErr)
  | [] => []
  | (k, some e) :: es => (k, e) :: violations es
  | (_, none) :: es => violations es

/-- Method `Errors.Filter`: drops the nil entries and returns nil when none
is left. -/
def Errors.Filter (es : Errors) : Option VErr :=
  match es.violations with
  | [] => none
  | e :: rest => some (.errors (e :: rest))

end validation

namespace edgegriderr

/-- Modelled from the spec: `edgegriderr.ParseValidationErrors` is not among
the sources. Per the validation engine's contract the output aggregates every
violated field (a map from field name to message) in a single pass, and an
empty aggregate is "no error". -/
def ParseValidationErrors (es : validation.Errors) : Option VErr :=
  match es.violations with
  | [] => none
  | e :: rest => some (.errors (e :: rest))

end edgegriderr

/-! ## Errors, responses and the collaborators outside the sources -/

/-- The normalized error `Error` of the packages' `errors.go`, with the
fields the test `TestNewError` builds. -/
structure Error where
  Type_ : String
  Title : String
  Detail : String
  Status : Int
deriving DecidableEq, Repr

/-- Go `error` values as the pipeline sees them.
* `sentinel name text`: a package-level `errors.New(text)` bound to the
  variable `name`; its identity is the variable.
* `api e`: the `*Error` a normalizer returns.
* `other msg`: any other leaf error, known by its message.
* `wrap msg inner`: the result of `fmt.Errorf` with one `%w` operand:
  `Error()` is `msg`, `Unwrap()` is `inner`. -/
inductive GoErr where
  | sentinel (name text : String) : GoErr
  | api (e : Error) : GoErr
  | other (msg : String) : GoErr
  | wrap (msg : String) (inner : GoErr) : GoErr
deriving DecidableEq, Repr

/-- Method `Unwrap` as `errors.Unwrap` sees it. -/
def GoErr.Unwrap : GoErr → Option GoErr
  | .wrap _ inner => some inner
  | _ => none

/-- The unwrap chain of an error, the error itself first. -/
def GoErr.chain : GoErr → List GoErr
  | .wrap msg inner => .wrap msg inner :: inner.chain
  | e => [e]

/-- Function `errors.Is(err, target)`: some error of the unwrap chain equals
the target. Go compares the error values of the chain with `==`; here that is
equality of the embedded values: a sentinel is equal only to itself, and the
normalized error, a plain record of four fields, to a normalized error with
the same fields. -/
def errors.Is (err target : GoErr) : Bool :=
  decide (target ∈ err.chain)

/-- An HTTP response as far as the pipeline reads it. -/
structure Response where
  StatusCode : Int
  Body : String
deriving DecidableEq, Repr

/-- An `http.Request` as far as the pipeline builds it. -/
structure HttpRequest where
  Method : String
  URL : String
deriving DecidableEq, Repr

namespace url

/-- Type `url.Values`: the values of each key, in the order they were added;
every key occurs once. -/
abbrev Values := List (String × List String)

/-- Method `Values.Add`: appends the value to the values of the key. -/
def Values.Add : Values → String → String → Values
  | [], key, value => [(key, [value])]
  | (k, vs) :: rest, key, value =>
    if k = key then (k, vs ++ [value]) :: rest
    else (k, vs) :: Values.Add rest key value

/-- Upper-case hexadecimal digit. -/
def hexDigit (n : Nat) : Char :=
  "0123456789ABCDEF".toList.getD n '0'

/-- One byte under `shouldEscape` in query-component mode: letters, digits,
`-`, `_`, `.` and `~` stay, a space becomes `+`, any other byte is `%XX`. -/
def escapeByte (b : UInt8) : List Char :=
  let c := Char.ofNat b.toNat
  if c.isAlphanum || c = '-' || c = '_' || c = '.' || c = '~' then [c]
  else if c = ' ' then ['+']
  else ['%', hexDigit (b.toNat / 16), hexDigit (b.toNat % 16)]

/-- Function `url.QueryEscape`, byte by byte over the UTF-8 encoding. -/
def QueryEscape (s : String) : String :=
  String.mk ((s.toList.flatMap String.utf8EncodeChar).flatMap escapeByte)

/-- Ordered insertion by key, for the key sort of `Encode`. -/
def insertByKey (p : String × List String) : Values → Values
  | [] => [p]
  | q :: rest => if q.1 < p.1 then q :: insertByKey p rest else p :: q :: rest

/-- The entries sorted by key in ascending order. -/
def sortByKey : Values → Values
  | [] => []
  | p :: rest => insertByKey p (sortByKey rest)

/-- The `key=value` pairs of a sorted map, every component escaped. -/
def encodePairs : Values → List String
  | [] => []
  | (k, vs) :: rest => vs.map (fun v => QueryEscape k ++ "=" ++ QueryEscape v) ++ encodePairs rest

/-- Method `Values.Encode`: the pairs sorted by key and joined by `&`. -/
def Values.Encode (v : Values) : String :=
  "&".intercalate (encodePairs (sortByKey v))

end url

/-- The collaborators and declarations the operations use that are not among
the sources: `net/url`, `net/http`, the `Error()` texts of foreign error
values, the package's `Error` normalizer, `session.NewAPIError`, and the
constants declared in other files of the packages. -/
structure Env where
  /-- Type `url.URL`. -/
  URL : Type
  /-- Function `url.Parse`. -/
  urlParse : String → Except GoErr URL
  /-- Method `URL.Query`. -/
  urlQuery : URL → url.Values
  /-- The assignment `uri.RawQuery = q`. -/
  urlSetRawQuery : URL → String → URL
  /-- Method `URL.String`. -/
  urlString : URL → String
  /-- The error of `http.NewRequestWithContext(ctx, method, url, nil)`. -/
  newRequestErr : String → String → Option GoErr
  /-- Method `Error()` of the normalized error. -/
  errorText : Error → String
  /-- Method `Error()` of the value `edgegriderr.ParseValidationErrors` returns. -/
  validationText : VErr → String
  /-- Method `Error()` of a filtered `validation.Errors`. -/
  errorsText : VErr → String
  /-- The `Error` method of the package (`errors.go`). -/
  Error : Response → Error
  /-- Function `session.NewAPIError(resp, logger)`. -/
  NewAPIError : Response → GoErr
  /-- Constant `iam.LostAccessUsers`. -/
  LostAccessUsers : String
  /-- Constant `iam.GainAccessUsers`. -/
  GainAccessUsers : String
  /-- Constant `papi.ActivationTypeActivate`. -/
  ActivationTypeActivate : String
  /-- Constant `papi.ActivationTypeDeactivate`. -/
  ActivationTypeDeactivate : String

/-- Method `Error()` of an error value. -/
def GoErr.Error (env : Env) : GoErr → String
  | .sentinel _ text => text
  | .api e => env.errorText e
  | .other msg => msg
  | .wrap msg _ => msg

namespace fmt

/-- An operand of `Sprintf` or `Errorf`. -/
inductive Arg where
  | str (s : String) : Arg
  | int (n : Int) : Arg
  | err (e : GoErr) : Arg
  | verr (v : VErr) : Arg

/-- The text a `%s`, `%d` or `%w` verb prints for an operand. -/
def Arg.text (env : Env) : Arg → String
  | .str s => s
  | .int n => toString n
  | .err e => e.Error env
  | .verr v => env.validationText v

/-- The formatting loop: every `%x` verb consumes the next operand. -/
def sprintChars (env : Env) : List Char → List Arg → List Char
  | [], _ => []
  | [c], _ => [c]
  | c :: v :: cs, args =>
    if c = '%' then
      match args with
      | a :: rest => (a.text env).toList ++ sprintChars env cs rest
      | [] => '%' :: '!' :: v :: "(MISSING)".toList ++ sprintChars env cs []
    else c :: sprintChars env (v :: cs) args

/-- Function `fmt.Sprintf` for the verbs `%s`, `%d` and `%w`. -/
def Sprintf (env : Env) (format : String) (args : List Arg) : String :=
  String.mk (sprintChars env format.toList args)

/-- The operand of the first `%w` verb, when it is an error. -/
def wrapped : List Char → List Arg → Option GoErr
  | [], _ => none
  | [_], _ => none
  | c :: v :: cs, args =>
    if c = '%' then
      match args with
      | a :: rest =>
        if v = 'w' then
          match a with
          | .err e => some e
          | _ => none
        else wrapped cs rest
      | [] => none
    else wrapped (v :: cs) args

/-- Function `fmt.Errorf`: the formatted message, wrapping the `%w` operand
when there is one. -/
def Errorf (env : Env) (format : String) (args : List Arg) : GoErr :=
  match wrapped format.toList args with
  | some e => .wrap (Sprintf env format args) e
  | none => .other (Sprintf env format args)

end fmt

namespace http

/-- Function `http.NewRequestWithContext(ctx, method, url, nil)`. -/
def NewRequestWithContext (env : Env) (method url : String) : Except GoErr HttpRequest :=
  match env.newRequestErr method url with
  | some err => .error err
  | none => .ok { Method := method, URL := url }

end http

namespace strconv

/-- Function `strconv.FormatBool`. -/
def FormatBool (b : Bool) : String :=
  if b then "true" else "false"

/-- Function `strconv.FormatInt(n, 10)`. -/
def FormatInt (n : Int) : String :=
  toString n

end strconv

/-- What a call returns: a value with a nil error, an error with no value,
or a run-time panic. -/
inductive Res (α : Type) where
  | ok (v : α) : Res α
  | err (e : GoErr) : Res α
  | panic (msg : String) : Res α

/-- The result of one invocation of an operation together with the calls of
the transport's `Exec` it made, in order: the request and the body handed in. -/
structure Outcome (α β : Type) where
  result : Res α
  calls : List (HttpRequest × β)

/-- Method `Exec(req, out, in...)` of the session: an error, or the response
together with the value decoded into `out`. -/
abbrev Exec (β ο : Type) := HttpRequest → β → Except GoErr (Response × ο)

/-- An operation as a program over the session: either it returns, or it calls
`Exec(req, out, in...)` with a request and a body and goes on with what the
transport answers. An operation reaches the transport in no other way. -/
inductive Prog (β ο α : Type) where
  | ret (r : Res α) : Prog β ο α
  | call (req : HttpRequest) (body : β)
      (rest : Except GoErr (Response × ο) → Prog β ο α) : Prog β ο α

/-- The call of another operation followed by the rest of this one. -/
def Prog.andThen {β ο α γ : Type} : Prog β ο α → (Res α → Prog β ο γ) → Prog β ο γ
  | .ret r, next => next r
  | .call req body rest, next => .call req body fun answer => (rest answer).andThen next

/-- A program run over the transport `exec`: every call of `Exec` applies the
transport to the request and the body and is recorded, in order. -/
@[simp]
def Prog.run {β ο α : Type} (exec : Exec β ο) : Prog β ο α → Outcome α β
  | .ret r => { result := r, calls := [] }
  | .call req body rest =>
    { result := (Prog.run exec (rest (exec req body))).result,
      calls := (req, body) :: (Prog.run exec (rest (exec req body))).calls }

/-- A transport with a state of its own: its answer to a call may depend on
the calls it has received, and every call moves it to a next state. -/
abbrev Transport (σ β ο : Type) := σ → HttpRequest → β → Except GoErr (Response × ο) × σ

/-- A program run over a transport with state, from the state `s`: the result
and the state the transport is left in. -/
@[simp]
def Prog.runIn {σ β ο α : Type} (transport : Transport σ β ο) : Prog β ο α → σ → Res α × σ
  | .ret r, s => (r, s)
  | .call req body rest, s =>
    Prog.runIn transport (rest (transport s req body).1) (transport s req body).2

namespace netstorage

/-- Modelled from the spec: the fixed title of the fallback, as the test
`TestNewError` expects it. -/
def unmarshalFailedTitle : String :=
  "Failed to unmarshal error body. NetStorage API failed. Check details for more information."

/-- Modelled from the spec: the `Error` method of `netstorage` (its
`errors.go` is not among the sources). The body is parsed as a structured
object; on success the error is populated from it, on failure the title is the
fixed message, the detail the raw body and the type empty; the status always
comes from the response. The JSON decoder is the argument `unmarshal`: the
decoded `Error`, or `none` when the body does not parse. -/
def Error (unmarshal : String → Option Error) (r : Response) : Error :=
  match unmarshal r.Body with
  | some e => { e with Status := r.StatusCode }
  | none =>
    { Type_ := "", Title := unmarshalFailedTitle, Detail := r.Body, Status := r.StatusCode }

end netstorage

namespace papi

/-- Modelled from the spec: `papi.ErrStructValidation` is declared outside
the sources; the generic "struct validation" error kind. -/
def ErrStructValidation : GoErr := .sentinel "papi.ErrStructValidation" "struct validation"

/-- Modelled from the spec: `papi.ErrInvalidResponseLink` is declared outside
the sources; the "invalid response link" sentinel. -/
def ErrInvalidResponseLink : GoErr := .sentinel "papi.ErrInvalidResponseLink" "invalid response link"

/-- The segments of a path split on `/`; a path without `/` is one segment. -/
def splitSlash : List Char → List (List Char)
  | [] => [[]]
  | c :: cs =>
    if c = '/' then [] :: splitSlash cs
    else
      match splitSlash cs with
      | [] => [[c]]
      | seg :: segs => (c :: seg) :: segs

/-- The link without its query string: everything before the first `?`. -/
def dropQuery (link : List Char) : List Char :=
  link.takeWhile (fun c => c ≠ '?')

/-- Modelled from the spec: `ResponseLinkParse` is declared outside the
sources. A link has the form `.../<collection>/<id>{?query}` and resolving it
yields the `<id>` segment: the query string is discarded, the path is split on
`/` and the final segment is returned; it fails with the "invalid response
link" condition when the path is empty, has no `/`-delimited segments, or its
final segment is empty. -/
def ResponseLinkParse (link : String) : Except GoErr String :=
  let segments := splitSlash (dropQuery link.toList)
  if segments.length < 2 then .error ErrInvalidResponseLink
  else
    match segments.getLast? with
    | none => .error ErrInvalidResponseLink
    | some [] => .error ErrInvalidResponseLink
    | some (c :: cs) => .ok (String.mk (c :: cs))

/-- Type `ActivateOrDeactivateIncludeRequest`; `ActivationNetwork` is a string
type. -/
structure ActivateOrDeactivateIncludeRequest where
  IncludeID : String
  Version : Int
  Network : String
  Note : String
  NotifyEmails : List String
  AcknowledgeWarnings : List String
  AcknowledgeAllWarnings : Bool
  IgnoreHTTPErrors : Option Bool
deriving DecidableEq, Repr

/-- Type `ActivateIncludeRequest`. -/
abbrev ActivateIncludeRequest := ActivateOrDeactivateIncludeRequest

/-- Type `DeactivateIncludeRequest`. -/
abbrev DeactivateIncludeRequest := ActivateOrDeactivateIncludeRequest

/-- The anonymous struct `requestBody` of `ActivateInclude` and
`DeactivateInclude`: the request and the activation type. -/
structure IncludeRequestBody where
  Request : ActivateOrDeactivateIncludeRequest
  ActivationType : String
deriving DecidableEq, Repr

/-- Type `ActivationIncludeResponse`. -/
structure ActivationIncludeResponse where
  ActivationID : String
  ActivationLink : String
deriving DecidableEq, Repr

/-- Type `DeactivationIncludeResponse`. -/
structure DeactivationIncludeResponse where
  ActivationID : String
  ActivationLink : String
deriving DecidableEq, Repr

/-- Type `GetIncludeActivationRequest`. -/
structure GetIncludeActivationRequest where
  IncludeID : String
  ActivationID : String
deriving DecidableEq, Repr

/-- Type `ValidationSummary`. -/
structure ValidationSummary where
  CompletePercent : Float
  HasValidationError : Bool
  HasValidationWarning : Bool
  HasSystemError : Bool
  HasClientError : Bool
  MessageState : String

/-- Type `ErrorItem`. -/
structure ErrorItem where
  VersionID : Int
  PropertyName : String
  VersionNumber : Int
  HasValidationError : Bool
  HasValidationWarning : Bool
  ValidationResultsLink : String

/-- Type `ValidationProgress`. -/
structure ValidationProgress where
  ErrorItems : List ErrorItem

/-- Type `Validations`. -/
structure Validations where
  ValidationSummary : ValidationSummary
  ValidationProgressItemList : ValidationProgress
  Network : String

/-- Type `IncludeActivation`; `F` stands for `ActivationFallbackInfo`, which
is declared outside the sources, and the enumerations `ActivationNetwork`,
`ActivationType`, `ActivationStatus` and `IncludeType` are string types. -/
structure IncludeActivation (F : Type) where
  ActivationID : String
  Network : String
  ActivationType : String
  Status : String
  SubmitDate : String
  UpdateDate : String
  Note : String
  NotifyEmails : List String
  FMAActivationState : String
  FallbackInfo : Option F
  IncludeID : String
  IncludeName : String
  IncludeType : String
  IncludeVersion : Int
  IncludeActivationID : String

/-- Type `IncludeActivationsRes`. -/
structure IncludeActivationsRes (F : Type) where
  Activations : List (IncludeActivation F)

/-- Type `IncludeActivationResponse`. -/
structure IncludeActivationResponse (F : Type) where
  AccountID : String
  ContractID : String
  GroupID : String
  Activations : IncludeActivationsRes F
  Validations : Option Validations

/-- Type `ListIncludeActivationsRequest`. -/
structure ListIncludeActivationsRequest where
  IncludeID : String
  ContractID : String
  GroupID : String
deriving DecidableEq, Repr

/-- Type `IncludeActivationsResponse`. -/
structure IncludeActivationsResponse (F : Type) where
  AccountID : String
  ContractID : String
  GroupID : String
  Activations : IncludeActivationsRes F

/-- Method `ActivateIncludeRequest.Validate`. -/
def ActivateIncludeRequest.Validate (i : ActivateIncludeRequest) : Option VErr :=
  edgegriderr.ParseValidationErrors [
    ("IncludeID", validation.Validate i.IncludeID [validation.Required]),
    ("Version", validation.Validate i.Version [validation.Required]),
    ("Network", validation.Validate i.Network [validation.Required]),
    ("NotifyEmails", validation.Validate i.NotifyEmails [validation.Required])]

/-- Method `DeactivateIncludeRequest.Validate`. -/
def DeactivateIncludeRequest.Validate (i : DeactivateIncludeRequest) : Option VErr :=
  edgegriderr.ParseValidationErrors [
    ("IncludeID", validation.Validate i.IncludeID [validation.Required]),
    ("Version", validation.Validate i.Version [validation.Required]),
    ("Network", validation.Validate i.Network [validation.Required]),
    ("NotifyEmails", validation.Validate i.NotifyEmails [validation.Required])]

/-- Method `GetIncludeActivationRequest.Validate`. -/
def GetIncludeActivationRequest.Validate (i : GetIncludeActivationRequest) : Option VErr :=
  edgegriderr.ParseValidationErrors [
    ("IncludeID", validation.Validate i.IncludeID [validation.Required]),
    ("ActivationID", validation.Validate i.ActivationID [validation.Required])]

/-- Method `ListIncludeActivationsRequest.Validate`. -/
def ListIncludeActivationsRequest.Validate (i : ListIncludeActivationsRequest) : Option VErr :=
  edgegriderr.ParseValidationErrors [
    ("IncludeID", validation.Validate i.IncludeID [validation.Required]),
    ("ContractID", validation.Validate i.ContractID [validation.Required]),
    ("GroupID", validation.Validate i.GroupID [validation.Required])]

/-- Sentinel `ErrActivateInclude`. -/
def ErrActivateInclude : GoErr := .sentinel "papi.ErrActivateInclude" "activate include"

/-- Sentinel `ErrDeactivateInclude`. -/
def ErrDeactivateInclude : GoErr := .sentinel "papi.ErrDeactivateInclude" "deactivate include"

/-- Sentinel `ErrGetIncludeActivation`. -/
def ErrGetIncludeActivation : GoErr :=
  .sentinel "papi.ErrGetIncludeActivation" "get include activation"

/-- Sentinel `ErrListIncludeActivations`. -/
def ErrListIncludeActivations : GoErr :=
  .sentinel "papi.ErrListIncludeActivations" "list include activations"

/-- Function `tools.BoolPtr`. -/
def BoolPtr (b : Bool) : Option Bool := some b

/-- Operation `ActivateInclude`, as a program over the session. -/
def ActivateInclude.prog (env : Env)
    (params : ActivateIncludeRequest) :
    Prog IncludeRequestBody ActivationIncludeResponse ActivationIncludeResponse :=
  match ActivateIncludeRequest.Validate params with
  | some err =>
    Prog.ret (.err (fmt.Errorf env "%s: %w: %s" [.err ErrActivateInclude, .err ErrStructValidation, .verr err]))
  | none =>
    let params : ActivateIncludeRequest :=
      if params.IgnoreHTTPErrors = none then { params with IgnoreHTTPErrors := BoolPtr true }
      else params
    let requestBody : IncludeRequestBody :=
      { Request := params, ActivationType := env.ActivationTypeActivate }
    let uri := fmt.Sprintf env "/papi/v1/includes/%s/activations" [.str params.IncludeID]
    match http.NewRequestWithContext env "POST" uri with
    | .error err =>
      Prog.ret (.err (fmt.Errorf env "%w: failed to create request: %s" [.err ErrActivateInclude, .err err]))
    | .ok req =>
      Prog.call req requestBody fun
      | .error err =>
        Prog.ret (.err (fmt.Errorf env "%w: request failed: %s" [.err ErrActivateInclude, .err err]))
      | .ok (resp, result) =>
        if resp.StatusCode ≠ 201 then
          Prog.ret (.err (fmt.Errorf env "%s: %w" [.err ErrActivateInclude, .err (.api (env.Error resp))]))
        else
          match ResponseLinkParse result.ActivationLink with
          | .error err =>
            Prog.ret (.err (fmt.Errorf env "%s: %w: %s"
              [.err ErrActivateInclude, .err ErrInvalidResponseLink, .err err]))
          | .ok id => Prog.ret (.ok { result with ActivationID := id })

/-- Operation `ActivateInclude` on a session whose transport is `exec`. -/
def ActivateInclude (env : Env) (exec : Exec IncludeRequestBody ActivationIncludeResponse)
    (params : ActivateIncludeRequest) : Outcome ActivationIncludeResponse IncludeRequestBody :=
  (ActivateInclude.prog env params).run exec

/-- Operation `DeactivateInclude`, as a program over the session. -/
def DeactivateInclude.prog (env : Env)
    (params : DeactivateIncludeRequest) :
    Prog IncludeRequestBody DeactivationIncludeResponse DeactivationIncludeResponse :=
  match DeactivateIncludeRequest.Validate params with
  | some err =>
    Prog.ret (.err (fmt.Errorf env "%s: %w: %s"
      [.err ErrDeactivateInclude, .err ErrStructValidation, .verr err]))
  | none =>
    let params : DeactivateIncludeRequest :=
      if params.IgnoreHTTPErrors = none then { params with IgnoreHTTPErrors := BoolPtr true }
      else params
    let requestBody : IncludeRequestBody :=
      { Request := params, ActivationType := env.ActivationTypeDeactivate }
    let uri := fmt.Sprintf env "/papi/v1/includes/%s/activations" [.str params.IncludeID]
    match http.NewRequestWithContext env "POST" uri with
    | .error err =>
      Prog.ret (.err (fmt.Errorf env "%w: failed to create request: %s" [.err ErrDeactivateInclude, .err err]))
    | .ok req =>
      Prog.call req requestBody fun
      | .error err =>
        Prog.ret (.err (fmt.Errorf env "%w: request failed: %s" [.err ErrDeactivateInclude, .err err]))
      | .ok (resp, result) =>
        if resp.StatusCode ≠ 201 then
          Prog.ret (.err (fmt.Errorf env "%s: %w" [.err ErrDeactivateInclude, .err (.api (env.Error resp))]))
        else
          match ResponseLinkParse result.ActivationLink with
          | .error err =>
            Prog.ret (.err (fmt.Errorf env "%s: %w: %s"
              [.err ErrDeactivateInclude, .err ErrInvalidResponseLink, .err err]))
          | .ok id => Prog.ret (.ok { result with ActivationID := id })

/-- Operation `DeactivateInclude` on a session whose transport is `exec`. -/
def DeactivateInclude (env : Env) (exec : Exec IncludeRequestBody DeactivationIncludeResponse)
    (params : DeactivateIncludeRequest) : Outcome DeactivationIncludeResponse IncludeRequestBody :=
  (DeactivateInclude.prog env params).run exec

/-- Operation `GetIncludeActivation`, as a program over the session. -/
def GetIncludeActivation.prog {F : Type} (env : Env)
    (params : GetIncludeActivationRequest) :
    Prog Unit (IncludeActivationResponse F) (IncludeActivationResponse F) :=
  match params.Validate with
  | some err =>
    Prog.ret (.err (fmt.Errorf env "%s: %w: %s"
      [.err ErrGetIncludeActivation, .err ErrStructValidation, .verr err]))
  | none =>
    let uri := fmt.Sprintf env "/papi/v1/includes/%s/activations/%s"
      [.str params.IncludeID, .str params.ActivationID]
    match http.NewRequestWithContext env "GET" uri with
    | .error err =>
      Prog.ret (.err (fmt.Errorf env "%w: failed to create request: %s"
        [.err ErrGetIncludeActivation, .err err]))
    | .ok req =>
      Prog.call req () fun
      | .error err =>
        Prog.ret (.err (fmt.Errorf env "%w: request failed: %s" [.err ErrGetIncludeActivation, .err err]))
      | .ok (resp, result) =>
        if resp.StatusCode ≠ 200 then
          Prog.ret (.err (fmt.Errorf env "%s: %w"
            [.err ErrGetIncludeActivation, .err (.api (env.Error resp))]))
        else Prog.ret (.ok result)

/-- Operation `GetIncludeActivation` on a session whose transport is `exec`. -/
def GetIncludeActivation {F : Type} (env : Env) (exec : Exec Unit (IncludeActivationResponse F))
    (params : GetIncludeActivationRequest) : Outcome (IncludeActivationResponse F) Unit :=
  (GetIncludeActivation.prog env params).run exec

/-- Operation `ListIncludeActivations`, as a program over the session. -/
def ListIncludeActivations.prog {F : Type} (env : Env)
    (params : ListIncludeActivationsRequest) :
    Prog Unit (IncludeActivationsResponse F) (IncludeActivationsResponse F) :=
  match params.Validate with
  | some err =>
    Prog.ret (.err (fmt.Errorf env "%s: %w: %s"
      [.err ErrListIncludeActivations, .err ErrStructValidation, .verr err]))
  | none =>
    match env.urlParse (fmt.Sprintf env "/papi/v1/includes/%s/activations" [.str params.IncludeID]) with
    | .error err =>
      Prog.ret (.err (fmt.Errorf env "%w: failed to parse url: %s"
        [.err ErrListIncludeActivations, .err err]))
    | .ok uri =>
      let q := env.urlQuery uri
      let q := q.Add "contractId" params.ContractID
      let q := q.Add "groupId" params.GroupID
      let uri := env.urlSetRawQuery uri q.Encode
      match http.NewRequestWithContext env "GET" (env.urlString uri) with
      | .error err =>
        Prog.ret (.err (fmt.Errorf env "%w: failed to create request: %s"
          [.err ErrListIncludeActivations, .err err]))
      | .ok req =>
        Prog.call req () fun
        | .error err =>
          Prog.ret (.err (fmt.Errorf env "%w: request failed: %s"
            [.err ErrListIncludeActivations, .err err]))
        | .ok (resp, result) =>
          if resp.StatusCode ≠ 200 then
            Prog.ret (.err (fmt.Errorf env "%s: %w"
              [.err ErrListIncludeActivations, .err (.api (env.Error resp))]))
          else Prog.ret (.ok result)

/-- Operation `ListIncludeActivations` on a session whose transport is `exec`. -/
def ListIncludeActivations {F : Type} (env : Env) (exec : Exec Unit (IncludeActivationsResponse F))
    (params : ListIncludeActivationsRequest) : Outcome (IncludeActivationsResponse F) Unit :=
  (ListIncludeActivations.prog env params).run exec

end papi

namespace papi

/-- Type `PropertyCloneFrom`. -/
structure PropertyCloneFrom where
  CloneFromVersionEtag : String
  CopyHostnames : Bool
  PropertyID : String
  Version : Int
deriving DecidableEq, Repr

/-- Type `Property`. -/
structure Property where
  AccountID : String
  AssetID : String
  ContractID : String
  GroupID : String
  LatestVersion : Int
  Note : String
  ProductID : String
  ProductionVersion : Option Int
  PropertyID : String
  PropertyName : String
  RuleFormat : String
  StagingVersion : Option Int
deriving DecidableEq, Repr

/-- Type `PropertiesItems`: a slice of pointers to properties. -/
structure PropertiesItems where
  Items : List (Option Property)
deriving DecidableEq, Repr

/-- Type `GetPropertiesRequest`. -/
structure GetPropertiesRequest where
  ContractID : String
  GroupID : String
deriving DecidableEq, Repr

/-- Type `GetPropertiesResponse`. -/
structure GetPropertiesResponse where
  Properties : PropertiesItems
deriving DecidableEq, Repr

/-- Type `PropertyCreate`. -/
structure PropertyCreate where
  CloneFrom : Option PropertyCloneFrom
  ProductID : String
  PropertyName : String
  RuleFormat : String
deriving DecidableEq, Repr

/-- Type `CreatePropertyRequest`. -/
structure CreatePropertyRequest where
  ContractID : String
  GroupID : String
  Property : PropertyCreate
deriving DecidableEq, Repr

/-- Type `CreatePropertyResponse`; `R` stands for the embedded `Response`,
which is declared outside the sources. -/
structure CreatePropertyResponse (R : Type) where
  Response : R
  PropertyID : String
  PropertyLink : String

/-- Type `GetPropertyRequest`. -/
structure GetPropertyRequest where
  ContractID : String
  GroupID : String
  PropertyID : String
deriving DecidableEq, Repr

/-- Type `GetPropertyResponse`; `R` stands for the embedded `Response`. -/
structure GetPropertyResponse (R : Type) where
  Response : R
  Properties : PropertiesItems
  Property : Option Property

/-- Type `RemovePropertyRequest`. -/
structure RemovePropertyRequest where
  PropertyID : String
  ContractID : String
  GroupID : String
deriving DecidableEq, Repr

/-- Type `RemovePropertyResponse`. -/
structure RemovePropertyResponse where
  Message : String
deriving DecidableEq, Repr

/-- Method `GetPropertiesRequest.Validate`. -/
def GetPropertiesRequest.Validate (v : GetPropertiesRequest) : Option VErr :=
  validation.Errors.Filter [
    ("ContractID", validation.Validate v.ContractID [validation.Required]),
    ("GroupID", validation.Validate v.GroupID [validation.Required])]

/-- Method `PropertyCloneFrom.Validate`. -/
def PropertyCloneFrom.Validate (c : PropertyCloneFrom) : Option VErr :=
  validation.Errors.Filter [
    ("PropertyID", validation.Validate c.PropertyID []),
    ("Version", validation.Validate c.Version [])]

/-- Kind `Struct` with a `Validate` method: never empty. -/
instance : GoValue PropertyCloneFrom where
  isEmpty _ := false
  own c := c.Validate

/-- Method `PropertyCreate.Validate`. -/
def PropertyCreate.Validate (p : PropertyCreate) : Option VErr :=
  validation.Errors.Filter [
    ("ProductID", validation.Validate p.ProductID [validation.Required]),
    ("PropertyName", validation.Validate p.PropertyName [validation.Required]),
    ("CloneFrom", validation.Validate p.CloneFrom [])]

/-- Kind `Struct` with a `Validate` method: never empty. -/
instance : GoValue PropertyCreate where
  isEmpty _ := false
  own p := p.Validate

/-- Method `CreatePropertyRequest.Validate`. -/
def CreatePropertyRequest.Validate (v : CreatePropertyRequest) : Option VErr :=
  validation.Errors.Filter [
    ("ContractID", validation.Validate v.ContractID [validation.Required]),
    ("GroupID", validation.Validate v.GroupID [validation.Required]),
    ("Property", validation.Validate v.Property [])]

/-- Method `GetPropertyRequest.Validate`. -/
def GetPropertyRequest.Validate (v : GetPropertyRequest) : Option VErr :=
  validation.Errors.Filter [
    ("PropertyID", validation.Validate v.PropertyID [validation.Required])]

/-- Method `RemovePropertyRequest.Validate`. -/
def RemovePropertyRequest.Validate (v : RemovePropertyRequest) : Option VErr :=
  validation.Errors.Filter [
    ("PropertyID", validation.Validate v.PropertyID [validation.Required])]

/-- Operation `GetProperties`, as a program over the session. -/
def GetProperties.prog (env : Env)
    (params : GetPropertiesRequest) : Prog Unit GetPropertiesResponse GetPropertiesResponse :=
  match params.Validate with
  | some err =>
    Prog.ret (.err (fmt.Errorf env "%w: %s" [.err ErrStructValidation, .str (env.errorsText err)]))
  | none =>
    let uri := fmt.Sprintf env "/papi/v1/properties?contractId=%s&groupId=%s"
      [.str params.ContractID, .str params.GroupID]
    match http.NewRequestWithContext env "GET" uri with
    | .error err =>
      Prog.ret (.err (fmt.Errorf env "failed to create getproperties request: %w" [.err err]))
    | .ok req =>
      Prog.call req () fun
      | .error err =>
        Prog.ret (.err (fmt.Errorf env "getproperties request failed: %w" [.err err]))
      | .ok (resp, rval) =>
        if resp.StatusCode ≠ 200 then Prog.ret (.err (env.NewAPIError resp))
        else Prog.ret (.ok rval)

/-- Operation `GetProperties` on a session whose transport is `exec`. -/
def GetProperties (env : Env) (exec : Exec Unit GetPropertiesResponse)
    (params : GetPropertiesRequest) : Outcome GetPropertiesResponse Unit :=
  (GetProperties.prog env params).run exec

/-- Operation `CreateProperty`, as a program over the session. -/
def CreateProperty.prog {R : Type} (env : Env)
    (params : CreatePropertyRequest) :
    Prog PropertyCreate (CreatePropertyResponse R) (CreatePropertyResponse R) :=
  match params.Validate with
  | some err =>
    Prog.ret (.err (fmt.Errorf env "%w: %s" [.err ErrStructValidation, .str (env.errorsText err)]))
  | none =>
    let uri := fmt.Sprintf env "/papi/v1/properties?contractId=%s&groupId=%s"
      [.str params.ContractID, .str params.GroupID]
    match http.NewRequestWithContext env "POST" uri with
    | .error err =>
      Prog.ret (.err (fmt.Errorf env "failed to create createproperty request: %w" [.err err]))
    | .ok req =>
      Prog.call req params.Property fun
      | .error err =>
        Prog.ret (.err (fmt.Errorf env "createproperty request failed: %w" [.err err]))
      | .ok (resp, rval) =>
        if resp.StatusCode ≠ 201 then Prog.ret (.err (env.NewAPIError resp))
        else
          match ResponseLinkParse rval.PropertyLink with
          | .error err =>
            Prog.ret (.err (fmt.Errorf env "%w: %s" [.err ErrInvalidResponseLink, .str (err.Error env)]))
          | .ok id => Prog.ret (.ok { rval with PropertyID := id })

/-- Operation `CreateProperty` on a session whose transport is `exec`. -/
def CreateProperty {R : Type} (env : Env) (exec : Exec PropertyCreate (CreatePropertyResponse R))
    (params : CreatePropertyRequest) : Outcome (CreatePropertyResponse R) PropertyCreate :=
  (CreateProperty.prog env params).run exec

/-- Operation `GetProperty`, as a program over the session; indexing an empty
`Items` panics. -/
def GetProperty.prog {R : Type} (env : Env)
    (params : GetPropertyRequest) : Prog Unit (GetPropertyResponse R) (GetPropertyResponse R) :=
  match params.Validate with
  | some err =>
    Prog.ret (.err (fmt.Errorf env "%w: %s" [.err ErrStructValidation, .str (env.errorsText err)]))
  | none =>
    match env.urlParse (fmt.Sprintf env "/papi/v1/properties/%s" [.str params.PropertyID]) with
    | .error err => Prog.ret (.err (fmt.Errorf env "failed to parse url: %w" [.err err]))
    | .ok uri =>
      let q := env.urlQuery uri
      let q := if params.GroupID ≠ "" then q.Add "groupId" params.GroupID else q
      let q := if params.ContractID ≠ "" then q.Add "contractId" params.ContractID else q
      let uri := env.urlSetRawQuery uri q.Encode
      match http.NewRequestWithContext env "GET" (env.urlString uri) with
      | .error err =>
        Prog.ret (.err (fmt.Errorf env "failed to create getproperty request: %w" [.err err]))
      | .ok req =>
        Prog.call req () fun
        | .error err =>
          Prog.ret (.err (fmt.Errorf env "getproperty request failed: %w" [.err err]))
        | .ok (resp, rval) =>
          if resp.StatusCode ≠ 200 then Prog.ret (.err (env.NewAPIError resp))
          else
            match rval.Properties.Items with
            | [] => Prog.ret (.panic "runtime error: index out of range [0] with length 0")
            | first :: _ => Prog.ret (.ok { rval with Property := first })

/-- Operation `GetProperty` on a session whose transport is `exec`. -/
def GetProperty {R : Type} (env : Env) (exec : Exec Unit (GetPropertyResponse R))
    (params : GetPropertyRequest) : Outcome (GetPropertyResponse R) Unit :=
  (GetProperty.prog env params).run exec

/-- Operation `RemoveProperty`, as a program over the session. -/
def RemoveProperty.prog (env : Env)
    (params : RemovePropertyRequest) : Prog Unit RemovePropertyResponse RemovePropertyResponse :=
  match params.Validate with
  | some err =>
    Prog.ret (.err (fmt.Errorf env "%w: %s" [.err ErrStructValidation, .str (env.errorsText err)]))
  | none =>
    match env.urlParse (fmt.Sprintf env "/papi/v1/properties/%s" [.str params.PropertyID]) with
    | .error err => Prog.ret (.err (fmt.Errorf env "failed parse url: %w" [.err err]))
    | .ok uri =>
      let q := env.urlQuery uri
      let q := if params.GroupID ≠ "" then q.Add "groupId" params.GroupID else q
      let q := if params.ContractID ≠ "" then q.Add "contractId" params.ContractID else q
      let uri := env.urlSetRawQuery uri q.Encode
      match http.NewRequestWithContext env "DELETE" (env.urlString uri) with
      | .error err =>
        Prog.ret (.err (fmt.Errorf env "failed to create delproperty request: %w" [.err err]))
      | .ok req =>
        Prog.call req () fun
        | .error err =>
          Prog.ret (.err (fmt.Errorf env "delproperty request failed: %w" [.err err]))
        | .ok (resp, rval) =>
          if resp.StatusCode ≠ 200 then Prog.ret (.err (env.NewAPIError resp))
          else Prog.ret (.ok rval)

/-- Operation `RemoveProperty` on a session whose transport is `exec`. -/
def RemoveProperty (env : Env) (exec : Exec Unit RemovePropertyResponse)
    (params : RemovePropertyRequest) : Outcome RemovePropertyResponse Unit :=
  (RemoveProperty.prog env params).run exec

end papi

namespace iam

/-- Type `ListPropertiesRequest`. -/
structure ListPropertiesRequest where
  GroupID : Int
  Actions : Bool
deriving DecidableEq, Repr

/-- Type `ListUsersForPropertyRequest`. -/
structure ListUsersForPropertyRequest where
  PropertyID : Int
  UserType : String
deriving DecidableEq, Repr

/-- Type `GetPropertyRequest`. -/
structure GetPropertyRequest where
  PropertyID : Int
  GroupID : Int
deriving DecidableEq, Repr

/-- Type `MapPropertyNameToIDRequest`. -/
abbrev MapPropertyNameToIDRequest := String

/-- Type `BlockUserItem`. -/
structure BlockUserItem where
  UIIdentityID : String
deriving DecidableEq, Repr

/-- Type `BlockUsersReqBody`. -/
abbrev BlockUsersReqBody := List BlockUserItem

/-- Type `BlockUsersRequest`. -/
structure BlockUsersRequest where
  PropertyID : Int
  BodyParams : BlockUsersReqBody
deriving DecidableEq, Repr

/-- Type `MovePropertyReqBody`. -/
structure MovePropertyReqBody where
  DestinationGroupID : Int
  SourceGroupID : Int
deriving DecidableEq, Repr

/-- Type `MovePropertyRequest`. -/
structure MovePropertyRequest where
  PropertyID : Int
  BodyParams : MovePropertyReqBody
deriving DecidableEq, Repr

/-- Type `MapPropertyIDToNameRequest`. -/
structure MapPropertyIDToNameRequest where
  PropertyID : Int
  GroupID : Int
deriving DecidableEq, Repr

/-- Type `PropertyActions`. -/
structure PropertyActions where
  Move : Bool
deriving DecidableEq, Repr

/-- Type `Property`. -/
structure Property where
  PropertyID : Int
  PropertyName : String
  PropertyTypeDescription : String
  GroupID : Int
  GroupName : String
  Actions : PropertyActions
deriving DecidableEq, Repr

/-- Type `UsersForProperty`. -/
structure UsersForProperty where
  FirstName : String
  IsBlocked : Bool
  LastName : String
  UIIdentityID : String
  UIUserName : String
deriving DecidableEq, Repr

/-- Type `GetPropertyResponse`; the two `time.Time` fields are kept as the
text they were decoded from. -/
structure GetPropertyResponse where
  ARLConfigFile : String
  CreatedBy : String
  CreatedDate : String
  GroupID : Int
  GroupName : String
  ModifiedBy : String
  ModifiedDate : String
  PropertyID : Int
  PropertyName : String
deriving DecidableEq, Repr

/-- Type `ListPropertiesResponse`. -/
abbrev ListPropertiesResponse := List Property

/-- Type `ListUsersForPropertyResponse`. -/
abbrev ListUsersForPropertyResponse := List UsersForProperty

/-- Type `BlockUsersResponse`. -/
abbrev BlockUsersResponse := List UsersForProperty

/-- Method `ListUsersForPropertyRequest.Validate`. -/
def ListUsersForPropertyRequest.Validate (env : Env) (r : ListUsersForPropertyRequest) : Option VErr :=
  edgegriderr.ParseValidationErrors [
    ("PropertyID", validation.Validate r.PropertyID [validation.Required]),
    ("UserType", validation.Validate r.UserType [validation.In [env.LostAccessUsers, env.GainAccessUsers]])]

/-- Method `GetPropertyRequest.Validate`. -/
def GetPropertyRequest.Validate (r : GetPropertyRequest) : Option VErr :=
  edgegriderr.ParseValidationErrors [
    ("PropertyID", validation.Validate r.PropertyID [validation.Required]),
    ("GroupID", validation.Validate r.GroupID [validation.Required])]

/-- Method `MapPropertyIDToNameRequest.Validate`. -/
def MapPropertyIDToNameRequest.Validate (r : MapPropertyIDToNameRequest) : Option VErr :=
  edgegriderr.ParseValidationErrors [
    ("PropertyID", validation.Validate r.PropertyID [validation.Required]),
    ("GroupID", validation.Validate r.GroupID [validation.Required])]

/-- Method `MovePropertyReqBody.Validate`. -/
def MovePropertyReqBody.Validate (r : MovePropertyReqBody) : Option VErr :=
  edgegriderr.ParseValidationErrors [
    ("DestinationGroupID", validation.Validate r.DestinationGroupID [validation.Required]),
    ("SourceGroupID", validation.Validate r.SourceGroupID [validation.Required])]

/-- Kind `Struct` with a `Validate` method: never empty. -/
instance : GoValue MovePropertyReqBody where
  isEmpty _ := false
  own r := r.Validate

/-- Method `MovePropertyRequest.Validate`. -/
def MovePropertyRequest.Validate (r : MovePropertyRequest) : Option VErr :=
  edgegriderr.ParseValidationErrors [
    ("PropertyID", validation.Validate r.PropertyID [validation.Required]),
    ("BodyParams", validation.Validate r.BodyParams [validation.Required])]

/-- Method `BlockUserItem.Validate`. -/
def BlockUserItem.Validate (r : BlockUserItem) : Option VErr :=
  edgegriderr.ParseValidationErrors [
    ("UIIdentityID", validation.Validate r.UIIdentityID [validation.Required])]

/-- Kind `Struct` with a `Validate` method: never empty. -/
instance : GoValue BlockUserItem where
  isEmpty _ := false
  own r := r.Validate

/-- Method `BlockUsersRequest.Validate`. -/
def BlockUsersRequest.Validate (r : BlockUsersRequest) : Option VErr :=
  edgegriderr.ParseValidationErrors [
    ("PropertyID", validation.Validate r.PropertyID [validation.Required]),
    ("BodyParams", validation.Validate r.BodyParams [validation.Required])]

/-- Modelled from the spec: `iam.ErrStructValidation` is declared outside the
sources; the generic "struct validation" error kind, with the text its
sibling declaration in `cloudlets.go` has. -/
def ErrStructValidation : GoErr := .sentinel "iam.ErrStructValidation" "struct validation"

/-- Sentinel `ErrListProperties`. -/
def ErrListProperties : GoErr := .sentinel "iam.ErrListProperties" "list properties"

/-- Sentinel `ErrListUsersForProperty`. -/
def ErrListUsersForProperty : GoErr := .sentinel "iam.ErrListUsersForProperty" "list users for property"

/-- Sentinel `ErrGetProperty`. -/
def ErrGetProperty : GoErr := .sentinel "iam.ErrGetProperty" "get property"

/-- Sentinel `ErrMoveProperty`. -/
def ErrMoveProperty : GoErr := .sentinel "iam.ErrMoveProperty" "move property"

/-- Sentinel `ErrMapPropertyIDToName`. -/
def ErrMapPropertyIDToName : GoErr := .sentinel "iam.ErrMapPropertyIDToName" "map property by id"

/-- Sentinel `ErrMapPropertyNameToID`. -/
def ErrMapPropertyNameToID : GoErr := .sentinel "iam.ErrMapPropertyNameToID" "map property by name"

/-- Sentinel `ErrNoProperty`. -/
def ErrNoProperty : GoErr := .sentinel "iam.ErrNoProperty" "no such property"

/-- Sentinel `ErrBlockUsers`. -/
def ErrBlockUsers : GoErr := .sentinel "iam.ErrBlockUsers" "block users"

/-- Operation `ListProperties`, as a program over the session. -/
def ListProperties.prog (env : Env)
    (params : ListPropertiesRequest) : Prog Unit ListPropertiesResponse ListPropertiesResponse :=
  match env.urlParse "/identity-management/v3/user-admin/properties" with
  | .error err =>
    Prog.ret (.err (fmt.Errorf env "%w: failed to parse url: %s" [.err ErrListProperties, .err err]))
  | .ok uri =>
    let q := env.urlQuery uri
    let q := q.Add "actions" (strconv.FormatBool params.Actions)
    let q := if params.GroupID ≠ 0 then q.Add "groupId" (strconv.FormatInt params.GroupID) else q
    let uri := env.urlSetRawQuery uri q.Encode
    match http.NewRequestWithContext env "GET" (env.urlString uri) with
    | .error err =>
      Prog.ret (.err (fmt.Errorf env "%w: failed to create request: %s" [.err ErrListProperties, .err err]))
    | .ok req =>
      Prog.call req () fun
      | .error err =>
        Prog.ret (.err (fmt.Errorf env "%w: request failed: %s" [.err ErrListProperties, .err err]))
      | .ok (resp, result) =>
        if resp.StatusCode ≠ 200 then
          Prog.ret (.err (fmt.Errorf env "%s: %w" [.err ErrListProperties, .err (.api (env.Error resp))]))
        else Prog.ret (.ok result)

/-- Operation `ListProperties` on a session whose transport is `exec`. -/
def ListProperties (env : Env) (exec : Exec Unit ListPropertiesResponse)
    (params : ListPropertiesRequest) : Outcome ListPropertiesResponse Unit :=
  (ListProperties.prog env params).run exec

/-- Operation `ListUsersForProperty`, as a program over the session. -/
def ListUsersForProperty.prog (env : Env)
    (params : ListUsersForPropertyRequest) :
    Prog Unit ListUsersForPropertyResponse ListUsersForPropertyResponse :=
  match params.Validate env with
  | some err =>
    Prog.ret (.err (fmt.Errorf env "%s: %w:\n%s"
      [.err ErrListUsersForProperty, .err ErrStructValidation, .verr err]))
  | none =>
    match env.urlParse (fmt.Sprintf env "/identity-management/v3/user-admin/properties/%d/users"
        [.int params.PropertyID]) with
    | .error err =>
      Prog.ret (.err (fmt.Errorf env "%w: failed to parse url: %s" [.err ErrListUsersForProperty, .err err]))
    | .ok uri =>
      let uri :=
        if params.UserType ≠ "" then
          let q := env.urlQuery uri
          let q := q.Add "userType" params.UserType
          env.urlSetRawQuery uri q.Encode
        else uri
      match http.NewRequestWithContext env "GET" (env.urlString uri) with
      | .error err =>
        Prog.ret (.err (fmt.Errorf env "%w: failed to create request: %s"
          [.err ErrListUsersForProperty, .err err]))
      | .ok req =>
        Prog.call req () fun
        | .error err =>
          Prog.ret (.err (fmt.Errorf env "%w: request failed: %s" [.err ErrListUsersForProperty, .err err]))
        | .ok (resp, result) =>
          if resp.StatusCode ≠ 200 then
            Prog.ret (.err (fmt.Errorf env "%s: %w"
              [.err ErrListUsersForProperty, .err (.api (env.Error resp))]))
          else Prog.ret (.ok result)

/-- Operation `ListUsersForProperty` on a session whose transport is `exec`. -/
def ListUsersForProperty (env : Env) (exec : Exec Unit ListUsersForPropertyResponse)
    (params : ListUsersForPropertyRequest) : Outcome ListUsersForPropertyResponse Unit :=
  (ListUsersForProperty.prog env params).run exec

/-- Operation `GetProperty`, as a program over the session. -/
def GetProperty.prog (env : Env)
    (params : GetPropertyRequest) : Prog Unit GetPropertyResponse GetPropertyResponse :=
  match params.Validate with
  | some err =>
    Prog.ret (.err (fmt.Errorf env "%s: %w:\n%s" [.err ErrGetProperty, .err ErrStructValidation, .verr err]))
  | none =>
    match env.urlParse (fmt.Sprintf env "/identity-management/v3/user-admin/properties/%d"
        [.int params.PropertyID]) with
    | .error err =>
      Prog.ret (.err (fmt.Errorf env "%w: failed to parse url: %s" [.err ErrGetProperty, .err err]))
    | .ok uri =>
      let q := env.urlQuery uri
      let q := q.Add "groupId" (strconv.FormatInt params.GroupID)
      let uri := env.urlSetRawQuery uri q.Encode
      match http.NewRequestWithContext env "GET" (env.urlString uri) with
      | .error err =>
        Prog.ret (.err (fmt.Errorf env "%w: failed to create request: %s" [.err ErrGetProperty, .err err]))
      | .ok req =>
        Prog.call req () fun
        | .error err =>
          Prog.ret (.err (fmt.Errorf env "%w: request failed: %s" [.err ErrGetProperty, .err err]))
        | .ok (resp, result) =>
          if resp.StatusCode ≠ 200 then
            Prog.ret (.err (fmt.Errorf env "%s: %w" [.err ErrGetProperty, .err (.api (env.Error resp))]))
          else Prog.ret (.ok result)

/-- Operation `GetProperty` on a session whose transport is `exec`. -/
def GetProperty (env : Env) (exec : Exec Unit GetPropertyResponse)
    (params : GetPropertyRequest) : Outcome GetPropertyResponse Unit :=
  (GetProperty.prog env params).run exec

/-- Operation `MoveProperty`, as a program over the session; it returns only an error, so its value is `Unit`. -/
def MoveProperty.prog (env : Env)
    (params : MovePropertyRequest) : Prog MovePropertyReqBody Unit Unit :=
  match params.Validate with
  | some err =>
    Prog.ret (.err (fmt.Errorf env "%s: %w: %s" [.err ErrMoveProperty, .err ErrStructValidation, .verr err]))
  | none =>
    let uri := fmt.Sprintf env "/identity-management/v3/user-admin/properties/%d" [.int params.PropertyID]
    match http.NewRequestWithContext env "PUT" uri with
    | .error err =>
      Prog.ret (.err (fmt.Errorf env "%w: failed to create request: %s" [.err ErrMoveProperty, .err err]))
    | .ok req =>
      Prog.call req params.BodyParams fun
      | .error err =>
        Prog.ret (.err (fmt.Errorf env "%w: request failed: %s" [.err ErrMoveProperty, .err err]))
      | .ok (resp, _) =>
        if resp.StatusCode ≠ 204 then
          Prog.ret (.err (fmt.Errorf env "%s: %w" [.err ErrMoveProperty, .err (.api (env.Error resp))]))
        else Prog.ret (.ok ())

/-- Operation `MoveProperty` on a session whose transport is `exec`. -/
def MoveProperty (env : Env) (exec : Exec MovePropertyReqBody Unit)
    (params : MovePropertyRequest) : Outcome Unit MovePropertyReqBody :=
  (MoveProperty.prog env params).run exec

/-- Operation `MapPropertyIDToName`, as a program over the session. -/
def MapPropertyIDToName.prog (env : Env)
    (params : MapPropertyIDToNameRequest) : Prog Unit GetPropertyResponse String :=
  match params.Validate with
  | some err =>
    Prog.ret (.err (fmt.Errorf env "%s: %w:\n%s"
      [.err ErrMapPropertyIDToName, .err ErrStructValidation, .verr err]))
  | none =>
    let req : GetPropertyRequest := { PropertyID := params.PropertyID, GroupID := params.GroupID }
    (GetProperty.prog env req).andThen fun
    | .err err =>
      Prog.ret (.err (fmt.Errorf env "%w: request failed: %s"
        [.err ErrMapPropertyIDToName, .err err]))
    | .panic msg => Prog.ret (.panic msg)
    | .ok property => Prog.ret (.ok property.PropertyName)

/-- Operation `MapPropertyIDToName` on a session whose transport is `exec`. -/
def MapPropertyIDToName (env : Env) (exec : Exec Unit GetPropertyResponse)
    (params : MapPropertyIDToNameRequest) : Outcome String Unit :=
  (MapPropertyIDToName.prog env params).run exec

/-- Operation `MapPropertyNameToID`, as a program over the session; the loop
returns at the first property of that name. -/
def MapPropertyNameToID.prog (env : Env)
    (name : MapPropertyNameToIDRequest) : Prog Unit ListPropertiesResponse Int :=
  if name = "" then
    Prog.ret (.err (fmt.Errorf env "%s: %w:\n name cannot be blank"
      [.err ErrMapPropertyNameToID, .err ErrStructValidation]))
  else
    (ListProperties.prog env { GroupID := 0, Actions := false }).andThen fun
    | .err err =>
      Prog.ret (.err (fmt.Errorf env "%w: request failed: %s"
        [.err ErrMapPropertyNameToID, .err err]))
    | .panic msg => Prog.ret (.panic msg)
    | .ok properties =>
      match properties.find? (fun property => property.PropertyName = name) with
      | some property => Prog.ret (.ok property.PropertyID)
      | none => Prog.ret (.err (fmt.Errorf env "%w: %s" [.err ErrNoProperty, .str name]))

/-- Operation `MapPropertyNameToID` on a session whose transport is `exec`. -/
def MapPropertyNameToID (env : Env) (exec : Exec Unit ListPropertiesResponse)
    (name : MapPropertyNameToIDRequest) : Outcome Int Unit :=
  (MapPropertyNameToID.prog env name).run exec

/-- Operation `BlockUsers`, as a program over the session. -/
def BlockUsers.prog (env : Env)
    (params : BlockUsersRequest) : Prog BlockUsersReqBody BlockUsersResponse BlockUsersResponse :=
  match params.Validate with
  | some err =>
    Prog.ret (.err (fmt.Errorf env "%s: %w: %s" [.err ErrBlockUsers, .err ErrStructValidation, .verr err]))
  | none =>
    let uri := fmt.Sprintf env "/identity-management/v3/user-admin/properties/%d/users/block"
      [.int params.PropertyID]
    match http.NewRequestWithContext env "PUT" uri with
    | .error err =>
      Prog.ret (.err (fmt.Errorf env "%w: failed to create request: %s" [.err ErrBlockUsers, .err err]))
    | .ok req =>
      Prog.call req params.BodyParams fun
      | .error err =>
        Prog.ret (.err (fmt.Errorf env "%w: request failed: %s" [.err ErrBlockUsers, .err err]))
      | .ok (resp, result) =>
        if resp.StatusCode ≠ 200 then
          Prog.ret (.err (fmt.Errorf env "%s: %w" [.err ErrBlockUsers, .err (.api (env.Error resp))]))
        else Prog.ret (.ok result)

/-- Operation `BlockUsers` on a session whose transport is `exec`. -/
def BlockUsers (env : Env) (exec : Exec BlockUsersReqBody BlockUsersResponse)
    (params : BlockUsersRequest) : Outcome BlockUsersResponse BlockUsersReqBody :=
  (BlockUsers.prog env params).run exec

end iam

/-! ## Transport doubles and a reference environment -/

/-- A transport that answers every request with the given response and
decoded value. -/
def respond {β ο : Type} (resp : Response) (out : ο) : Exec β ο :=
  fun _ _ => .ok (resp, out)

/-- A transport that fails every request with the given error. -/
def failWith {β ο : Type} (e : GoErr) : Exec β ο :=
  fun _ _ => .error e

/-- A transport with state that fails the first call it receives with the
given error and answers every later call with the given response and decoded
value; its state is the number of calls received. -/
def failFirst {β ο : Type} (e : GoErr) (resp : Response) (out : ο) : Transport Nat β ο :=
  fun n _ _ => (if n = 0 then .error e else .ok (resp, out), n + 1)

/-- The error of a result, nil when there is none. -/
def Res.error? {α : Type} : Res α → Option GoErr
  | .err e => some e
  | _ => none

/-- The value of a result, if it returned one. -/
def Res.value? {α : Type} : Res α → Option α
  | .ok v => some v
  | _ => none

/-- Whether a result is an error that `errors.Is` matches with the target. -/
def Res.errorIs {α : Type} (r : Res α) (target : GoErr) : Bool :=
  match r with
  | .err e => errors.Is e target
  | _ => false

/-- The environment in which URLs parse and requests build. -/
def Env.builds (env : Env) : Prop :=
  (∀ s, ∃ u, env.urlParse s = .ok u) ∧ ∀ m u, env.newRequestErr m u = none

/-- A reference environment: a URL is its path and raw query, every URL
parses with an empty query, every request builds, a validation failure prints
as the list of its fields, and the normalizer is the fallback of
`netstorage.Error`. -/
def refEnv : Env where
  URL := String × String
  urlParse s := .ok (s, "")
  urlQuery _ := []
  urlSetRawQuery u q := (u.1, q)
  urlString u := if u.2 = "" then u.1 else u.1 ++ "?" ++ u.2
  newRequestErr _ _ := none
  errorText e := e.Title ++ ": " ++ e.Detail
  validationText v := ", ".intercalate v.fields
  errorsText v := "; ".intercalate v.fields
  Error r := netstorage.Error (fun _ => none) r
  NewAPIError r := .api (netstorage.Error (fun _ => none) r)
  LostAccessUsers := "lostAccess"
  GainAccessUsers := "gainAccess"
  ActivationTypeActivate := "ACTIVATE"
  ActivationTypeDeactivate := "DEACTIVATE"

/-- The message of the error of a result, if it is an error. -/
def Res.message? {α : Type} (env : Env) (r : Res α) : Option String :=
  r.error?.map (GoErr.Error env)

namespace papi

/-- A valid `ActivateInclude` request. -/
def validActivate : ActivateIncludeRequest :=
  { IncludeID := "inc_1", Version := 1, Network := "STAGING", Note := "", NotifyEmails := ["a@b.c"],
    AcknowledgeWarnings := [], AcknowledgeAllWarnings := false, IgnoreHTTPErrors := none }

/-- The same request without its `IncludeID`, which fails validation. -/
def blankActivate : ActivateIncludeRequest :=
  { validActivate with IncludeID := "" }

end papi

namespace netstorage

/-- The body of the first case of `TestNewError`. -/
def structuredBody : String :=
  "\x7b\"type\":\"a\",\"title\":\"b\",\"detail\":\"c\"\x7d"

/-- A decoder that knows the structured body of `TestNewError` and rejects
every other body. -/
def decodeStructured (body : String) : Option EdgeGrid.Error :=
  if body = structuredBody then some { Type_ := "a", Title := "b", Detail := "c", Status := 0 }
  else none

end netstorage

/-- The fields of a `Validate` result; nil reports none. -/
def reported : Option VErr → List String
  | none => []
  | some e => e.fields

/-- The names among the given fields whose value is empty. -/
def emptyFields {α : Type} [GoValue α] (fields : List (String × α)) : List String :=
  (fields.filter (fun p => GoValue.isEmpty p.2)).map Prod.fst

/-! ## Environments in which a path parses as written -/

/-- The environment reads `path` as a bare path: `url.Parse` accepts it, the
parsed URL has no query parameters, and once a non-empty raw query is assigned
`URL.String` prints the path, a `?` and that query. -/
def Env.parsesAsPath (env : Env) (path : String) : Prop :=
  ∃ u, env.urlParse path = .ok u ∧ env.urlQuery u = [] ∧
    ∀ q, q ≠ "" → env.urlString (env.urlSetRawQuery u q) = path ++ "?" ++ q

/-- The URLs of the requests handed to `Exec`, in order. -/
def Outcome.urls {α β : Type} (o : Outcome α β) : List String :=
  o.calls.map (fun call => call.1.URL)

/-- The characters `shouldEscape` leaves alone in a query component. -/
def url.unreserved (c : Char) : Bool :=
  c.isAlphanum || c = '-' || c = '_' || c = '.' || c = '~'

/-! ## Client construction (`pkg/cloudlets/v3/cloudlets.go`) -/

namespace session

/-- Type `session.Session`, declared outside the sources: an interface value,
nil or an implementation of some type `S`. -/
abbrev Session (S : Type) := Option S

end session

namespace v3

/-- Type `cloudlets`: the client, embedding the session. -/
structure cloudlets (S : Type) where
  Session : session.Session S

/-- Type `Option`: a function that updates the client through its pointer,
embedded as the update it makes. -/
abbrev Option (S : Type) := cloudlets S → cloudlets S

/-- The loop `for _, opt := range opts` of `Client`: every option is applied
to the client, in order. -/
def applyOptions {S : Type} : cloudlets S → List (Option S) → cloudlets S
  | c, [] => c
  | c, opt :: opts => applyOptions (opt c) opts

/-- Function `Client`: a client over the session, then the options. -/
def Client {S : Type} (sess : session.Session S) (opts : List (Option S)) : cloudlets S :=
  applyOptions { Session := sess } opts

end v3

/-- The environment prints `path` back: `url.Parse` accepts it and, with the
raw query left as parsed, `URL.String` is the path again. -/
def Env.printsPath (env : Env) (path : String) : Prop :=
  ∃ u, env.urlParse path = .ok u ∧ env.urlString u = path

/-! ## Lemmas on programs -/

theorem Prog.run_andThen {β ο α γ : Type} (exec : Exec β ο) (p : Prog β ο α)
    (next : Res α → Prog β ο γ) :
    (p.andThen next).run exec
      = { result := ((next (p.run exec).result).run exec).result,
          calls := (p.run exec).calls ++ ((next (p.run exec).result).run exec).calls } := by
  induction p with
  | ret r => simp [Prog.andThen]
  | call req body rest ih => simp [Prog.andThen, ih]

theorem Prog.runIn_andThen {σ β ο α γ : Type} (transport : Transport σ β ο) (p : Prog β ο α)
    (next : Res α → Prog β ο γ) (s : σ) :
    (p.andThen next).runIn transport s
      = (next (p.runIn transport s).1).runIn transport (p.runIn transport s).2 := by
  induction p generalizing s with
  | ret r => simp [Prog.andThen]
  | call req body rest ih => simp [Prog.andThen, ih]

/-- The calls an `Outcome` records are the state of a transport that keeps a
log: `Prog.run` is `Prog.runIn` over the transport that answers as `exec` does
and appends each call it receives to its state. -/
theorem Prog.runIn_recording {β ο α : Type} (exec : Exec β ο) (p : Prog β ο α)
    (log : List (HttpRequest × β)) :
    p.runIn (fun log req body => (exec req body, log ++ [(req, body)])) log
      = ((p.run exec).result, log ++ (p.run exec).calls) := by
  induction p generalizing log with
  | ret r => simp
  | call req body rest ih => simp [ih]

theorem iam_GetProperty_run (env : Env) (exec : Exec Unit iam.GetPropertyResponse)
    (req : iam.GetPropertyRequest) :
    (iam.GetProperty.prog env req).run exec = iam.GetProperty env exec req := rfl

theorem iam_ListProperties_run (env : Env) (exec : Exec Unit iam.ListPropertiesResponse)
    (req : iam.ListPropertiesRequest) :
    (iam.ListProperties.prog env req).run exec = iam.ListProperties env exec req := rfl

/-! ## Lemmas on formatting and on `errors.Is` -/

theorem Sprintf_s_w_s (env : Env) (a b c : fmt.Arg) :
    fmt.Sprintf env "%s: %w: %s" [a, b, c]
      = a.text env ++ ": " ++ b.text env ++ ": " ++ c.text env := by
  apply String.ext
  simp [fmt.Sprintf, fmt.sprintChars]

theorem Sprintf_s_w_nl_s (env : Env) (a b c : fmt.Arg) :
    fmt.Sprintf env "%s: %w:\n%s" [a, b, c]
      = a.text env ++ ": " ++ b.text env ++ ":\n" ++ c.text env := by
  apply String.ext
  simp [fmt.Sprintf, fmt.sprintChars]

theorem Sprintf_s_w_blank (env : Env) (a b : fmt.Arg) :
    fmt.Sprintf env "%s: %w:\n name cannot be blank" [a, b]
      = a.text env ++ ": " ++ b.text env ++ ":\n name cannot be blank" := by
  apply String.ext
  simp [fmt.Sprintf, fmt.sprintChars]

theorem Sprintf_s_w (env : Env) (a b : fmt.Arg) :
    fmt.Sprintf env "%s: %w" [a, b] = a.text env ++ ": " ++ b.text env := by
  apply String.ext
  simp [fmt.Sprintf, fmt.sprintChars]

theorem Sprintf_w_failed_s (env : Env) (a b : fmt.Arg) :
    fmt.Sprintf env "%w: request failed: %s" [a, b]
      = a.text env ++ ": request failed: " ++ b.text env := by
  apply String.ext
  simp [fmt.Sprintf, fmt.sprintChars]

theorem Errorf_s_w_s (env : Env) (a : fmt.Arg) (b : GoErr) (c : fmt.Arg) :
    fmt.Errorf env "%s: %w: %s" [a, .err b, c]
      = .wrap (a.text env ++ ": " ++ b.Error env ++ ": " ++ c.text env) b := by
  rw [← show (fmt.Arg.err b).text env = b.Error env from rfl, ← Sprintf_s_w_s]
  rfl

theorem Errorf_s_w_nl_s (env : Env) (a : fmt.Arg) (b : GoErr) (c : fmt.Arg) :
    fmt.Errorf env "%s: %w:\n%s" [a, .err b, c]
      = .wrap (a.text env ++ ": " ++ b.Error env ++ ":\n" ++ c.text env) b := by
  rw [← show (fmt.Arg.err b).text env = b.Error env from rfl, ← Sprintf_s_w_nl_s]
  rfl

theorem Errorf_s_w_blank (env : Env) (a : fmt.Arg) (b : GoErr) :
    fmt.Errorf env "%s: %w:\n name cannot be blank" [a, .err b]
      = .wrap (a.text env ++ ": " ++ b.Error env ++ ":\n name cannot be blank") b := by
  rw [← show (fmt.Arg.err b).text env = b.Error env from rfl, ← Sprintf_s_w_blank]
  rfl

theorem Errorf_s_w (env : Env) (a : fmt.Arg) (b : GoErr) :
    fmt.Errorf env "%s: %w" [a, .err b] = .wrap (a.text env ++ ": " ++ b.Error env) b := by
  rw [← show (fmt.Arg.err b).text env = b.Error env from rfl, ← Sprintf_s_w]
  rfl

theorem Errorf_w_failed_s (env : Env) (a : GoErr) (b : fmt.Arg) :
    fmt.Errorf env "%w: request failed: %s" [.err a, b]
      = .wrap (a.Error env ++ ": request failed: " ++ b.text env) a := by
  rw [← show (fmt.Arg.err a).text env = a.Error env from rfl, ← Sprintf_w_failed_s]
  rfl

theorem errors_Is_wrap (m : String) (inner target : GoErr) :
    errors.Is (.wrap m inner) target
      = (decide (target = .wrap m inner) || errors.Is inner target) := by
  simp [errors.Is, GoErr.chain]

theorem errors_Is_sentinel (n t : String) (target : GoErr) :
    errors.Is (.sentinel n t) target = decide (target = .sentinel n t) := by
  simp [errors.Is, GoErr.chain]

theorem errors_Is_api (e : Error) (target : GoErr) :
    errors.Is (.api e) target = decide (target = .api e) := by
  simp [errors.Is, GoErr.chain]

theorem refEnv_builds : refEnv.builds :=
  ⟨fun s => ⟨(s, ""), rfl⟩, fun _ _ => rfl⟩

/-! ## Lemmas on the response-link resolver -/

theorem splitSlash_ne_nil (l : List Char) : papi.splitSlash l ≠ [] := by
  induction l with
  | nil => simp [papi.splitSlash]
  | cons c cs ih =>
    unfold papi.splitSlash
    split
    · simp
    · split <;> simp

theorem splitSlash_of_not_mem (l : List Char) (h : '/' ∉ l) : papi.splitSlash l = [l] := by
  induction l with
  | nil => rfl
  | cons c cs ih =>
    have hc : c ≠ '/' := fun hc => h (by simp [hc])
    have hcs : '/' ∉ cs := fun hcs => h (by simp [hcs])
    simp [papi.splitSlash, hc, ih hcs]

theorem splitSlash_append_slash (a b : List Char) :
    (papi.splitSlash (a ++ '/' :: b)).getLast? = (papi.splitSlash b).getLast?
      ∧ 2 ≤ (papi.splitSlash (a ++ '/' :: b)).length := by
  induction a with
  | nil =>
    have hb := splitSlash_ne_nil b
    cases hsb : papi.splitSlash b with
    | nil => exact absurd hsb hb
    | cons x xs => simp [papi.splitSlash, hsb, List.getLast?_cons_cons]
  | cons c cs ih =>
    obtain ⟨ih1, ih2⟩ := ih
    cases hs : papi.splitSlash (cs ++ '/' :: b) with
    | nil => simp [hs] at ih2
    | cons x xs =>
      cases xs with
      | nil => simp [hs] at ih2
      | cons y ys =>
        rw [hs] at ih1
        by_cases hc : c = '/'
        · simp [papi.splitSlash, hc, hs, List.getLast?_cons_cons, ← ih1]
        · simp [papi.splitSlash, hc, hs, List.getLast?_cons_cons, ← ih1]

theorem dropQuery_of_not_mem (s : List Char) (h : '?' ∉ s) : papi.dropQuery s = s := by
  unfold papi.dropQuery
  induction s with
  | nil => rfl
  | cons c cs ih =>
    have hc : c ≠ '?' := fun hc => h (by simp [hc])
    have hcs : '?' ∉ cs := fun hcs => h (by simp [hcs])
    rw [List.takeWhile_cons_of_pos (by simp [hc]), ih hcs]

theorem dropQuery_append_query (s q : List Char) (h : '?' ∉ s) :
    papi.dropQuery (s ++ '?' :: q) = s := by
  unfold papi.dropQuery
  induction s with
  | nil => simp
  | cons c cs ih =>
    have hc : c ≠ '?' := fun hc => h (by simp [hc])
    have hcs : '?' ∉ cs := fun hcs => h (by simp [hcs])
    rw [List.cons_append, List.takeWhile_cons_of_pos (by simp [hc]), ih hcs]

theorem dropQuery_not_mem (s : List Char) : '?' ∉ papi.dropQuery s := by
  intro h
  have := List.mem_takeWhile_imp h
  simp at this

theorem dropQuery_split (s : List Char) :
    s = papi.dropQuery s ∨ ∃ q, s = papi.dropQuery s ++ '?' :: q := by
  unfold papi.dropQuery
  induction s with
  | nil => exact Or.inl rfl
  | cons c cs ih =>
    by_cases hc : c = '?'
    · exact Or.inr ⟨cs, by simp [hc]⟩
    · rw [List.takeWhile_cons_of_pos (by simp [hc])]
      rcases ih with ih | ⟨q, ih⟩
      · exact Or.inl (by rw [← ih])
      · exact Or.inr ⟨q, by rw [List.cons_append, ← ih]⟩

theorem split_at_last_slash (l : List Char) :
    '/' ∉ l ∨ ∃ pre seg, l = pre ++ '/' :: seg ∧ '/' ∉ seg := by
  induction l with
  | nil => exact Or.inl (by simp)
  | cons c cs ih =>
    rcases ih with ih | ⟨pre, seg, ih, hseg⟩
    · by_cases hc : c = '/'
      · exact Or.inr ⟨[], cs, by simp [hc], ih⟩
      · exact Or.inl (by simp [hc, ih]; exact fun h => hc h.symm)
    · exact Or.inr ⟨c :: pre, seg, by simp [ih], hseg⟩

theorem ResponseLinkParse_of_path_cons (link : String) (a : List Char) (c : Char)
    (cs : List Char) (hp : papi.dropQuery link.toList = a ++ '/' :: c :: cs)
    (hb : '/' ∉ c :: cs) :
    papi.ResponseLinkParse link = .ok (String.mk (c :: cs)) := by
  obtain ⟨h1, h2⟩ := splitSlash_append_slash a (c :: cs)
  rw [splitSlash_of_not_mem _ hb] at h1
  have h3 : ¬ (papi.splitSlash (a ++ '/' :: c :: cs)).length < 2 := by omega
  simp only [papi.ResponseLinkParse, hp, h3, h1, if_false, List.getLast?_singleton]

theorem ResponseLinkParse_of_path_nil (link : String) (a : List Char)
    (hp : papi.dropQuery link.toList = a ++ '/' :: []) :
    papi.ResponseLinkParse link = .error papi.ErrInvalidResponseLink := by
  obtain ⟨h1, h2⟩ := splitSlash_append_slash a []
  rw [splitSlash_of_not_mem [] (by simp)] at h1
  have h3 : ¬ (papi.splitSlash (a ++ '/' :: [])).length < 2 := by omega
  simp only [papi.ResponseLinkParse, hp, h3, h1, if_false, List.getLast?_singleton]

theorem ResponseLinkParse_of_no_slash (link : String) (h : '/' ∉ papi.dropQuery link.toList) :
    papi.ResponseLinkParse link = .error papi.ErrInvalidResponseLink := by
  simp only [papi.ResponseLinkParse, splitSlash_of_not_mem _ h]
  rfl

/-! ## Validation aggregation -/

/-- Claim C1. Validation reports every violated field: for every papi
`ListIncludeActivationsRequest` the fields `Validate` reports are exactly those
of `IncludeID`, `ContractID`, `GroupID` that are empty, the result is nil
exactly when none is empty, and likewise iam `GetPropertyRequest.Validate`
reports exactly its zero fields, so both `PropertyID` and `GroupID` when both
are zero. -/
theorem validate_reports_every_violated_field :
    (∀ i : papi.ListIncludeActivationsRequest,
      reported i.Validate =
          emptyFields [("IncludeID", i.IncludeID), ("ContractID", i.ContractID), ("GroupID", i.GroupID)]
        ∧ (i.Validate = none ↔ i.IncludeID ≠ "" ∧ i.ContractID ≠ "" ∧ i.GroupID ≠ ""))
    ∧ (∀ r : iam.GetPropertyRequest,
      reported r.Validate = emptyFields [("PropertyID", r.PropertyID), ("GroupID", r.GroupID)]
        ∧ (r.Validate = none ↔ r.PropertyID ≠ 0 ∧ r.GroupID ≠ 0))
    ∧ reported (iam.GetPropertyRequest.Validate { PropertyID := 0, GroupID := 0 })
        = ["PropertyID", "GroupID"] := by
  refine ⟨?_, ?_, ?_⟩
  · intro i
    by_cases h1 : i.IncludeID = "" <;> by_cases h2 : i.ContractID = "" <;>
      by_cases h3 : i.GroupID = "" <;>
      simp [papi.ListIncludeActivationsRequest.Validate, edgegriderr.ParseValidationErrors,
        validation.Errors.violations, validation.Validate, validation.applyRules,
        validation.Required, GoValue.isEmpty, GoValue.own, reported, VErr.fields, emptyFields,
        h1, h2, h3]
  · intro r
    by_cases h1 : r.PropertyID = 0 <;> by_cases h2 : r.GroupID = 0 <;>
      simp [iam.GetPropertyRequest.Validate, edgegriderr.ParseValidationErrors,
        validation.Errors.violations, validation.Validate, validation.applyRules,
        validation.Required, GoValue.isEmpty, GoValue.own, reported, VErr.fields, emptyFields,
        h1, h2]
  · decide

/-! ## No network on validation failure -/

/-- Claim C2. No network on validation failure: for each validating operation
and every request for which `Validate` returns an error, whatever the
transport is, the operation returns an error (the struct-validation error
built from that failure) and makes no call of `Exec`. -/
theorem validation_failure_makes_no_exec_call (env : Env) :
    (∀ (exec : Exec Unit iam.ListUsersForPropertyResponse) params err,
      iam.ListUsersForPropertyRequest.Validate env params = some err →
      iam.ListUsersForProperty env exec params =
        ⟨.err (fmt.Errorf env "%s: %w:\n%s"
          [.err iam.ErrListUsersForProperty, .err iam.ErrStructValidation, .verr err]), []⟩)
    ∧ (∀ (exec : Exec Unit iam.GetPropertyResponse) params err,
      iam.GetPropertyRequest.Validate params = some err →
      iam.GetProperty env exec params =
        ⟨.err (fmt.Errorf env "%s: %w:\n%s"
          [.err iam.ErrGetProperty, .err iam.ErrStructValidation, .verr err]), []⟩)
    ∧ (∀ (exec : Exec iam.MovePropertyReqBody Unit) params err,
      iam.MovePropertyRequest.Validate params = some err →
      iam.MoveProperty env exec params =
        ⟨.err (fmt.Errorf env "%s: %w: %s"
          [.err iam.ErrMoveProperty, .err iam.ErrStructValidation, .verr err]), []⟩)
    ∧ (∀ (exec : Exec iam.BlockUsersReqBody iam.BlockUsersResponse) params err,
      iam.BlockUsersRequest.Validate params = some err →
      iam.BlockUsers env exec params =
        ⟨.err (fmt.Errorf env "%s: %w: %s"
          [.err iam.ErrBlockUsers, .err iam.ErrStructValidation, .verr err]), []⟩)
    ∧ (∀ (exec : Exec Unit iam.GetPropertyResponse) params err,
      iam.MapPropertyIDToNameRequest.Validate params = some err →
      iam.MapPropertyIDToName env exec params =
        ⟨.err (fmt.Errorf env "%s: %w:\n%s"
          [.err iam.ErrMapPropertyIDToName, .err iam.ErrStructValidation, .verr err]), []⟩)
    ∧ (∀ (exec : Exec papi.IncludeRequestBody papi.ActivationIncludeResponse) params err,
      papi.ActivateIncludeRequest.Validate params = some err →
      papi.ActivateInclude env exec params =
        ⟨.err (fmt.Errorf env "%s: %w: %s"
          [.err papi.ErrActivateInclude, .err papi.ErrStructValidation, .verr err]), []⟩)
    ∧ (∀ (exec : Exec papi.IncludeRequestBody papi.DeactivationIncludeResponse) params err,
      papi.DeactivateIncludeRequest.Validate params = some err →
      papi.DeactivateInclude env exec params =
        ⟨.err (fmt.Errorf env "%s: %w: %s"
          [.err papi.ErrDeactivateInclude, .err papi.ErrStructValidation, .verr err]), []⟩)
    ∧ (∀ (F : Type) (exec : Exec Unit (papi.IncludeActivationResponse F)) params err,
      papi.GetIncludeActivationRequest.Validate params = some err →
      papi.GetIncludeActivation env exec params =
        ⟨.err (fmt.Errorf env "%s: %w: %s"
          [.err papi.ErrGetIncludeActivation, .err papi.ErrStructValidation, .verr err]), []⟩)
    ∧ (∀ (F : Type) (exec : Exec Unit (papi.IncludeActivationsResponse F)) params err,
      papi.ListIncludeActivationsRequest.Validate params = some err →
      papi.ListIncludeActivations env exec params =
        ⟨.err (fmt.Errorf env "%s: %w: %s"
          [.err papi.ErrListIncludeActivations, .err papi.ErrStructValidation, .verr err]), []⟩)
    ∧ (∀ (exec : Exec Unit papi.GetPropertiesResponse) params err,
      papi.GetPropertiesRequest.Validate params = some err →
      papi.GetProperties env exec params =
        ⟨.err (fmt.Errorf env "%w: %s"
          [.err papi.ErrStructValidation, .str (env.errorsText err)]), []⟩)
    ∧ (∀ (R : Type) (exec : Exec papi.PropertyCreate (papi.CreatePropertyResponse R)) params err,
      papi.CreatePropertyRequest.Validate params = some err →
      papi.CreateProperty env exec params =
        ⟨.err (fmt.Errorf env "%w: %s"
          [.err papi.ErrStructValidation, .str (env.errorsText err)]), []⟩)
    ∧ (∀ (R : Type) (exec : Exec Unit (papi.GetPropertyResponse R)) params err,
      papi.GetPropertyRequest.Validate params = some err →
      papi.GetProperty env exec params =
        ⟨.err (fmt.Errorf env "%w: %s"
          [.err papi.ErrStructValidation, .str (env.errorsText err)]), []⟩)
    ∧ (∀ (exec : Exec Unit papi.RemovePropertyResponse) params err,
      papi.RemovePropertyRequest.Validate params = some err →
      papi.RemoveProperty env exec params =
        ⟨.err (fmt.Errorf env "%w: %s"
          [.err papi.ErrStructValidation, .str (env.errorsText err)]), []⟩) := by
  refine ⟨?_, ?_, ?_, ?_, ?_, ?_, ?_, ?_, ?_, ?_, ?_, ?_, ?_⟩
  · intro exec params err h
    simp only [iam.ListUsersForProperty, iam.ListUsersForProperty.prog, h, Prog.run]
  · intro exec params err h
    simp only [iam.GetProperty, iam.GetProperty.prog, h, Prog.run]
  · intro exec params err h
    simp only [iam.MoveProperty, iam.MoveProperty.prog, h, Prog.run]
  · intro exec params err h
    simp only [iam.BlockUsers, iam.BlockUsers.prog, h, Prog.run]
  · intro exec params err h
    simp only [iam.MapPropertyIDToName, iam.MapPropertyIDToName.prog, h, Prog.run]
  · intro exec params err h
    simp only [papi.ActivateInclude, papi.ActivateInclude.prog, h, Prog.run]
  · intro exec params err h
    simp only [papi.DeactivateInclude, papi.DeactivateInclude.prog, h, Prog.run]
  · intro F exec params err h
    simp only [papi.GetIncludeActivation, papi.GetIncludeActivation.prog, h, Prog.run]
  · intro F exec params err h
    simp only [papi.ListIncludeActivations, papi.ListIncludeActivations.prog, h, Prog.run]
  · intro exec params err h
    simp only [papi.GetProperties, papi.GetProperties.prog, h, Prog.run]
  · intro R exec params err h
    simp only [papi.CreateProperty, papi.CreateProperty.prog, h, Prog.run]
  · intro R exec params err h
    simp only [papi.GetProperty, papi.GetProperty.prog, h, Prog.run]
  · intro exec params err h
    simp only [papi.RemoveProperty, papi.RemoveProperty.prog, h, Prog.run]

/-! ## Status-code exactness -/

/-- Claim C3. Status-code exactness: in an environment where requests build,
given a valid request and a transport that answers with the response `resp`,
each operation returns a value only when `resp.StatusCode` is its one expected
code (201 for `ActivateInclude`, `DeactivateInclude`, `CreateProperty`; 204
for `MoveProperty`; 200 for the others), and for every other status, 200 and
204 for a 201-operation included, it returns the error built from the
normalizer applied to the response (the package's `Error` under the
operation's name, `session.NewAPIError` for the papi property operations). -/
theorem status_code_exactness (env : Env) (hb : env.builds) (resp : Response) :
    (∀ (out : iam.ListPropertiesResponse) (params : iam.ListPropertiesRequest),
      (resp.StatusCode ≠ 200 →
          (iam.ListProperties env (respond resp out) params).result =
            .err (fmt.Errorf env "%s: %w" [.err iam.ErrListProperties, .err (.api (env.Error resp))]))
        ∧ (∀ v, (iam.ListProperties env (respond resp out) params).result = .ok v →
          resp.StatusCode = 200))
    ∧ (∀ (out : iam.ListUsersForPropertyResponse) (params : iam.ListUsersForPropertyRequest),
      iam.ListUsersForPropertyRequest.Validate env params = none →
      (resp.StatusCode ≠ 200 →
          (iam.ListUsersForProperty env (respond resp out) params).result =
            .err (fmt.Errorf env "%s: %w" [.err iam.ErrListUsersForProperty, .err (.api (env.Error resp))]))
        ∧ (∀ v, (iam.ListUsersForProperty env (respond resp out) params).result = .ok v →
          resp.StatusCode = 200))
    ∧ (∀ (out : iam.GetPropertyResponse) (params : iam.GetPropertyRequest),
      iam.GetPropertyRequest.Validate params = none →
      (resp.StatusCode ≠ 200 →
          (iam.GetProperty env (respond resp out) params).result =
            .err (fmt.Errorf env "%s: %w" [.err iam.ErrGetProperty, .err (.api (env.Error resp))]))
        ∧ (∀ v, (iam.GetProperty env (respond resp out) params).result = .ok v →
          resp.StatusCode = 200))
    ∧ (∀ (out : Unit) (params : iam.MovePropertyRequest),
      iam.MovePropertyRequest.Validate params = none →
      (resp.StatusCode ≠ 204 →
          (iam.MoveProperty env (respond resp out) params).result =
            .err (fmt.Errorf env "%s: %w" [.err iam.ErrMoveProperty, .err (.api (env.Error resp))]))
        ∧ (∀ v, (iam.MoveProperty env (respond resp out) params).result = .ok v →
          resp.StatusCode = 204))
    ∧ (∀ (out : iam.BlockUsersResponse) (params : iam.BlockUsersRequest),
      iam.BlockUsersRequest.Validate params = none →
      (resp.StatusCode ≠ 200 →
          (iam.BlockUsers env (respond resp out) params).result =
            .err (fmt.Errorf env "%s: %w" [.err iam.ErrBlockUsers, .err (.api (env.Error resp))]))
        ∧ (∀ v, (iam.BlockUsers env (respond resp out) params).result = .ok v →
          resp.StatusCode = 200))
    ∧ (∀ (out : papi.ActivationIncludeResponse) (params : papi.ActivateIncludeRequest),
      papi.ActivateIncludeRequest.Validate params = none →
      (resp.StatusCode ≠ 201 →
          (papi.ActivateInclude env (respond resp out) params).result =
            .err (fmt.Errorf env "%s: %w" [.err papi.ErrActivateInclude, .err (.api (env.Error resp))]))
        ∧ (∀ v, (papi.ActivateInclude env (respond resp out) params).result = .ok v →
          resp.StatusCode = 201))
    ∧ (∀ (out : papi.DeactivationIncludeResponse) (params : papi.DeactivateIncludeRequest),
      papi.DeactivateIncludeRequest.Validate params = none →
      (resp.StatusCode ≠ 201 →
          (papi.DeactivateInclude env (respond resp out) params).result =
            .err (fmt.Errorf env "%s: %w" [.err papi.ErrDeactivateInclude, .err (.api (env.Error resp))]))
        ∧ (∀ v, (papi.DeactivateInclude env (respond resp out) params).result = .ok v →
          resp.StatusCode = 201))
    ∧ (∀ (F : Type) (out : papi.IncludeActivationResponse F) (params : papi.GetIncludeActivationRequest),
      papi.GetIncludeActivationRequest.Validate params = none →
      (resp.StatusCode ≠ 200 →
          (papi.GetIncludeActivation env (respond resp out) params).result =
            .err (fmt.Errorf env "%s: %w" [.err papi.ErrGetIncludeActivation, .err (.api (env.Error resp))]))
        ∧ (∀ v, (papi.GetIncludeActivation env (respond resp out) params).result = .ok v →
          resp.StatusCode = 200))
    ∧ (∀ (F : Type) (out : papi.IncludeActivationsResponse F) (params : papi.ListIncludeActivationsRequest),
      papi.ListIncludeActivationsRequest.Validate params = none →
      (resp.StatusCode ≠ 200 →
          (papi.ListIncludeActivations env (respond resp out) params).result =
            .err (fmt.Errorf env "%s: %w" [.err papi.ErrListIncludeActivations, .err (.api (env.Error resp))]))
        ∧ (∀ v, (papi.ListIncludeActivations env (respond resp out) params).result = .ok v →
          resp.StatusCode = 200))
    ∧ (∀ (out : papi.GetPropertiesResponse) (params : papi.GetPropertiesRequest),
      papi.GetPropertiesRequest.Validate params = none →
      (resp.StatusCode ≠ 200 →
          (papi.GetProperties env (respond resp out) params).result =
            .err (env.NewAPIError resp))
        ∧ (∀ v, (papi.GetProperties env (respond resp out) params).result = .ok v →
          resp.StatusCode = 200))
    ∧ (∀ (R : Type) (out : papi.CreatePropertyResponse R) (params : papi.CreatePropertyRequest),
      papi.CreatePropertyRequest.Validate params = none →
      (resp.StatusCode ≠ 201 →
          (papi.CreateProperty env (respond resp out) params).result =
            .err (env.NewAPIError resp))
        ∧ (∀ v, (papi.CreateProperty env (respond resp out) params).result = .ok v →
          resp.StatusCode = 201))
    ∧ (∀ (R : Type) (out : papi.GetPropertyResponse R) (params : papi.GetPropertyRequest),
      papi.GetPropertyRequest.Validate params = none →
      (resp.StatusCode ≠ 200 →
          (papi.GetProperty env (respond resp out) params).result =
            .err (env.NewAPIError resp))
        ∧ (∀ v, (papi.GetProperty env (respond resp out) params).result = .ok v →
          resp.StatusCode = 200))
    ∧ (∀ (out : papi.RemovePropertyResponse) (params : papi.RemovePropertyRequest),
      papi.RemovePropertyRequest.Validate params = none →
      (resp.StatusCode ≠ 200 →
          (papi.RemoveProperty env (respond resp out) params).result =
            .err (env.NewAPIError resp))
        ∧ (∀ v, (papi.RemoveProperty env (respond resp out) params).result = .ok v →
          resp.StatusCode = 200)) := by
  refine ⟨?_, ?_, ?_, ?_, ?_, ?_, ?_, ?_, ?_, ?_, ?_, ?_, ?_⟩
  · intro out params
    obtain ⟨u, hu⟩ := hb.1 "/identity-management/v3/user-admin/properties"
    simp only [iam.ListProperties, iam.ListProperties.prog, hu, http.NewRequestWithContext, hb.2, respond, Prog.run, Prog.run]
    by_cases hs : resp.StatusCode = 200 <;> simp [hs]
  · intro out params hv
    obtain ⟨u, hu⟩ := hb.1 (fmt.Sprintf env "/identity-management/v3/user-admin/properties/%d/users" [.int params.PropertyID])
    simp only [iam.ListUsersForProperty, iam.ListUsersForProperty.prog, hv, hu, http.NewRequestWithContext, hb.2, respond, Prog.run, Prog.run]
    by_cases hs : resp.StatusCode = 200 <;> simp [hs]
  · intro out params hv
    obtain ⟨u, hu⟩ := hb.1 (fmt.Sprintf env "/identity-management/v3/user-admin/properties/%d" [.int params.PropertyID])
    simp only [iam.GetProperty, iam.GetProperty.prog, hv, hu, http.NewRequestWithContext, hb.2, respond, Prog.run, Prog.run]
    by_cases hs : resp.StatusCode = 200 <;> simp [hs]
  · intro out params hv
    simp only [iam.MoveProperty, iam.MoveProperty.prog, hv, http.NewRequestWithContext, hb.2, respond, Prog.run, Prog.run]
    by_cases hs : resp.StatusCode = 204 <;> simp [hs]
  · intro out params hv
    simp only [iam.BlockUsers, iam.BlockUsers.prog, hv, http.NewRequestWithContext, hb.2, respond, Prog.run, Prog.run]
    by_cases hs : resp.StatusCode = 200 <;> simp [hs]
  · intro out params hv
    simp only [papi.ActivateInclude, papi.ActivateInclude.prog, hv, http.NewRequestWithContext, hb.2, respond, Prog.run, Prog.run]
    by_cases hs : resp.StatusCode = 201 <;> simp [hs]
  · intro out params hv
    simp only [papi.DeactivateInclude, papi.DeactivateInclude.prog, hv, http.NewRequestWithContext, hb.2, respond, Prog.run, Prog.run]
    by_cases hs : resp.StatusCode = 201 <;> simp [hs]
  · intro F out params hv
    simp only [papi.GetIncludeActivation, papi.GetIncludeActivation.prog, hv, http.NewRequestWithContext, hb.2, respond, Prog.run, Prog.run]
    by_cases hs : resp.StatusCode = 200 <;> simp [hs]
  · intro F out params hv
    obtain ⟨u, hu⟩ := hb.1 (fmt.Sprintf env "/papi/v1/includes/%s/activations" [.str params.IncludeID])
    simp only [papi.ListIncludeActivations, papi.ListIncludeActivations.prog, hv, hu, http.NewRequestWithContext, hb.2, respond, Prog.run, Prog.run]
    by_cases hs : resp.StatusCode = 200 <;> simp [hs]
  · intro out params hv
    simp only [papi.GetProperties, papi.GetProperties.prog, hv, http.NewRequestWithContext, hb.2, respond, Prog.run, Prog.run]
    by_cases hs : resp.StatusCode = 200 <;> simp [hs]
  · intro R out params hv
    simp only [papi.CreateProperty, papi.CreateProperty.prog, hv, http.NewRequestWithContext, hb.2, respond, Prog.run, Prog.run]
    by_cases hs : resp.StatusCode = 201 <;> simp [hs]
  · intro R out params hv
    obtain ⟨u, hu⟩ := hb.1 (fmt.Sprintf env "/papi/v1/properties/%s" [.str params.PropertyID])
    simp only [papi.GetProperty, papi.GetProperty.prog, hv, hu, http.NewRequestWithContext, hb.2, respond, Prog.run, Prog.run]
    by_cases hs : resp.StatusCode = 200 <;> simp [hs]
  · intro out params hv
    obtain ⟨u, hu⟩ := hb.1 (fmt.Sprintf env "/papi/v1/properties/%s" [.str params.PropertyID])
    simp only [papi.RemoveProperty, papi.RemoveProperty.prog, hv, hu, http.NewRequestWithContext, hb.2, respond, Prog.run, Prog.run]
    by_cases hs : resp.StatusCode = 200 <;> simp [hs]

/-- Witness of claim C2: `ActivateInclude` on a request without `IncludeID`. -/
theorem validation_failure_makes_no_exec_call_witness :
    papi.ActivateIncludeRequest.Validate papi.blankActivate
        = some (.errors [("IncludeID", .rule "cannot be blank")])
    ∧ papi.ActivateInclude refEnv (failWith (.other "unreachable")) papi.blankActivate =
        ⟨.err (fmt.Errorf refEnv "%s: %w: %s"
          [.err papi.ErrActivateInclude, .err papi.ErrStructValidation,
            .verr (.errors [("IncludeID", .rule "cannot be blank")])]), []⟩ :=
  ⟨rfl, (validation_failure_makes_no_exec_call refEnv).2.2.2.2.2.1 _ _ _ rfl⟩

/-- Witness of claim C3: `ActivateInclude` answered with status 200. -/
theorem status_code_exactness_witness :
    refEnv.builds
    ∧ papi.ActivateIncludeRequest.Validate papi.validActivate = none
    ∧ (papi.ActivateInclude refEnv (respond ⟨200, "ok"⟩ ⟨"", "/papi/v1/includes/inc_1/activations/atv_2"⟩)
          papi.validActivate).result =
        .err (fmt.Errorf refEnv "%s: %w"
          [.err papi.ErrActivateInclude, .err (.api (refEnv.Error ⟨200, "ok"⟩))]) :=
  ⟨refEnv_builds, rfl,
    ((status_code_exactness refEnv refEnv_builds ⟨200, "ok"⟩).2.2.2.2.2.1
      ⟨"", "/papi/v1/includes/inc_1/activations/atv_2"⟩ papi.validActivate rfl).1 (by decide)⟩

/-! ## The error layers of a validation failure -/

/-- Claim C4 as stated fails: the error `ActivateInclude` returns for a request
without `IncludeID` matches `ErrStructValidation` but does not match
`ErrActivateInclude`. -/
theorem validation_failure_not_operation_sentinel :
    (papi.ActivateIncludeRequest.Validate papi.blankActivate).isSome = true
    ∧ (papi.ActivateInclude refEnv (failWith (.other "unreachable")) papi.blankActivate).result.errorIs
        papi.ErrStructValidation = true
    ∧ (papi.ActivateInclude refEnv (failWith (.other "unreachable")) papi.blankActivate).result.errorIs
        papi.ErrActivateInclude = false := by
  decide

/-- Claim C4, amended. For every iam properties operation and papi
include-activation operation that validates and every request failing
validation, the returned error matches `ErrStructValidation` under
`errors.Is`; the operation's sentinel is formatted with `%s`, so it is not in
the unwrap chain (`errors.Is` with it is false) and identifies the operation
as the first words of the message. -/
theorem validation_failure_error_layers (env : Env) :
    (∀ (exec : Exec Unit iam.ListUsersForPropertyResponse) params err,
      iam.ListUsersForPropertyRequest.Validate env params = some err →
      (iam.ListUsersForProperty env exec params).result.errorIs iam.ErrStructValidation = true
        ∧ (iam.ListUsersForProperty env exec params).result.errorIs iam.ErrListUsersForProperty = false
        ∧ (iam.ListUsersForProperty env exec params).result.message? env
            = some ("list users for property: struct validation:\n" ++ env.validationText err))
    ∧ (∀ (exec : Exec Unit iam.GetPropertyResponse) params err,
      iam.GetPropertyRequest.Validate params = some err →
      (iam.GetProperty env exec params).result.errorIs iam.ErrStructValidation = true
        ∧ (iam.GetProperty env exec params).result.errorIs iam.ErrGetProperty = false
        ∧ (iam.GetProperty env exec params).result.message? env
            = some ("get property: struct validation:\n" ++ env.validationText err))
    ∧ (∀ (exec : Exec iam.MovePropertyReqBody Unit) params err,
      iam.MovePropertyRequest.Validate params = some err →
      (iam.MoveProperty env exec params).result.errorIs iam.ErrStructValidation = true
        ∧ (iam.MoveProperty env exec params).result.errorIs iam.ErrMoveProperty = false
        ∧ (iam.MoveProperty env exec params).result.message? env
            = some ("move property: struct validation: " ++ env.validationText err))
    ∧ (∀ (exec : Exec iam.BlockUsersReqBody iam.BlockUsersResponse) params err,
      iam.BlockUsersRequest.Validate params = some err →
      (iam.BlockUsers env exec params).result.errorIs iam.ErrStructValidation = true
        ∧ (iam.BlockUsers env exec params).result.errorIs iam.ErrBlockUsers = false
        ∧ (iam.BlockUsers env exec params).result.message? env
            = some ("block users: struct validation: " ++ env.validationText err))
    ∧ (∀ (exec : Exec Unit iam.GetPropertyResponse) params err,
      iam.MapPropertyIDToNameRequest.Validate params = some err →
      (iam.MapPropertyIDToName env exec params).result.errorIs iam.ErrStructValidation = true
        ∧ (iam.MapPropertyIDToName env exec params).result.errorIs iam.ErrMapPropertyIDToName = false
        ∧ (iam.MapPropertyIDToName env exec params).result.message? env
            = some ("map property by id: struct validation:\n" ++ env.validationText err))
    ∧ (∀ (exec : Exec papi.IncludeRequestBody papi.ActivationIncludeResponse) params err,
      papi.ActivateIncludeRequest.Validate params = some err →
      (papi.ActivateInclude env exec params).result.errorIs papi.ErrStructValidation = true
        ∧ (papi.ActivateInclude env exec params).result.errorIs papi.ErrActivateInclude = false
        ∧ (papi.ActivateInclude env exec params).result.message? env
            = some ("activate include: struct validation: " ++ env.validationText err))
    ∧ (∀ (exec : Exec papi.IncludeRequestBody papi.DeactivationIncludeResponse) params err,
      papi.DeactivateIncludeRequest.Validate params = some err →
      (papi.DeactivateInclude env exec params).result.errorIs papi.ErrStructValidation = true
        ∧ (papi.DeactivateInclude env exec params).result.errorIs papi.ErrDeactivateInclude = false
        ∧ (papi.DeactivateInclude env exec params).result.message? env
            = some ("deactivate include: struct validation: " ++ env.validationText err))
    ∧ (∀ (F : Type) (exec : Exec Unit (papi.IncludeActivationResponse F)) params err,
      papi.GetIncludeActivationRequest.Validate params = some err →
      (papi.GetIncludeActivation env exec params).result.errorIs papi.ErrStructValidation = true
        ∧ (papi.GetIncludeActivation env exec params).result.errorIs papi.ErrGetIncludeActivation = false
        ∧ (papi.GetIncludeActivation env exec params).result.message? env
            = some ("get include activation: struct validation: " ++ env.validationText err))
    ∧ (∀ (F : Type) (exec : Exec Unit (papi.IncludeActivationsResponse F)) params err,
      papi.ListIncludeActivationsRequest.Validate params = some err →
      (papi.ListIncludeActivations env exec params).result.errorIs papi.ErrStructValidation = true
        ∧ (papi.ListIncludeActivations env exec params).result.errorIs papi.ErrListIncludeActivations = false
        ∧ (papi.ListIncludeActivations env exec params).result.message? env
            = some ("list include activations: struct validation: " ++ env.validationText err))
    ∧ (∀ (exec : Exec Unit iam.ListPropertiesResponse),
      (iam.MapPropertyNameToID env exec "").result.errorIs iam.ErrStructValidation = true
        ∧ (iam.MapPropertyNameToID env exec "").result.errorIs iam.ErrMapPropertyNameToID = false
        ∧ (iam.MapPropertyNameToID env exec "").result.message? env
            = some "map property by name: struct validation:\n name cannot be blank") := by
  refine ⟨?_, ?_, ?_, ?_, ?_, ?_, ?_, ?_, ?_, ?_⟩
  · intro exec params err h
    simp [iam.ListUsersForProperty, iam.ListUsersForProperty.prog, h, Errorf_s_w_s, Errorf_s_w_nl_s, Res.errorIs, Res.message?, Res.error?,
      errors_Is_wrap, errors_Is_sentinel, GoErr.Error, fmt.Arg.text, iam.ErrListUsersForProperty, iam.ErrStructValidation]
  · intro exec params err h
    simp [iam.GetProperty, iam.GetProperty.prog, h, Errorf_s_w_s, Errorf_s_w_nl_s, Res.errorIs, Res.message?, Res.error?,
      errors_Is_wrap, errors_Is_sentinel, GoErr.Error, fmt.Arg.text, iam.ErrGetProperty, iam.ErrStructValidation]
  · intro exec params err h
    simp [iam.MoveProperty, iam.MoveProperty.prog, h, Errorf_s_w_s, Errorf_s_w_nl_s, Res.errorIs, Res.message?, Res.error?,
      errors_Is_wrap, errors_Is_sentinel, GoErr.Error, fmt.Arg.text, iam.ErrMoveProperty, iam.ErrStructValidation]
  · intro exec params err h
    simp [iam.BlockUsers, iam.BlockUsers.prog, h, Errorf_s_w_s, Errorf_s_w_nl_s, Res.errorIs, Res.message?, Res.error?,
      errors_Is_wrap, errors_Is_sentinel, GoErr.Error, fmt.Arg.text, iam.ErrBlockUsers, iam.ErrStructValidation]
  · intro exec params err h
    simp [iam.MapPropertyIDToName, iam.MapPropertyIDToName.prog, h, Errorf_s_w_s, Errorf_s_w_nl_s, Res.errorIs, Res.message?, Res.error?,
      errors_Is_wrap, errors_Is_sentinel, GoErr.Error, fmt.Arg.text, iam.ErrMapPropertyIDToName, iam.ErrStructValidation]
  · intro exec params err h
    simp [papi.ActivateInclude, papi.ActivateInclude.prog, h, Errorf_s_w_s, Errorf_s_w_nl_s, Res.errorIs, Res.message?, Res.error?,
      errors_Is_wrap, errors_Is_sentinel, GoErr.Error, fmt.Arg.text, papi.ErrActivateInclude, papi.ErrStructValidation]
  · intro exec params err h
    simp [papi.DeactivateInclude, papi.DeactivateInclude.prog, h, Errorf_s_w_s, Errorf_s_w_nl_s, Res.errorIs, Res.message?, Res.error?,
      errors_Is_wrap, errors_Is_sentinel, GoErr.Error, fmt.Arg.text, papi.ErrDeactivateInclude, papi.ErrStructValidation]
  · intro F exec params err h
    simp [papi.GetIncludeActivation, papi.GetIncludeActivation.prog, h, Errorf_s_w_s, Errorf_s_w_nl_s, Res.errorIs, Res.message?, Res.error?,
      errors_Is_wrap, errors_Is_sentinel, GoErr.Error, fmt.Arg.text, papi.ErrGetIncludeActivation, papi.ErrStructValidation]
  · intro F exec params err h
    simp [papi.ListIncludeActivations, papi.ListIncludeActivations.prog, h, Errorf_s_w_s, Errorf_s_w_nl_s, Res.errorIs, Res.message?, Res.error?,
      errors_Is_wrap, errors_Is_sentinel, GoErr.Error, fmt.Arg.text, papi.ErrListIncludeActivations, papi.ErrStructValidation]
  · intro exec
    simp [iam.MapPropertyNameToID, iam.MapPropertyNameToID.prog, Errorf_s_w_blank, Res.errorIs, Res.message?, Res.error?,
      errors_Is_wrap, errors_Is_sentinel, GoErr.Error, fmt.Arg.text, iam.ErrMapPropertyNameToID,
      iam.ErrStructValidation]

/-! ## The error layers of an API error -/

/-- Claim C5 as stated fails: for `ListProperties` answered with status 500
the returned error matches the normalized error but not `ErrListProperties`,
and for `MapPropertyIDToName` it matches `ErrMapPropertyIDToName` but not the
normalized error. -/
theorem api_error_not_both_layers :
    (iam.ListProperties refEnv (respond ⟨500, "oops"⟩ []) ⟨0, false⟩).result.errorIs
        (.api (refEnv.Error ⟨500, "oops"⟩)) = true
    ∧ (iam.ListProperties refEnv (respond ⟨500, "oops"⟩ []) ⟨0, false⟩).result.errorIs
        iam.ErrListProperties = false
    ∧ (iam.MapPropertyIDToNameRequest.Validate ⟨7, 3⟩).isNone = true
    ∧ (iam.MapPropertyIDToName refEnv (respond ⟨500, "oops"⟩ ⟨"", "", "", 3, "", "", "", 7, "www"⟩)
        ⟨7, 3⟩).result.errorIs iam.ErrMapPropertyIDToName = true
    ∧ (iam.MapPropertyIDToName refEnv (respond ⟨500, "oops"⟩ ⟨"", "", "", 3, "", "", "", 7, "www"⟩)
        ⟨7, 3⟩).result.errorIs (.api (refEnv.Error ⟨500, "oops"⟩)) = false := by
  decide

/-- Claim C5, amended. In an environment where requests build, given a valid
request and a response whose status differs from the expected code: for the
operations that call `Exec` themselves the returned error unwraps to the
normalized error `Error(resp)` and so matches it under `errors.Is`, while the
operation's sentinel is formatted with `%s`, is not in the unwrap chain and
only opens the message; for `MapPropertyIDToName` and `MapPropertyNameToID`
the returned error wraps their own sentinel and carries the error of the
inner call, the normalized error included, only as message text. -/
theorem api_error_layers (env : Env) (hb : env.builds) (resp : Response) :
    (∀ (out : iam.ListPropertiesResponse) (params : iam.ListPropertiesRequest),
      resp.StatusCode ≠ 200 →
      (iam.ListProperties env (respond resp out) params).result.error?.bind GoErr.Unwrap
          = some (.api (env.Error resp))
        ∧ (iam.ListProperties env (respond resp out) params).result.errorIs (.api (env.Error resp)) = true
        ∧ (iam.ListProperties env (respond resp out) params).result.errorIs iam.ErrListProperties = false
        ∧ (iam.ListProperties env (respond resp out) params).result.message? env
            = some ("list properties: " ++ env.errorText (env.Error resp)))
    ∧ (∀ (out : iam.ListUsersForPropertyResponse) (params : iam.ListUsersForPropertyRequest),
      iam.ListUsersForPropertyRequest.Validate env params = none →
      resp.StatusCode ≠ 200 →
      (iam.ListUsersForProperty env (respond resp out) params).result.error?.bind GoErr.Unwrap
          = some (.api (env.Error resp))
        ∧ (iam.ListUsersForProperty env (respond resp out) params).result.errorIs (.api (env.Error resp)) = true
        ∧ (iam.ListUsersForProperty env (respond resp out) params).result.errorIs iam.ErrListUsersForProperty = false
        ∧ (iam.ListUsersForProperty env (respond resp out) params).result.message? env
            = some ("list users for property: " ++ env.errorText (env.Error resp)))
    ∧ (∀ (out : iam.GetPropertyResponse) (params : iam.GetPropertyRequest),
      iam.GetPropertyRequest.Validate params = none →
      resp.StatusCode ≠ 200 →
      (iam.GetProperty env (respond resp out) params).result.error?.bind GoErr.Unwrap
          = some (.api (env.Error resp))
        ∧ (iam.GetProperty env (respond resp out) params).result.errorIs (.api (env.Error resp)) = true
        ∧ (iam.GetProperty env (respond resp out) params).result.errorIs iam.ErrGetProperty = false
        ∧ (iam.GetProperty env (respond resp out) params).result.message? env
            = some ("get property: " ++ env.errorText (env.Error resp)))
    ∧ (∀ (out : Unit) (params : iam.MovePropertyRequest),
      iam.MovePropertyRequest.Validate params = none →
      resp.StatusCode ≠ 204 →
      (iam.MoveProperty env (respond resp out) params).result.error?.bind GoErr.Unwrap
          = some (.api (env.Error resp))
        ∧ (iam.MoveProperty env (respond resp out) params).result.errorIs (.api (env.Error resp)) = true
        ∧ (iam.MoveProperty env (respond resp out) params).result.errorIs iam.ErrMoveProperty = false
        ∧ (iam.MoveProperty env (respond resp out) params).result.message? env
            = some ("move property: " ++ env.errorText (env.Error resp)))
    ∧ (∀ (out : iam.BlockUsersResponse) (params : iam.BlockUsersRequest),
      iam.BlockUsersRequest.Validate params = none →
      resp.StatusCode ≠ 200 →
      (iam.BlockUsers env (respond resp out) params).result.error?.bind GoErr.Unwrap
          = some (.api (env.Error resp))
        ∧ (iam.BlockUsers env (respond resp out) params).result.errorIs (.api (env.Error resp)) = true
        ∧ (iam.BlockUsers env (respond resp out) params).result.errorIs iam.ErrBlockUsers = false
        ∧ (iam.BlockUsers env (respond resp out) params).result.message? env
            = some ("block users: " ++ env.errorText (env.Error resp)))
    ∧ (∀ (out : papi.ActivationIncludeResponse) (params : papi.ActivateIncludeRequest),
      papi.ActivateIncludeRequest.Validate params = none →
      resp.StatusCode ≠ 201 →
      (papi.ActivateInclude env (respond resp out) params).result.error?.bind GoErr.Unwrap
          = some (.api (env.Error resp))
        ∧ (papi.ActivateInclude env (respond resp out) params).result.errorIs (.api (env.Error resp)) = true
        ∧ (papi.ActivateInclude env (respond resp out) params).result.errorIs papi.ErrActivateInclude = false
        ∧ (papi.ActivateInclude env (respond resp out) params).result.message? env
            = some ("activate include: " ++ env.errorText (env.Error resp)))
    ∧ (∀ (out : papi.DeactivationIncludeResponse) (params : papi.DeactivateIncludeRequest),
      papi.DeactivateIncludeRequest.Validate params = none →
      resp.StatusCode ≠ 201 →
      (papi.DeactivateInclude env (respond resp out) params).result.error?.bind GoErr.Unwrap
          = some (.api (env.Error resp))
        ∧ (papi.DeactivateInclude env (respond resp out) params).result.errorIs (.api (env.Error resp)) = true
        ∧ (papi.DeactivateInclude env (respond resp out) params).result.errorIs papi.ErrDeactivateInclude = false
        ∧ (papi.DeactivateInclude env (respond resp out) params).result.message? env
            = some ("deactivate include: " ++ env.errorText (env.Error resp)))
    ∧ (∀ (F : Type) (out : papi.IncludeActivationResponse F) (params : papi.GetIncludeActivationRequest),
      papi.GetIncludeActivationRequest.Validate params = none →
      resp.StatusCode ≠ 200 →
      (papi.GetIncludeActivation env (respond resp out) params).result.error?.bind GoErr.Unwrap
          = some (.api (env.Error resp))
        ∧ (papi.GetIncludeActivation env (respond resp out) params).result.errorIs (.api (env.Error resp)) = true
        ∧ (papi.GetIncludeActivation env (respond resp out) params).result.errorIs papi.ErrGetIncludeActivation = false
        ∧ (papi.GetIncludeActivation env (respond resp out) params).result.message? env
            = some ("get include activation: " ++ env.errorText (env.Error resp)))
    ∧ (∀ (F : Type) (out : papi.IncludeActivationsResponse F) (params : papi.ListIncludeActivationsRequest),
      papi.ListIncludeActivationsRequest.Validate params = none →
      resp.StatusCode ≠ 200 →
      (papi.ListIncludeActivations env (respond resp out) params).result.error?.bind GoErr.Unwrap
          = some (.api (env.Error resp))
        ∧ (papi.ListIncludeActivations env (respond resp out) params).result.errorIs (.api (env.Error resp)) = true
        ∧ (papi.ListIncludeActivations env (respond resp out) params).result.errorIs papi.ErrListIncludeActivations = false
        ∧ (papi.ListIncludeActivations env (respond resp out) params).result.message? env
            = some ("list include activations: " ++ env.errorText (env.Error resp)))
    ∧ (∀ (out : iam.GetPropertyResponse) (params : iam.MapPropertyIDToNameRequest),
      iam.MapPropertyIDToNameRequest.Validate params = none →
      resp.StatusCode ≠ 200 →
      (iam.MapPropertyIDToName env (respond resp out) params).result.errorIs
          iam.ErrMapPropertyIDToName = true
        ∧ (iam.MapPropertyIDToName env (respond resp out) params).result.errorIs
            (.api (env.Error resp)) = false
        ∧ (iam.MapPropertyIDToName env (respond resp out) params).result.message? env
            = some ("map property by id: request failed: get property: "
                ++ env.errorText (env.Error resp)))
    ∧ (∀ (out : iam.ListPropertiesResponse) (name : iam.MapPropertyNameToIDRequest),
      name ≠ "" →
      resp.StatusCode ≠ 200 →
      (iam.MapPropertyNameToID env (respond resp out) name).result.errorIs
          iam.ErrMapPropertyNameToID = true
        ∧ (iam.MapPropertyNameToID env (respond resp out) name).result.errorIs
            (.api (env.Error resp)) = false
        ∧ (iam.MapPropertyNameToID env (respond resp out) name).result.message? env
            = some ("map property by name: request failed: list properties: "
                ++ env.errorText (env.Error resp))) := by
  refine ⟨?_, ?_, ?_, ?_, ?_, ?_, ?_, ?_, ?_, ?_, ?_⟩
  · intro out params hs
    obtain ⟨u, hu⟩ := hb.1 "/identity-management/v3/user-admin/properties"
    simp [iam.ListProperties, iam.ListProperties.prog, hu, http.NewRequestWithContext, hb.2, respond, hs, Errorf_s_w, Errorf_w_failed_s, Res.errorIs, Res.message?, Res.error?, errors_Is_wrap, errors_Is_sentinel, errors_Is_api, GoErr.Error, GoErr.Unwrap, fmt.Arg.text, iam.ErrListProperties]
  · intro out params hv hs
    obtain ⟨u, hu⟩ := hb.1 (fmt.Sprintf env "/identity-management/v3/user-admin/properties/%d/users" [.int params.PropertyID])
    simp [iam.ListUsersForProperty, iam.ListUsersForProperty.prog, hv, hu, http.NewRequestWithContext, hb.2, respond, hs, Errorf_s_w, Errorf_w_failed_s, Res.errorIs, Res.message?, Res.error?, errors_Is_wrap, errors_Is_sentinel, errors_Is_api, GoErr.Error, GoErr.Unwrap, fmt.Arg.text, iam.ErrListUsersForProperty]
  · intro out params hv hs
    obtain ⟨u, hu⟩ := hb.1 (fmt.Sprintf env "/identity-management/v3/user-admin/properties/%d" [.int params.PropertyID])
    simp [iam.GetProperty, iam.GetProperty.prog, hv, hu, http.NewRequestWithContext, hb.2, respond, hs, Errorf_s_w, Errorf_w_failed_s, Res.errorIs, Res.message?, Res.error?, errors_Is_wrap, errors_Is_sentinel, errors_Is_api, GoErr.Error, GoErr.Unwrap, fmt.Arg.text, iam.ErrGetProperty]
  · intro out params hv hs
    simp [iam.MoveProperty, iam.MoveProperty.prog, hv, http.NewRequestWithContext, hb.2, respond, hs, Errorf_s_w, Errorf_w_failed_s, Res.errorIs, Res.message?, Res.error?, errors_Is_wrap, errors_Is_sentinel, errors_Is_api, GoErr.Error, GoErr.Unwrap, fmt.Arg.text, iam.ErrMoveProperty]
  · intro out params hv hs
    simp [iam.BlockUsers, iam.BlockUsers.prog, hv, http.NewRequestWithContext, hb.2, respond, hs, Errorf_s_w, Errorf_w_failed_s, Res.errorIs, Res.message?, Res.error?, errors_Is_wrap, errors_Is_sentinel, errors_Is_api, GoErr.Error, GoErr.Unwrap, fmt.Arg.text, iam.ErrBlockUsers]
  · intro out params hv hs
    simp [papi.ActivateInclude, papi.ActivateInclude.prog, hv, http.NewRequestWithContext, hb.2, respond, hs, Errorf_s_w, Errorf_w_failed_s, Res.errorIs, Res.message?, Res.error?, errors_Is_wrap, errors_Is_sentinel, errors_Is_api, GoErr.Error, GoErr.Unwrap, fmt.Arg.text, papi.ErrActivateInclude]
  · intro out params hv hs
    simp [papi.DeactivateInclude, papi.DeactivateInclude.prog, hv, http.NewRequestWithContext, hb.2, respond, hs, Errorf_s_w, Errorf_w_failed_s, Res.errorIs, Res.message?, Res.error?, errors_Is_wrap, errors_Is_sentinel, errors_Is_api, GoErr.Error, GoErr.Unwrap, fmt.Arg.text, papi.ErrDeactivateInclude]
  · intro F out params hv hs
    simp [papi.GetIncludeActivation, papi.GetIncludeActivation.prog, hv, http.NewRequestWithContext, hb.2, respond, hs, Errorf_s_w, Errorf_w_failed_s, Res.errorIs, Res.message?, Res.error?, errors_Is_wrap, errors_Is_sentinel, errors_Is_api, GoErr.Error, GoErr.Unwrap, fmt.Arg.text, papi.ErrGetIncludeActivation]
  · intro F out params hv hs
    obtain ⟨u, hu⟩ := hb.1 (fmt.Sprintf env "/papi/v1/includes/%s/activations" [.str params.IncludeID])
    simp [papi.ListIncludeActivations, papi.ListIncludeActivations.prog, hv, hu, http.NewRequestWithContext, hb.2, respond, hs, Errorf_s_w, Errorf_w_failed_s, Res.errorIs, Res.message?, Res.error?, errors_Is_wrap, errors_Is_sentinel, errors_Is_api, GoErr.Error, GoErr.Unwrap, fmt.Arg.text, papi.ErrListIncludeActivations]
  · intro out params hv hs
    obtain ⟨u, hu⟩ := hb.1 (fmt.Sprintf env "/identity-management/v3/user-admin/properties/%d"
      [.int params.PropertyID])
    have hv2 : iam.GetPropertyRequest.Validate
        { PropertyID := params.PropertyID, GroupID := params.GroupID } = none := hv
    simp [iam.MapPropertyIDToName, iam.MapPropertyIDToName.prog, iam.GetProperty, iam.GetProperty.prog, hv, hv2, hu, http.NewRequestWithContext, hb.2,
      respond, hs, Errorf_s_w, Errorf_w_failed_s, Res.errorIs, Res.message?, Res.error?, errors_Is_wrap, errors_Is_sentinel, errors_Is_api, GoErr.Error, GoErr.Unwrap, fmt.Arg.text, iam.ErrMapPropertyIDToName, iam.ErrGetProperty]
    rw [← String.append_assoc]
    rfl
  · intro out name hv hs
    obtain ⟨u, hu⟩ := hb.1 "/identity-management/v3/user-admin/properties"
    simp [iam.MapPropertyNameToID, iam.MapPropertyNameToID.prog, iam.ListProperties, iam.ListProperties.prog, hv, hu, http.NewRequestWithContext, hb.2,
      respond, hs, Errorf_s_w, Errorf_w_failed_s, Res.errorIs, Res.message?, Res.error?, errors_Is_wrap, errors_Is_sentinel, errors_Is_api, GoErr.Error, GoErr.Unwrap, fmt.Arg.text, iam.ErrMapPropertyNameToID, iam.ErrListProperties]
    rw [← String.append_assoc]
    rfl

/-- Witness of the amended claim C5: `ActivateInclude` answered with status 200. -/
theorem api_error_layers_witness :
    refEnv.builds
    ∧ papi.ActivateIncludeRequest.Validate papi.validActivate = none
    ∧ (papi.ActivateInclude refEnv (respond ⟨200, "ok"⟩ ⟨"", "/a/b"⟩)
          papi.validActivate).result.errorIs papi.ErrActivateInclude = false :=
  ⟨refEnv_builds, rfl,
    ((api_error_layers refEnv refEnv_builds ⟨200, "ok"⟩).2.2.2.2.2.1
      ⟨"", "/a/b"⟩ papi.validActivate rfl (by decide)).2.2.1⟩

/-! ## Transport errors -/

/-- Claim C6. A transport error propagates wrapped with the operation sentinel
and is not retried: in an environment where requests build, every iam
properties and papi include-activation operation, given a valid request, has
one request and one body such that
* whatever the transport answers, the calls of `Exec` the operation makes are
  exactly the one call with that request and body;
* for every transport whose answer to that call is the error `e`, the
  operation returns no value and an error that matches the operation's
  sentinel under `errors.Is` and whose message is the sentinel's text,
  `: request failed: ` and the message of `e`;
* over every transport with a state of its own, started in a state where its
  answer to that call is `e`, the operation returns that error and leaves the
  transport in the state that one call produced: nothing is sent again,
  whatever the transport would answer to a second call. -/
theorem transport_error_wrapped_once (env : Env) (hb : env.builds) (e : GoErr) :
    (∀ (params : iam.ListPropertiesRequest),
      ∃ req body,
        (∀ exec, (iam.ListProperties env exec params).calls = [(req, body)])
        ∧ (∀ exec, exec req body = .error e →
            (iam.ListProperties env exec params).result.errorIs iam.ErrListProperties = true
            ∧ (iam.ListProperties env exec params).result.value?.isNone = true
            ∧ (iam.ListProperties env exec params).result.message? env
                = some ("list properties: request failed: " ++ e.Error env))
        ∧ (∀ (σ : Type) (transport : Transport σ _ _) (s : σ),
            (transport s req body).1 = .error e →
            (iam.ListProperties.prog env params).runIn transport s
              = (.err (.wrap ("list properties: request failed: " ++ e.Error env)
                  iam.ErrListProperties), (transport s req body).2)))
    ∧ (∀ (params : iam.ListUsersForPropertyRequest),
      iam.ListUsersForPropertyRequest.Validate env params = none →
      ∃ req body,
        (∀ exec, (iam.ListUsersForProperty env exec params).calls = [(req, body)])
        ∧ (∀ exec, exec req body = .error e →
            (iam.ListUsersForProperty env exec params).result.errorIs iam.ErrListUsersForProperty = true
            ∧ (iam.ListUsersForProperty env exec params).result.value?.isNone = true
            ∧ (iam.ListUsersForProperty env exec params).result.message? env
                = some ("list users for property: request failed: " ++ e.Error env))
        ∧ (∀ (σ : Type) (transport : Transport σ _ _) (s : σ),
            (transport s req body).1 = .error e →
            (iam.ListUsersForProperty.prog env params).runIn transport s
              = (.err (.wrap ("list users for property: request failed: " ++ e.Error env)
                  iam.ErrListUsersForProperty), (transport s req body).2)))
    ∧ (∀ (params : iam.GetPropertyRequest),
      iam.GetPropertyRequest.Validate params = none →
      ∃ req body,
        (∀ exec, (iam.GetProperty env exec params).calls = [(req, body)])
        ∧ (∀ exec, exec req body = .error e →
            (iam.GetProperty env exec params).result.errorIs iam.ErrGetProperty = true
            ∧ (iam.GetProperty env exec params).result.value?.isNone = true
            ∧ (iam.GetProperty env exec params).result.message? env
                = some ("get property: request failed: " ++ e.Error env))
        ∧ (∀ (σ : Type) (transport : Transport σ _ _) (s : σ),
            (transport s req body).1 = .error e →
            (iam.GetProperty.prog env params).runIn transport s
              = (.err (.wrap ("get property: request failed: " ++ e.Error env)
                  iam.ErrGetProperty), (transport s req body).2)))
    ∧ (∀ (params : iam.MovePropertyRequest),
      iam.MovePropertyRequest.Validate params = none →
      ∃ req body,
        (∀ exec, (iam.MoveProperty env exec params).calls = [(req, body)])
        ∧ (∀ exec, exec req body = .error e →
            (iam.MoveProperty env exec params).result.errorIs iam.ErrMoveProperty = true
            ∧ (iam.MoveProperty env exec params).result.value?.isNone = true
            ∧ (iam.MoveProperty env exec params).result.message? env
                = some ("move property: request failed: " ++ e.Error env))
        ∧ (∀ (σ : Type) (transport : Transport σ _ _) (s : σ),
            (transport s req body).1 = .error e →
            (iam.MoveProperty.prog env params).runIn transport s
              = (.err (.wrap ("move property: request failed: " ++ e.Error env)
                  iam.ErrMoveProperty), (transport s req body).2)))
    ∧ (∀ (params : iam.BlockUsersRequest),
      iam.BlockUsersRequest.Validate params = none →
      ∃ req body,
        (∀ exec, (iam.BlockUsers env exec params).calls = [(req, body)])
        ∧ (∀ exec, exec req body = .error e →
            (iam.BlockUsers env exec params).result.errorIs iam.ErrBlockUsers = true
            ∧ (iam.BlockUsers env exec params).result.value?.isNone = true
            ∧ (iam.BlockUsers env exec params).result.message? env
                = some ("block users: request failed: " ++ e.Error env))
        ∧ (∀ (σ : Type) (transport : Transport σ _ _) (s : σ),
            (transport s req body).1 = .error e →
            (iam.BlockUsers.prog env params).runIn transport s
              = (.err (.wrap ("block users: request failed: " ++ e.Error env)
                  iam.ErrBlockUsers), (transport s req body).2)))
    ∧ (∀ (params : papi.ActivateIncludeRequest),
      papi.ActivateIncludeRequest.Validate params = none →
      ∃ req body,
        (∀ exec, (papi.ActivateInclude env exec params).calls = [(req, body)])
        ∧ (∀ exec, exec req body = .error e →
            (papi.ActivateInclude env exec params).result.errorIs papi.ErrActivateInclude = true
            ∧ (papi.ActivateInclude env exec params).result.value?.isNone = true
            ∧ (papi.ActivateInclude env exec params).result.message? env
                = some ("activate include: request failed: " ++ e.Error env))
        ∧ (∀ (σ : Type) (transport : Transport σ _ _) (s : σ),
            (transport s req body).1 = .error e →
            (papi.ActivateInclude.prog env params).runIn transport s
              = (.err (.wrap ("activate include: request failed: " ++ e.Error env)
                  papi.ErrActivateInclude), (transport s req body).2)))
    ∧ (∀ (params : papi.DeactivateIncludeRequest),
      papi.DeactivateIncludeRequest.Validate params = none →
      ∃ req body,
        (∀ exec, (papi.DeactivateInclude env exec params).calls = [(req, body)])
        ∧ (∀ exec, exec req body = .error e →
            (papi.DeactivateInclude env exec params).result.errorIs papi.ErrDeactivateInclude = true
            ∧ (papi.DeactivateInclude env exec params).result.value?.isNone = true
            ∧ (papi.DeactivateInclude env exec params).result.message? env
                = some ("deactivate include: request failed: " ++ e.Error env))
        ∧ (∀ (σ : Type) (transport : Transport σ _ _) (s : σ),
            (transport s req body).1 = .error e →
            (papi.DeactivateInclude.prog env params).runIn transport s
              = (.err (.wrap ("deactivate include: request failed: " ++ e.Error env)
                  papi.ErrDeactivateInclude), (transport s req body).2)))
    ∧ (∀ (F : Type) (params : papi.GetIncludeActivationRequest),
      papi.GetIncludeActivationRequest.Validate params = none →
      ∃ req body,
        (∀ exec, (papi.GetIncludeActivation (F := F) env exec params).calls = [(req, body)])
        ∧ (∀ exec, exec req body = .error e →
            (papi.GetIncludeActivation (F := F) env exec params).result.errorIs papi.ErrGetIncludeActivation = true
            ∧ (papi.GetIncludeActivation (F := F) env exec params).result.value?.isNone = true
            ∧ (papi.GetIncludeActivation (F := F) env exec params).result.message? env
                = some ("get include activation: request failed: " ++ e.Error env))
        ∧ (∀ (σ : Type) (transport : Transport σ _ _) (s : σ),
            (transport s req body).1 = .error e →
            (papi.GetIncludeActivation.prog (F := F) env params).runIn transport s
              = (.err (.wrap ("get include activation: request failed: " ++ e.Error env)
                  papi.ErrGetIncludeActivation), (transport s req body).2)))
    ∧ (∀ (F : Type) (params : papi.ListIncludeActivationsRequest),
      papi.ListIncludeActivationsRequest.Validate params = none →
      ∃ req body,
        (∀ exec, (papi.ListIncludeActivations (F := F) env exec params).calls = [(req, body)])
        ∧ (∀ exec, exec req body = .error e →
            (papi.ListIncludeActivations (F := F) env exec params).result.errorIs papi.ErrListIncludeActivations = true
            ∧ (papi.ListIncludeActivations (F := F) env exec params).result.value?.isNone = true
            ∧ (papi.ListIncludeActivations (F := F) env exec params).result.message? env
                = some ("list include activations: request failed: " ++ e.Error env))
        ∧ (∀ (σ : Type) (transport : Transport σ _ _) (s : σ),
            (transport s req body).1 = .error e →
            (papi.ListIncludeActivations.prog (F := F) env params).runIn transport s
              = (.err (.wrap ("list include activations: request failed: " ++ e.Error env)
                  papi.ErrListIncludeActivations), (transport s req body).2)))
    ∧ (∀ (params : iam.MapPropertyIDToNameRequest),
      iam.MapPropertyIDToNameRequest.Validate params = none →
      ∃ req body,
        (∀ exec, (iam.MapPropertyIDToName env exec params).calls = [(req, body)])
        ∧ (∀ exec, exec req body = .error e →
            (iam.MapPropertyIDToName env exec params).result.errorIs iam.ErrMapPropertyIDToName = true
            ∧ (iam.MapPropertyIDToName env exec params).result.value?.isNone = true
            ∧ (iam.MapPropertyIDToName env exec params).result.message? env
                = some ("map property by id: request failed: get property: request failed: "
                  ++ e.Error env))
        ∧ (∀ (σ : Type) (transport : Transport σ _ _) (s : σ),
            (transport s req body).1 = .error e →
            (iam.MapPropertyIDToName.prog env params).runIn transport s
              = (.err (.wrap ("map property by id: request failed: get property: request failed: "
                  ++ e.Error env)
                  iam.ErrMapPropertyIDToName), (transport s req body).2)))
    ∧ (∀ (name : iam.MapPropertyNameToIDRequest),
      name ≠ "" →
      ∃ req body,
        (∀ exec, (iam.MapPropertyNameToID env exec name).calls = [(req, body)])
        ∧ (∀ exec, exec req body = .error e →
            (iam.MapPropertyNameToID env exec name).result.errorIs iam.ErrMapPropertyNameToID = true
            ∧ (iam.MapPropertyNameToID env exec name).result.value?.isNone = true
            ∧ (iam.MapPropertyNameToID env exec name).result.message? env
                = some ("map property by name: request failed: list properties: request failed: "
                  ++ e.Error env))
        ∧ (∀ (σ : Type) (transport : Transport σ _ _) (s : σ),
            (transport s req body).1 = .error e →
            (iam.MapPropertyNameToID.prog env name).runIn transport s
              = (.err (.wrap ("map property by name: request failed: list properties: request failed: "
                  ++ e.Error env)
                  iam.ErrMapPropertyNameToID), (transport s req body).2))) := by
  refine ⟨?_, ?_, ?_, ?_, ?_, ?_, ?_, ?_, ?_, ?_, ?_⟩
  · intro params
    obtain ⟨u, hu⟩ := hb.1 "/identity-management/v3/user-admin/properties"
    apply Exists.intro
    apply Exists.intro
    refine ⟨?calls, ?result, ?state⟩
    case calls =>
      intro exec
      simp only [iam.ListProperties, iam.ListProperties.prog, hu, http.NewRequestWithContext,
        hb.2, Prog.run, Prog.run_andThen]
      cases exec _ _ with
      | error err => exact rfl
      | ok v =>
        obtain ⟨resp, result⟩ := v
        simp only []
        repeat' (first | rfl | split)
    case result =>
      intro exec he
      simp only [iam.ListProperties, iam.ListProperties.prog, hu, http.NewRequestWithContext,
        hb.2, Prog.run, Prog.run_andThen, he]
      simp [Res.value?, Errorf_w_failed_s, Res.errorIs, Res.message?, Res.error?, errors_Is_wrap,
        errors_Is_sentinel, GoErr.Error, GoErr.Unwrap, fmt.Arg.text, iam.ErrListProperties]
    case state =>
      intro σ transport s he
      simp only [iam.ListProperties.prog, hu, http.NewRequestWithContext, hb.2, Prog.runIn,
        Prog.runIn_andThen, he]
      simp [Errorf_w_failed_s, GoErr.Error, fmt.Arg.text, iam.ErrListProperties]
  · intro params hv
    obtain ⟨u, hu⟩ := hb.1 (fmt.Sprintf env "/identity-management/v3/user-admin/properties/%d/users"
      [.int params.PropertyID])
    apply Exists.intro
    apply Exists.intro
    refine ⟨?calls, ?result, ?state⟩
    case calls =>
      intro exec
      simp only [iam.ListUsersForProperty, iam.ListUsersForProperty.prog, hv, hu,
        http.NewRequestWithContext, hb.2, Prog.run, Prog.run_andThen]
      cases exec _ _ with
      | error err => exact rfl
      | ok v =>
        obtain ⟨resp, result⟩ := v
        simp only []
        repeat' (first | rfl | split)
    case result =>
      intro exec he
      simp only [iam.ListUsersForProperty, iam.ListUsersForProperty.prog, hv, hu,
        http.NewRequestWithContext, hb.2, Prog.run, Prog.run_andThen, he]
      simp [Res.value?, Errorf_w_failed_s, Res.errorIs, Res.message?, Res.error?, errors_Is_wrap,
        errors_Is_sentinel, GoErr.Error, GoErr.Unwrap, fmt.Arg.text, iam.ErrListUsersForProperty]
    case state =>
      intro σ transport s he
      simp only [iam.ListUsersForProperty.prog, hv, hu, http.NewRequestWithContext, hb.2,
        Prog.runIn, Prog.runIn_andThen, he]
      simp [Errorf_w_failed_s, GoErr.Error, fmt.Arg.text, iam.ErrListUsersForProperty]
  · intro params hv
    obtain ⟨u, hu⟩ := hb.1 (fmt.Sprintf env "/identity-management/v3/user-admin/properties/%d"
      [.int params.PropertyID])
    apply Exists.intro
    apply Exists.intro
    refine ⟨?calls, ?result, ?state⟩
    case calls =>
      intro exec
      simp only [iam.GetProperty, iam.GetProperty.prog, hv, hu, http.NewRequestWithContext,
        hb.2, Prog.run, Prog.run_andThen]
      cases exec _ _ with
      | error err => exact rfl
      | ok v =>
        obtain ⟨resp, result⟩ := v
        simp only []
        repeat' (first | rfl | split)
    case result =>
      intro exec he
      simp only [iam.GetProperty, iam.GetProperty.prog, hv, hu, http.NewRequestWithContext,
        hb.2, Prog.run, Prog.run_andThen, he]
      simp [Res.value?, Errorf_w_failed_s, Res.errorIs, Res.message?, Res.error?, errors_Is_wrap,
        errors_Is_sentinel, GoErr.Error, GoErr.Unwrap, fmt.Arg.text, iam.ErrGetProperty]
    case state =>
      intro σ transport s he
      simp only [iam.GetProperty.prog, hv, hu, http.NewRequestWithContext, hb.2, Prog.runIn,
        Prog.runIn_andThen, he]
      simp [Errorf_w_failed_s, GoErr.Error, fmt.Arg.text, iam.ErrGetProperty]
  · intro params hv
    apply Exists.intro
    apply Exists.intro
    refine ⟨?calls, ?result, ?state⟩
    case calls =>
      intro exec
      simp only [iam.MoveProperty, iam.MoveProperty.prog, hv, http.NewRequestWithContext, hb.2,
        Prog.run, Prog.run_andThen]
      cases exec _ _ with
      | error err => exact rfl
      | ok v =>
        obtain ⟨resp, result⟩ := v
        simp only []
        repeat' (first | rfl | split)
    case result =>
      intro exec he
      simp only [iam.MoveProperty, iam.MoveProperty.prog, hv, http.NewRequestWithContext, hb.2,
        Prog.run, Prog.run_andThen, he]
      simp [Res.value?, Errorf_w_failed_s, Res.errorIs, Res.message?, Res.error?, errors_Is_wrap,
        errors_Is_sentinel, GoErr.Error, GoErr.Unwrap, fmt.Arg.text, iam.ErrMoveProperty]
    case state =>
      intro σ transport s he
      simp only [iam.MoveProperty.prog, hv, http.NewRequestWithContext, hb.2, Prog.runIn,
        Prog.runIn_andThen, he]
      simp [Errorf_w_failed_s, GoErr.Error, fmt.Arg.text, iam.ErrMoveProperty]
  · intro params hv
    apply Exists.intro
    apply Exists.intro
    refine ⟨?calls, ?result, ?state⟩
    case calls =>
      intro exec
      simp only [iam.BlockUsers, iam.BlockUsers.prog, hv, http.NewRequestWithContext, hb.2,
        Prog.run, Prog.run_andThen]
      cases exec _ _ with
      | error err => exact rfl
      | ok v =>
        obtain ⟨resp, result⟩ := v
        simp only []
        repeat' (first | rfl | split)
    case result =>
      intro exec he
      simp only [iam.BlockUsers, iam.BlockUsers.prog, hv, http.NewRequestWithContext, hb.2,
        Prog.run, Prog.run_andThen, he]
      simp [Res.value?, Errorf_w_failed_s, Res.errorIs, Res.message?, Res.error?, errors_Is_wrap,
        errors_Is_sentinel, GoErr.Error, GoErr.Unwrap, fmt.Arg.text, iam.ErrBlockUsers]
    case state =>
      intro σ transport s he
      simp only [iam.BlockUsers.prog, hv, http.NewRequestWithContext, hb.2, Prog.runIn,
        Prog.runIn_andThen, he]
      simp [Errorf_w_failed_s, GoErr.Error, fmt.Arg.text, iam.ErrBlockUsers]
  · intro params hv
    apply Exists.intro
    apply Exists.intro
    refine ⟨?calls, ?result, ?state⟩
    case calls =>
      intro exec
      simp only [papi.ActivateInclude, papi.ActivateInclude.prog, hv,
        http.NewRequestWithContext, hb.2, Prog.run, Prog.run_andThen]
      cases exec _ _ with
      | error err => exact rfl
      | ok v =>
        obtain ⟨resp, result⟩ := v
        simp only []
        repeat' (first | rfl | split)
    case result =>
      intro exec he
      simp only [papi.ActivateInclude, papi.ActivateInclude.prog, hv,
        http.NewRequestWithContext, hb.2, Prog.run, Prog.run_andThen, he]
      simp [Res.value?, Errorf_w_failed_s, Res.errorIs, Res.message?, Res.error?, errors_Is_wrap,
        errors_Is_sentinel, GoErr.Error, GoErr.Unwrap, fmt.Arg.text, papi.ErrActivateInclude]
    case state =>
      intro σ transport s he
      simp only [papi.ActivateInclude.prog, hv, http.NewRequestWithContext, hb.2, Prog.runIn,
        Prog.runIn_andThen, he]
      simp [Errorf_w_failed_s, GoErr.Error, fmt.Arg.text, papi.ErrActivateInclude]
  · intro params hv
    apply Exists.intro
    apply Exists.intro
    refine ⟨?calls, ?result, ?state⟩
    case calls =>
      intro exec
      simp only [papi.DeactivateInclude, papi.DeactivateInclude.prog, hv,
        http.NewRequestWithContext, hb.2, Prog.run, Prog.run_andThen]
      cases exec _ _ with
      | error err => exact rfl
      | ok v =>
        obtain ⟨resp, result⟩ := v
        simp only []
        repeat' (first | rfl | split)
    case result =>
      intro exec he
      simp only [papi.DeactivateInclude, papi.DeactivateInclude.prog, hv,
        http.NewRequestWithContext, hb.2, Prog.run, Prog.run_andThen, he]
      simp [Res.value?, Errorf_w_failed_s, Res.errorIs, Res.message?, Res.error?, errors_Is_wrap,
        errors_Is_sentinel, GoErr.Error, GoErr.Unwrap, fmt.Arg.text, papi.ErrDeactivateInclude]
    case state =>
      intro σ transport s he
      simp only [papi.DeactivateInclude.prog, hv, http.NewRequestWithContext, hb.2, Prog.runIn,
        Prog.runIn_andThen, he]
      simp [Errorf_w_failed_s, GoErr.Error, fmt.Arg.text, papi.ErrDeactivateInclude]
  · intro F params hv
    apply Exists.intro
    apply Exists.intro
    refine ⟨?calls, ?result, ?state⟩
    case calls =>
      intro exec
      simp only [papi.GetIncludeActivation, papi.GetIncludeActivation.prog, hv,
        http.NewRequestWithContext, hb.2, Prog.run, Prog.run_andThen]
      cases exec _ _ with
      | error err => exact rfl
      | ok v =>
        obtain ⟨resp, result⟩ := v
        simp only []
        repeat' (first | rfl | split)
    case result =>
      intro exec he
      simp only [papi.GetIncludeActivation, papi.GetIncludeActivation.prog, hv,
        http.NewRequestWithContext, hb.2, Prog.run, Prog.run_andThen, he]
      simp [Res.value?, Errorf_w_failed_s, Res.errorIs, Res.message?, Res.error?, errors_Is_wrap,
        errors_Is_sentinel, GoErr.Error, GoErr.Unwrap, fmt.Arg.text, papi.ErrGetIncludeActivation]
    case state =>
      intro σ transport s he
      simp only [papi.GetIncludeActivation.prog, hv, http.NewRequestWithContext, hb.2,
        Prog.runIn, Prog.runIn_andThen, he]
      simp [Errorf_w_failed_s, GoErr.Error, fmt.Arg.text, papi.ErrGetIncludeActivation]
  · intro F params hv
    obtain ⟨u, hu⟩ := hb.1 (fmt.Sprintf env "/papi/v1/includes/%s/activations" [.str params.IncludeID])
    apply Exists.intro
    apply Exists.intro
    refine ⟨?calls, ?result, ?state⟩
    case calls =>
      intro exec
      simp only [papi.ListIncludeActivations, papi.ListIncludeActivations.prog, hv, hu,
        http.NewRequestWithContext, hb.2, Prog.run, Prog.run_andThen]
      cases exec _ _ with
      | error err => exact rfl
      | ok v =>
        obtain ⟨resp, result⟩ := v
        simp only []
        repeat' (first | rfl | split)
    case result =>
      intro exec he
      simp only [papi.ListIncludeActivations, papi.ListIncludeActivations.prog, hv, hu,
        http.NewRequestWithContext, hb.2, Prog.run, Prog.run_andThen, he]
      simp [Res.value?, Errorf_w_failed_s, Res.errorIs, Res.message?, Res.error?, errors_Is_wrap,
        errors_Is_sentinel, GoErr.Error, GoErr.Unwrap, fmt.Arg.text, papi.ErrListIncludeActivations]
    case state =>
      intro σ transport s he
      simp only [papi.ListIncludeActivations.prog, hv, hu, http.NewRequestWithContext, hb.2,
        Prog.runIn, Prog.runIn_andThen, he]
      simp [Errorf_w_failed_s, GoErr.Error, fmt.Arg.text, papi.ErrListIncludeActivations]
  · intro params hv
    obtain ⟨u, hu⟩ := hb.1 (fmt.Sprintf env "/identity-management/v3/user-admin/properties/%d"
      [.int params.PropertyID])
    have hv2 : iam.GetPropertyRequest.Validate
        { PropertyID := params.PropertyID, GroupID := params.GroupID } = none := hv
    apply Exists.intro
    apply Exists.intro
    refine ⟨?calls, ?result, ?state⟩
    case calls =>
      intro exec
      simp only [iam.MapPropertyIDToName, iam.MapPropertyIDToName.prog, iam.GetProperty,
        iam.GetProperty.prog, hv, hu, hv2, http.NewRequestWithContext, hb.2, Prog.run,
        Prog.run_andThen]
      cases exec _ _ with
      | error err => exact rfl
      | ok v =>
        obtain ⟨resp, result⟩ := v
        simp only []
        repeat' (first | rfl | split)
    case result =>
      intro exec he
      simp only [iam.MapPropertyIDToName, iam.MapPropertyIDToName.prog, iam.GetProperty,
        iam.GetProperty.prog, hv, hu, hv2, http.NewRequestWithContext, hb.2, Prog.run,
        Prog.run_andThen, he]
      simp [Res.value?, Errorf_w_failed_s, Res.errorIs, Res.message?, Res.error?, errors_Is_wrap,
        errors_Is_sentinel, GoErr.Error, GoErr.Unwrap, fmt.Arg.text, iam.ErrMapPropertyIDToName, iam.ErrGetProperty]
      rw [← String.append_assoc]
      rfl
    case state =>
      intro σ transport s he
      simp only [iam.MapPropertyIDToName.prog, iam.GetProperty.prog, hv, hu, hv2,
        http.NewRequestWithContext, hb.2, Prog.runIn, Prog.runIn_andThen, he]
      simp [Errorf_w_failed_s, GoErr.Error, fmt.Arg.text, iam.ErrMapPropertyIDToName, iam.ErrGetProperty]
      rw [← String.append_assoc]
      rfl
  · intro name hv
    obtain ⟨u, hu⟩ := hb.1 "/identity-management/v3/user-admin/properties"
    apply Exists.intro
    apply Exists.intro
    refine ⟨?calls, ?result, ?state⟩
    case calls =>
      intro exec
      simp only [iam.MapPropertyNameToID, iam.MapPropertyNameToID.prog, iam.ListProperties,
        iam.ListProperties.prog, hv, hu, http.NewRequestWithContext, hb.2, Prog.run,
        Prog.run_andThen, ne_eq, eq_self_iff_true, not_true_eq_false, if_false]
      cases exec _ _ with
      | error err => exact rfl
      | ok v =>
        obtain ⟨resp, result⟩ := v
        simp only []
        repeat' (first | rfl | split)
    case result =>
      intro exec he
      simp only [iam.MapPropertyNameToID, iam.MapPropertyNameToID.prog, iam.ListProperties,
        iam.ListProperties.prog, hv, hu, http.NewRequestWithContext, hb.2, Prog.run,
        Prog.run_andThen, ne_eq, eq_self_iff_true, not_true_eq_false, if_false, he]
      simp [Res.value?, Errorf_w_failed_s, Res.errorIs, Res.message?, Res.error?, errors_Is_wrap,
        errors_Is_sentinel, GoErr.Error, GoErr.Unwrap, fmt.Arg.text, iam.ErrMapPropertyNameToID, iam.ErrListProperties]
      rw [← String.append_assoc]
      rfl
    case state =>
      intro σ transport s he
      simp only [iam.MapPropertyNameToID.prog, iam.ListProperties.prog, hv, hu,
        http.NewRequestWithContext, hb.2, Prog.runIn, Prog.runIn_andThen, ne_eq,
        eq_self_iff_true, not_true_eq_false, if_false, he]
      simp [Errorf_w_failed_s, GoErr.Error, fmt.Arg.text, iam.ErrMapPropertyNameToID, iam.ErrListProperties]
      rw [← String.append_assoc]
      rfl

/-- Witness of claim C6: `DeactivateInclude` of a valid request over a
transport that times out on the first call and would answer the second with
status 201: the operation returns the wrapped timeout and the transport has
received one call. -/
theorem transport_error_wrapped_once_witness :
    refEnv.builds
    ∧ papi.DeactivateIncludeRequest.Validate papi.validActivate = none
    ∧ (papi.DeactivateInclude.prog refEnv papi.validActivate).runIn
          (failFirst (.other "timeout") ⟨201, ""⟩
            ⟨"", "/papi/v1/includes/inc_1/activations/atv_2"⟩) 0
        = (.err (.wrap "deactivate include: request failed: timeout"
            papi.ErrDeactivateInclude), 1) :=
  ⟨refEnv_builds, rfl,
    match (transport_error_wrapped_once refEnv refEnv_builds (.other "timeout")).2.2.2.2.2.2.1
      papi.validActivate rfl with
    | ⟨_, _, _, _, hs⟩ => hs Nat (failFirst _ _ _) 0 rfl⟩

/-! ## The error normalizer -/

/-- Claim C7. Normalization of a structured body: for every response whose
body decodes as the structured error object `e` and every status code, the
normalized error has the type, title and detail of `e` and the status of the
response, whatever status the body gave; and for every response at all the
status of the normalized error is the response's status code. -/
theorem normalize_structured_body (unmarshal : String → Option Error) (r : Response) (e : Error)
    (h : unmarshal r.Body = some e) :
    netstorage.Error unmarshal r
        = { Type_ := e.Type_, Title := e.Title, Detail := e.Detail, Status := r.StatusCode }
    ∧ ∀ r2 : Response, (netstorage.Error unmarshal r2).Status = r2.StatusCode := by
  constructor
  · simp [netstorage.Error, h]
  · intro r2
    unfold netstorage.Error
    cases unmarshal r2.Body <;> rfl

/-- Witness of claim C7: the first case of `TestNewError`, status 500. -/
theorem normalize_structured_body_witness :
    netstorage.decodeStructured netstorage.structuredBody
        = some { Type_ := "a", Title := "b", Detail := "c", Status := 0 }
    ∧ netstorage.Error netstorage.decodeStructured ⟨500, netstorage.structuredBody⟩
        = { Type_ := "a", Title := "b", Detail := "c", Status := 500 } :=
  ⟨by decide,
    (normalize_structured_body netstorage.decodeStructured ⟨500, netstorage.structuredBody⟩
      { Type_ := "a", Title := "b", Detail := "c", Status := 0 } (by decide)).1⟩

/-- Claim C8. Normalization fallback: for every response whose body does not
decode as the structured error object and every status code, the normalized
error has an empty type, the fixed title, the raw body as detail and the
status of the response; the normalizer is a total function, so it returns an
error value for every response. -/
theorem normalize_fallback (unmarshal : String → Option Error) (r : Response)
    (h : unmarshal r.Body = none) :
    netstorage.Error unmarshal r
      = { Type_ := "",
          Title := "Failed to unmarshal error body. NetStorage API failed. Check details for more information.",
          Detail := r.Body, Status := r.StatusCode } := by
  simp [netstorage.Error, h, netstorage.unmarshalFailedTitle]

/-- Witness of claim C8: the second case of `TestNewError`, body `test` and
status 500. -/
theorem normalize_fallback_witness :
    netstorage.decodeStructured "test" = none
    ∧ netstorage.Error netstorage.decodeStructured ⟨500, "test"⟩
      = { Type_ := "",
          Title := "Failed to unmarshal error body. NetStorage API failed. Check details for more information.",
          Detail := "test", Status := 500 } :=
  ⟨by decide, normalize_fallback netstorage.decodeStructured ⟨500, "test"⟩ (by decide)⟩

/-! ## The response-link resolver -/

/-- Claim C9 as stated fails: a link can end with `/` inside its query string;
the query is discarded and the final path segment is still the id. -/
theorem response_link_query_may_end_with_slash :
    "/papi/v1/properties/prp_123?next=/".toList.getLast? = some '/'
    ∧ papi.ResponseLinkParse "/papi/v1/properties/prp_123?next=/" = .ok "prp_123" :=
  ⟨by decide, rfl⟩

/-- Claim C9, amended. Response-link resolution: for every link,
`ResponseLinkParse` discards any trailing `?query`, whatever the query holds,
and returns the final `/`-separated segment of the path as the id when that
segment is non-empty, so `/papi/v1/properties/prp_123` yields `prp_123`; when
the path, the part of the input before the first `?`, is empty, has no `/`, or
ends with `/`, it returns the invalid response link error. Every input is of
one of these two kinds, so on every input it returns either the non-empty
final segment of the path or that error, and it never panics. -/
theorem response_link_resolution :
    (∀ pre seg query : String, seg ≠ "" → '/' ∉ seg.toList → '?' ∉ seg.toList →
        '?' ∉ pre.toList →
        papi.ResponseLinkParse (pre ++ "/" ++ seg) = .ok seg
          ∧ papi.ResponseLinkParse (pre ++ "/" ++ seg ++ "?" ++ query) = .ok seg)
    ∧ papi.ResponseLinkParse "/papi/v1/properties/prp_123" = .ok "prp_123"
    ∧ (∀ path query : String, '?' ∉ path.toList →
        path = "" ∨ '/' ∉ path.toList ∨ path.toList.getLast? = some '/' →
        papi.ResponseLinkParse path = .error papi.ErrInvalidResponseLink
          ∧ papi.ResponseLinkParse (path ++ "?" ++ query) = .error papi.ErrInvalidResponseLink)
    ∧ papi.ResponseLinkParse "" = .error papi.ErrInvalidResponseLink
    ∧ papi.ResponseLinkParse "/papi/v1/properties/" = .error papi.ErrInvalidResponseLink
    ∧ (∀ link : String, ∃ path : String,
        '?' ∉ path.toList
        ∧ (link = path ∨ ∃ query, link = path ++ "?" ++ query)
        ∧ ((∃ pre seg, path = pre ++ "/" ++ seg ∧ seg ≠ "" ∧ '/' ∉ seg.toList
              ∧ papi.ResponseLinkParse link = .ok seg)
          ∨ ((path = "" ∨ '/' ∉ path.toList ∨ path.toList.getLast? = some '/')
              ∧ papi.ResponseLinkParse link = .error papi.ErrInvalidResponseLink))) := by
  refine ⟨?_, rfl, ?_, rfl, rfl, ?_⟩
  · intro pre seg query hne hs hq hpre
    have hseg : seg.toList ≠ [] := fun h => hne (String.ext h)
    obtain ⟨c, cs, hcs⟩ := List.exists_cons_of_ne_nil hseg
    have hpath : '?' ∉ pre.toList ++ '/' :: seg.toList := by
      simp only [List.mem_append, List.mem_cons, not_or]
      exact ⟨hpre, by decide, hq⟩
    have e1 : (pre ++ "/" ++ seg).toList = pre.toList ++ '/' :: seg.toList := by
      simp
    have e2 : (pre ++ "/" ++ seg ++ "?" ++ query).toList
        = (pre.toList ++ '/' :: seg.toList) ++ '?' :: query.toList := by
      simp
    have hseg2 : String.mk (c :: cs) = seg := String.ext hcs.symm
    rw [hcs] at e1 e2 hpath hs
    constructor
    · rw [ResponseLinkParse_of_path_cons _ pre.toList c cs
        (by rw [e1, dropQuery_of_not_mem _ hpath]) hs, hseg2]
    · rw [ResponseLinkParse_of_path_cons _ pre.toList c cs
        (by rw [e2, dropQuery_append_query _ _ hpath]) hs, hseg2]
  · intro path query hq h
    have e2 : (path ++ "?" ++ query).toList = path.toList ++ '?' :: query.toList := by
      simp
    have d1 : papi.dropQuery path.toList = path.toList := dropQuery_of_not_mem _ hq
    have d2 : papi.dropQuery (path ++ "?" ++ query).toList = path.toList := by
      rw [e2, dropQuery_append_query _ _ hq]
    rcases h with h | h | h
    · subst h
      exact ⟨ResponseLinkParse_of_no_slash _ (by rw [d1]; simp),
        ResponseLinkParse_of_no_slash _ (by rw [d2]; simp)⟩
    · exact ⟨ResponseLinkParse_of_no_slash _ (by rw [d1]; exact h),
        ResponseLinkParse_of_no_slash _ (by rw [d2]; exact h)⟩
    · obtain ⟨ys, hys⟩ := List.getLast?_eq_some_iff.mp h
      have hys2 : path.toList = ys ++ '/' :: [] := hys
      exact ⟨ResponseLinkParse_of_path_nil _ ys (by rw [d1, hys2]),
        ResponseLinkParse_of_path_nil _ ys (by rw [d2, hys2])⟩
  · intro link
    refine ⟨String.mk (papi.dropQuery link.toList), dropQuery_not_mem _, ?_, ?_⟩
    · rcases dropQuery_split link.toList with h | ⟨q, h⟩
      · exact Or.inl (String.ext h)
      · exact Or.inr ⟨String.mk q, String.ext (by simpa using h)⟩
    · rcases split_at_last_slash (papi.dropQuery link.toList) with h | ⟨pre, seg, h, hseg⟩
      · exact Or.inr ⟨Or.inr (Or.inl h), ResponseLinkParse_of_no_slash _ h⟩
      · cases seg with
        | nil =>
          exact Or.inr ⟨Or.inr (Or.inr (by
            show (papi.dropQuery link.toList).getLast? = some '/'
            rw [h]; simp)), ResponseLinkParse_of_path_nil _ pre h⟩
        | cons c cs =>
          refine Or.inl ⟨String.mk pre, String.mk (c :: cs),
            String.ext (by
              show papi.dropQuery link.toList = _
              rw [h]; simp), ?_, hseg,
            ResponseLinkParse_of_path_cons _ pre c cs h hseg⟩
          intro h0
          have := congrArg String.data h0
          simp at this

/-- Claim C10. The identifier is populated from the link on success: in an
environment where requests build, given a valid request and a 201 response
whose decoded link resolves to `id`, `ActivateInclude` and `DeactivateInclude`
return the decoded response with `ActivationID` set to `id` and
`ActivationLink` unchanged, and `CreateProperty` returns it with `PropertyID`
set to `id` and `PropertyLink` and the embedded response unchanged. -/
theorem identifier_populated_from_link (env : Env) (hb : env.builds) (resp : Response)
    (hs : resp.StatusCode = 201) :
    (∀ (out : papi.ActivationIncludeResponse) (params : papi.ActivateIncludeRequest) (id : String),
      papi.ActivateIncludeRequest.Validate params = none →
      papi.ResponseLinkParse out.ActivationLink = .ok id →
      (papi.ActivateInclude env (respond resp out) params).result
        = .ok { ActivationID := id, ActivationLink := out.ActivationLink })
    ∧ (∀ (out : papi.DeactivationIncludeResponse) (params : papi.DeactivateIncludeRequest)
        (id : String),
      papi.DeactivateIncludeRequest.Validate params = none →
      papi.ResponseLinkParse out.ActivationLink = .ok id →
      (papi.DeactivateInclude env (respond resp out) params).result
        = .ok { ActivationID := id, ActivationLink := out.ActivationLink })
    ∧ (∀ (R : Type) (out : papi.CreatePropertyResponse R) (params : papi.CreatePropertyRequest)
        (id : String),
      papi.CreatePropertyRequest.Validate params = none →
      papi.ResponseLinkParse out.PropertyLink = .ok id →
      (papi.CreateProperty env (respond resp out) params).result
        = .ok { Response := out.Response, PropertyID := id, PropertyLink := out.PropertyLink }) := by
  refine ⟨?_, ?_, ?_⟩
  · intro out params id hv hl
    simp [papi.ActivateInclude, papi.ActivateInclude.prog, hv, http.NewRequestWithContext, hb.2, respond, hs, hl]
  · intro out params id hv hl
    simp [papi.DeactivateInclude, papi.DeactivateInclude.prog, hv, http.NewRequestWithContext, hb.2, respond, hs, hl]
  · intro R out params id hv hl
    simp [papi.CreateProperty, papi.CreateProperty.prog, hv, http.NewRequestWithContext, hb.2, respond, hs, hl]

/-- Witness of claim C10: `ActivateInclude` answered with status 201 and the
link of the activation `atv_2`. -/
theorem identifier_populated_from_link_witness :
    refEnv.builds
    ∧ papi.ActivateIncludeRequest.Validate papi.validActivate = none
    ∧ papi.ResponseLinkParse "/papi/v1/includes/inc_1/activations/atv_2" = .ok "atv_2"
    ∧ (papi.ActivateInclude refEnv
          (respond ⟨201, ""⟩ ⟨"", "/papi/v1/includes/inc_1/activations/atv_2"⟩)
          papi.validActivate).result
        = .ok { ActivationID := "atv_2",
                ActivationLink := "/papi/v1/includes/inc_1/activations/atv_2" } :=
  ⟨refEnv_builds, rfl, rfl,
    (identifier_populated_from_link refEnv refEnv_builds ⟨201, ""⟩ rfl).1
      ⟨"", "/papi/v1/includes/inc_1/activations/atv_2"⟩ papi.validActivate "atv_2" rfl rfl⟩

/-! ## Response-link failures -/

theorem Sprintf_w_s (env : Env) (a b : fmt.Arg) :
    fmt.Sprintf env "%w: %s" [a, b] = a.text env ++ ": " ++ b.text env := by
  apply String.ext
  simp [fmt.Sprintf, fmt.sprintChars]

theorem Errorf_w_s (env : Env) (a : GoErr) (b : fmt.Arg) :
    fmt.Errorf env "%w: %s" [.err a, b] = .wrap (a.Error env ++ ": " ++ b.text env) a := by
  rw [← show (fmt.Arg.err a).text env = a.Error env from rfl, ← Sprintf_w_s]
  rfl

/-- Claim C11. A response-link failure is fatal despite HTTP success: in an
environment where requests build, given a valid request and a 201 response
whose decoded link `ResponseLinkParse` rejects, `ActivateInclude`,
`DeactivateInclude` and `CreateProperty` return no value, not even a partly
filled one, and an error that matches `ErrInvalidResponseLink` under
`errors.Is`. -/
theorem response_link_failure_is_fatal (env : Env) (hb : env.builds) (resp : Response)
    (hs : resp.StatusCode = 201) :
    (∀ (out : papi.ActivationIncludeResponse) (params : papi.ActivateIncludeRequest) (e : GoErr),
      papi.ActivateIncludeRequest.Validate params = none →
      papi.ResponseLinkParse out.ActivationLink = .error e →
      (papi.ActivateInclude env (respond resp out) params).result.value? = none
        ∧ (papi.ActivateInclude env (respond resp out) params).result.errorIs
            papi.ErrInvalidResponseLink = true)
    ∧ (∀ (out : papi.DeactivationIncludeResponse) (params : papi.DeactivateIncludeRequest)
        (e : GoErr),
      papi.DeactivateIncludeRequest.Validate params = none →
      papi.ResponseLinkParse out.ActivationLink = .error e →
      (papi.DeactivateInclude env (respond resp out) params).result.value? = none
        ∧ (papi.DeactivateInclude env (respond resp out) params).result.errorIs
            papi.ErrInvalidResponseLink = true)
    ∧ (∀ (R : Type) (out : papi.CreatePropertyResponse R) (params : papi.CreatePropertyRequest)
        (e : GoErr),
      papi.CreatePropertyRequest.Validate params = none →
      papi.ResponseLinkParse out.PropertyLink = .error e →
      (papi.CreateProperty env (respond resp out) params).result.value? = none
        ∧ (papi.CreateProperty env (respond resp out) params).result.errorIs
            papi.ErrInvalidResponseLink = true) := by
  refine ⟨?_, ?_, ?_⟩
  · intro out params e hv hl
    simp [papi.ActivateInclude, papi.ActivateInclude.prog, hv, http.NewRequestWithContext, hb.2, respond, hs, hl,
      Errorf_s_w_s, Res.value?, Res.errorIs, errors_Is_wrap, errors_Is_sentinel,
      papi.ErrInvalidResponseLink]
  · intro out params e hv hl
    simp [papi.DeactivateInclude, papi.DeactivateInclude.prog, hv, http.NewRequestWithContext, hb.2, respond, hs, hl,
      Errorf_s_w_s, Res.value?, Res.errorIs, errors_Is_wrap, errors_Is_sentinel,
      papi.ErrInvalidResponseLink]
  · intro R out params e hv hl
    simp [papi.CreateProperty, papi.CreateProperty.prog, hv, http.NewRequestWithContext, hb.2, respond, hs, hl,
      Errorf_w_s, Res.value?, Res.errorIs, errors_Is_wrap, errors_Is_sentinel,
      papi.ErrInvalidResponseLink]

/-- Witness of claim C11: `ActivateInclude` answered with status 201 and a link
that ends with a slash. -/
theorem response_link_failure_is_fatal_witness :
    refEnv.builds
    ∧ papi.ActivateIncludeRequest.Validate papi.validActivate = none
    ∧ papi.ResponseLinkParse "/papi/v1/includes/inc_1/activations/"
        = .error papi.ErrInvalidResponseLink
    ∧ (papi.ActivateInclude refEnv
          (respond ⟨201, ""⟩ ⟨"", "/papi/v1/includes/inc_1/activations/"⟩)
          papi.validActivate).result.value? = none
    ∧ (papi.ActivateInclude refEnv
          (respond ⟨201, ""⟩ ⟨"", "/papi/v1/includes/inc_1/activations/"⟩)
          papi.validActivate).result.errorIs papi.ErrInvalidResponseLink = true :=
  ⟨refEnv_builds, rfl, rfl,
    (response_link_failure_is_fatal refEnv refEnv_builds ⟨201, ""⟩ rfl).1
      ⟨"", "/papi/v1/includes/inc_1/activations/"⟩ papi.validActivate _ rfl rfl⟩

/-! ## Query construction -/

theorem insertByKey_mem_keys (p : String × List String) (v : url.Values) (k : String)
    (hk : k ∈ (url.insertByKey p v).map Prod.fst) : k = p.1 ∨ k ∈ v.map Prod.fst := by
  induction v with
  | nil => simpa [url.insertByKey] using hk
  | cons q rest ih =>
    by_cases hq : q.1 < p.1
    · simp only [url.insertByKey, hq, if_true, List.map_cons, List.mem_cons] at hk ⊢
      rcases hk with hk | hk
      · exact Or.inr (Or.inl hk)
      · rcases ih hk with h | h
        · exact Or.inl h
        · exact Or.inr (Or.inr h)
    · simp only [url.insertByKey, hq, if_false, List.map_cons, List.mem_cons] at hk ⊢
      exact hk

theorem insertByKey_keys_sorted (p : String × List String) (v : url.Values)
    (h : (v.map Prod.fst).Pairwise (· ≤ ·)) :
    ((url.insertByKey p v).map Prod.fst).Pairwise (· ≤ ·) := by
  induction v with
  | nil => simp [url.insertByKey]
  | cons q rest ih =>
    simp only [List.map_cons, List.pairwise_cons] at h
    by_cases hq : q.1 < p.1
    · simp only [url.insertByKey, hq, if_true, List.map_cons, List.pairwise_cons]
      refine ⟨?_, ih h.2⟩
      intro k hk
      rcases insertByKey_mem_keys p rest k hk with hk | hk
      · exact hk ▸ le_of_lt hq
      · exact h.1 k hk
    · simp only [url.insertByKey, hq, if_false, List.map_cons, List.pairwise_cons]
      refine ⟨?_, h⟩
      intro k hk
      rcases List.mem_cons.mp hk with hk | hk
      · exact hk ▸ not_lt.mp hq
      · exact le_trans (not_lt.mp hq) (h.1 k hk)

theorem sortByKey_keys_sorted (v : url.Values) :
    ((url.sortByKey v).map Prod.fst).Pairwise (· ≤ ·) := by
  induction v with
  | nil => simp [url.sortByKey]
  | cons p rest ih => exact insertByKey_keys_sorted p _ ih

theorem encode_two (k1 v1 k2 v2 : String) (h : k1 < k2) :
    url.Values.Encode [(k2, [v2]), (k1, [v1])]
      = url.QueryEscape k1 ++ "=" ++ url.QueryEscape v1 ++ "&"
        ++ (url.QueryEscape k2 ++ "=" ++ url.QueryEscape v2) := by
  simp [url.Values.Encode, url.sortByKey, url.insertByKey, h, url.encodePairs, String.intercalate,
    String.intercalate.go]

theorem encode_two_sorted (k1 v1 k2 v2 : String) (h : k1 < k2) :
    url.Values.Encode [(k1, [v1]), (k2, [v2])]
      = url.QueryEscape k1 ++ "=" ++ url.QueryEscape v1 ++ "&"
        ++ (url.QueryEscape k2 ++ "=" ++ url.QueryEscape v2) := by
  have h2 : ¬ k2 < k1 := not_lt.mpr (le_of_lt h)
  simp [url.Values.Encode, url.sortByKey, url.insertByKey, h2, url.encodePairs, String.intercalate,
    String.intercalate.go]

theorem queryEscape_contractId : url.QueryEscape "contractId" = "contractId" := by
  decide

theorem queryEscape_groupId : url.QueryEscape "groupId" = "groupId" := by
  decide

theorem Sprintf_properties_path (env : Env) (id : String) :
    fmt.Sprintf env "/papi/v1/properties/%s" [.str id] = "/papi/v1/properties/" ++ id := by
  apply String.ext
  simp [fmt.Sprintf, fmt.sprintChars, fmt.Arg.text]

theorem Sprintf_activations_path (env : Env) (id : String) :
    fmt.Sprintf env "/papi/v1/includes/%s/activations" [.str id]
      = "/papi/v1/includes/" ++ id ++ "/activations" := by
  apply String.ext
  simp [fmt.Sprintf, fmt.sprintChars, fmt.Arg.text]

theorem encode_contract_group (c g : String) :
    url.Values.Encode (url.Values.Add (url.Values.Add [] "groupId" g) "contractId" c)
        = "contractId=" ++ url.QueryEscape c ++ "&groupId=" ++ url.QueryEscape g
    ∧ url.Values.Encode (url.Values.Add (url.Values.Add [] "contractId" c) "groupId" g)
        = "contractId=" ++ url.QueryEscape c ++ "&groupId=" ++ url.QueryEscape g := by
  have hlt : ("contractId" : String) < "groupId" := String.lt_iff_toList_lt.mpr (by decide)
  have hne : ("groupId" : String) ≠ "contractId" := by decide
  have hne2 : ("contractId" : String) ≠ "groupId" := by decide
  constructor
  · have e : url.Values.Add (url.Values.Add [] "groupId" g) "contractId" c
        = [("groupId", [g]), ("contractId", [c])] := by
      simp [url.Values.Add, hne]
    rw [e, encode_two _ _ _ _ hlt, queryEscape_contractId, queryEscape_groupId]
    apply String.ext
    simp
  · have e : url.Values.Add (url.Values.Add [] "contractId" c) "groupId" g
        = [("contractId", [c]), ("groupId", [g])] := by
      simp [url.Values.Add, hne2]
    rw [e, encode_two_sorted _ _ _ _ hlt, queryEscape_contractId, queryEscape_groupId]
    apply String.ext
    simp

theorem contract_group_query_ne_empty (c g : String) :
    "contractId=" ++ url.QueryEscape c ++ "&groupId=" ++ url.QueryEscape g ≠ "" := by
  intro h
  have := congrArg String.data h
  simp at this

theorem papi_property_validate_none (id : String) (h : id ≠ "") :
    validation.Errors.Filter [("PropertyID", validation.Validate id [validation.Required])]
      = none := by
  simp [validation.Errors.Filter, validation.Errors.violations, validation.Validate,
    validation.applyRules, validation.Required, GoValue.isEmpty, GoValue.own, h]

theorem papi_include_list_validate_none (params : papi.ListIncludeActivationsRequest)
    (h1 : params.IncludeID ≠ "") (h2 : params.ContractID ≠ "") (h3 : params.GroupID ≠ "") :
    params.Validate = none := by
  simp [papi.ListIncludeActivationsRequest.Validate, edgegriderr.ParseValidationErrors,
    validation.Errors.violations, validation.Validate, validation.applyRules,
    validation.Required, GoValue.isEmpty, GoValue.own, h1, h2, h3]

theorem encode_order_independent (k1 v1 k2 v2 : String) (h : k1 ≠ k2) :
    url.Values.Encode (url.Values.Add (url.Values.Add [] k1 v1) k2 v2)
      = url.Values.Encode (url.Values.Add (url.Values.Add [] k2 v2) k1 v1) := by
  have e1 : url.Values.Add (url.Values.Add [] k1 v1) k2 v2 = [(k1, [v1]), (k2, [v2])] := by
    simp [url.Values.Add, h]
  have e2 : url.Values.Add (url.Values.Add [] k2 v2) k1 v1 = [(k2, [v2]), (k1, [v1])] := by
    simp [url.Values.Add, Ne.symm h]
  rw [e1, e2]
  rcases lt_or_gt_of_ne h with hlt | hgt
  · rw [encode_two_sorted _ _ _ _ hlt, encode_two _ _ _ _ hlt]
  · rw [encode_two _ _ _ _ hgt, encode_two_sorted _ _ _ _ hgt]

theorem papi_GetProperty_urls (env : Env) (hreq : ∀ m u, env.newRequestErr m u = none) (R : Type)
    (exec : Exec Unit (papi.GetPropertyResponse R)) (params : papi.GetPropertyRequest)
    (h1 : params.PropertyID ≠ "") (h2 : params.GroupID ≠ "") (h3 : params.ContractID ≠ "")
    (hp : env.parsesAsPath ("/papi/v1/properties/" ++ params.PropertyID)) :
    (papi.GetProperty env exec params).calls
      = [({ Method := "GET",
            URL := "/papi/v1/properties/" ++ params.PropertyID ++ "?"
              ++ ("contractId=" ++ url.QueryEscape params.ContractID
                ++ "&groupId=" ++ url.QueryEscape params.GroupID) }, ())] := by
  obtain ⟨u, hu, hq, hs⟩ := hp
  have hv : params.Validate = none := papi_property_validate_none _ h1
  simp only [papi.GetProperty, papi.GetProperty.prog, hv, Sprintf_properties_path, hu, hq, h2, h3, ne_eq, not_false_eq_true,
    if_true, (encode_contract_group _ _).1, hs _ (contract_group_query_ne_empty _ _),
    http.NewRequestWithContext, hreq]
  simp only [Prog.run]
  cases exec _ () with
  | error e => simp
  | ok v =>
    obtain ⟨resp, rval⟩ := v
    simp only
    split
    · simp
    · split <;> simp

theorem papi_RemoveProperty_urls (env : Env) (hreq : ∀ m u, env.newRequestErr m u = none)
    (exec : Exec Unit papi.RemovePropertyResponse) (params : papi.RemovePropertyRequest)
    (h1 : params.PropertyID ≠ "") (h2 : params.GroupID ≠ "") (h3 : params.ContractID ≠ "")
    (hp : env.parsesAsPath ("/papi/v1/properties/" ++ params.PropertyID)) :
    (papi.RemoveProperty env exec params).calls
      = [({ Method := "DELETE",
            URL := "/papi/v1/properties/" ++ params.PropertyID ++ "?"
              ++ ("contractId=" ++ url.QueryEscape params.ContractID
                ++ "&groupId=" ++ url.QueryEscape params.GroupID) }, ())] := by
  obtain ⟨u, hu, hq, hs⟩ := hp
  have hv : params.Validate = none := papi_property_validate_none _ h1
  simp only [papi.RemoveProperty, papi.RemoveProperty.prog, hv, Sprintf_properties_path, hu, hq, h2, h3, ne_eq,
    not_false_eq_true, if_true, (encode_contract_group _ _).1,
    hs _ (contract_group_query_ne_empty _ _), http.NewRequestWithContext, hreq]
  simp only [Prog.run]
  cases exec _ () with
  | error e => simp
  | ok v =>
    obtain ⟨resp, rval⟩ := v
    simp only
    split <;> simp

theorem papi_ListIncludeActivations_urls (env : Env) (hreq : ∀ m u, env.newRequestErr m u = none)
    (F : Type) (exec : Exec Unit (papi.IncludeActivationsResponse F))
    (params : papi.ListIncludeActivationsRequest)
    (h1 : params.IncludeID ≠ "") (h2 : params.GroupID ≠ "") (h3 : params.ContractID ≠ "")
    (hp : env.parsesAsPath ("/papi/v1/includes/" ++ params.IncludeID ++ "/activations")) :
    (papi.ListIncludeActivations env exec params).calls
      = [({ Method := "GET",
            URL := "/papi/v1/includes/" ++ params.IncludeID ++ "/activations" ++ "?"
              ++ ("contractId=" ++ url.QueryEscape params.ContractID
                ++ "&groupId=" ++ url.QueryEscape params.GroupID) }, ())] := by
  obtain ⟨u, hu, hq, hs⟩ := hp
  have hv : params.Validate = none := papi_include_list_validate_none _ h1 h3 h2
  simp only [papi.ListIncludeActivations, papi.ListIncludeActivations.prog, hv, Sprintf_activations_path, hu, hq,
    (encode_contract_group _ _).2, hs _ (contract_group_query_ne_empty _ _),
    http.NewRequestWithContext, hreq]
  simp only [Prog.run]
  cases exec _ () with
  | error e => simp
  | ok v =>
    obtain ⟨resp, rval⟩ := v
    simp only
    split <;> simp

theorem refEnv_parsesAsPath (path : String) : refEnv.parsesAsPath path :=
  ⟨(path, ""), rfl, rfl, fun q hq => by simp [refEnv, hq]⟩

theorem char_le_toNat (c : Char) (b : UInt32) (h : c.val ≤ b) : c.toNat ≤ b.toNat := h

theorem unreserved_lt (c : Char) (h : url.unreserved c = true) : c.toNat < 128 := by
  simp only [url.unreserved, Char.isAlphanum, Char.isAlpha, Char.isUpper, Char.isLower,
    Char.isDigit, Bool.or_eq_true, Bool.and_eq_true, decide_eq_true_eq] at h
  rcases h with (((((h | h) | h) | h) | h) | h) | h
  · have := char_le_toNat c 90 h.2
    have h90 : (90 : UInt32).toNat = 90 := by decide
    omega
  · have := char_le_toNat c 122 h.2
    have h122 : (122 : UInt32).toNat = 122 := by decide
    omega
  · have := char_le_toNat c 57 h.2
    have h57 : (57 : UInt32).toNat = 57 := by decide
    omega
  all_goals (subst h; decide)

theorem escape_ascii : ∀ n : Fin 128, url.unreserved (Char.ofNat n.val) = true →
    (String.utf8EncodeChar (Char.ofNat n.val)).flatMap url.escapeByte = [Char.ofNat n.val] := by
  decide

theorem escape_unreserved (c : Char) (h : url.unreserved c = true) :
    (String.utf8EncodeChar c).flatMap url.escapeByte = [c] := by
  have hlt := unreserved_lt c h
  have hc : Char.ofNat c.toNat = c := Char.ofNat_toNat c
  have := escape_ascii ⟨c.toNat, hlt⟩
  simp only [hc] at this
  exact this h

theorem queryEscape_unreserved (s : String) (h : ∀ c ∈ s.toList, url.unreserved c = true) :
    url.QueryEscape s = s := by
  apply String.ext
  simp only [url.QueryEscape, String.toList]
  have : ∀ l : List Char, (∀ c ∈ l, url.unreserved c = true) →
      (l.flatMap String.utf8EncodeChar).flatMap url.escapeByte = l := by
    intro l
    induction l with
    | nil => intro _; rfl
    | cons c cs ih =>
      intro hl
      rw [List.flatMap_cons, List.flatMap_append, escape_unreserved c (hl c (by simp)),
        ih (fun x hx => hl x (by simp [hx]))]
      rfl
  exact this s.data h

/-- Claim C12 as stated fails: for `GetProperty` with the contract id `ctr 1`
the URL carries the escaped value `ctr+1`, not the value itself. -/
theorem query_value_not_verbatim :
    (papi.GetProperty refEnv (respond ⟨200, ""⟩ (⟨(), ⟨[]⟩, none⟩ : papi.GetPropertyResponse Unit))
        { ContractID := "ctr 1", GroupID := "grp_1", PropertyID := "prp_1" }).urls
      = ["/papi/v1/properties/prp_1?contractId=ctr+1&groupId=grp_1"]
    ∧ "/papi/v1/properties/prp_1?contractId=ctr+1&groupId=grp_1"
      ≠ "/papi/v1/properties/prp_1?contractId=ctr 1&groupId=grp_1" := by
  constructor
  · rw [Outcome.urls, papi_GetProperty_urls refEnv (fun _ _ => rfl) Unit _ _ (by decide) (by decide)
      (by decide) (refEnv_parsesAsPath _)]
    decide
  · decide

/-- Claim C12, amended. Query construction is deterministic with a fixed key
order: `Encode` emits the keys in ascending order, so two keys added in either
order give the same query; where requests build and `url.Parse` reads the
interpolated path as a bare path, whatever the transport does, papi
`GetProperty` and `RemoveProperty` with non-empty `PropertyID`, `GroupID` `g`
and `ContractID` `c` build the URL
`/papi/v1/properties/<PropertyID>?contractId=<QueryEscape(c)>&groupId=<QueryEscape(g)>`
and `ListIncludeActivations` builds
`/papi/v1/includes/<IncludeID>/activations?contractId=<QueryEscape(c)>&groupId=<QueryEscape(g)>`;
the values are query-escaped, and a value of letters, digits, `-`, `_`, `.`
and `~` is its own escape. -/
theorem query_construction_sorted_and_escaped (env : Env)
    (hreq : ∀ m u, env.newRequestErr m u = none) :
    (∀ v : url.Values, ((url.sortByKey v).map Prod.fst).Pairwise (· ≤ ·))
    ∧ (∀ k1 v1 k2 v2 : String, k1 ≠ k2 →
        url.Values.Encode (url.Values.Add (url.Values.Add [] k1 v1) k2 v2)
          = url.Values.Encode (url.Values.Add (url.Values.Add [] k2 v2) k1 v1))
    ∧ (∀ (R : Type) (exec : Exec Unit (papi.GetPropertyResponse R))
        (params : papi.GetPropertyRequest),
        params.PropertyID ≠ "" → params.GroupID ≠ "" → params.ContractID ≠ "" →
        env.parsesAsPath ("/papi/v1/properties/" ++ params.PropertyID) →
        (papi.GetProperty env exec params).urls
          = ["/papi/v1/properties/" ++ params.PropertyID ++ "?"
              ++ ("contractId=" ++ url.QueryEscape params.ContractID
                ++ "&groupId=" ++ url.QueryEscape params.GroupID)])
    ∧ (∀ (exec : Exec Unit papi.RemovePropertyResponse) (params : papi.RemovePropertyRequest),
        params.PropertyID ≠ "" → params.GroupID ≠ "" → params.ContractID ≠ "" →
        env.parsesAsPath ("/papi/v1/properties/" ++ params.PropertyID) →
        (papi.RemoveProperty env exec params).urls
          = ["/papi/v1/properties/" ++ params.PropertyID ++ "?"
              ++ ("contractId=" ++ url.QueryEscape params.ContractID
                ++ "&groupId=" ++ url.QueryEscape params.GroupID)])
    ∧ (∀ (F : Type) (exec : Exec Unit (papi.IncludeActivationsResponse F))
        (params : papi.ListIncludeActivationsRequest),
        params.IncludeID ≠ "" → params.GroupID ≠ "" → params.ContractID ≠ "" →
        env.parsesAsPath ("/papi/v1/includes/" ++ params.IncludeID ++ "/activations") →
        (papi.ListIncludeActivations env exec params).urls
          = ["/papi/v1/includes/" ++ params.IncludeID ++ "/activations" ++ "?"
              ++ ("contractId=" ++ url.QueryEscape params.ContractID
                ++ "&groupId=" ++ url.QueryEscape params.GroupID)])
    ∧ (∀ s : String, (∀ c ∈ s.toList, url.unreserved c = true) → url.QueryEscape s = s) := by
  refine ⟨sortByKey_keys_sorted, encode_order_independent, ?_, ?_, ?_, queryEscape_unreserved⟩
  · intro R exec params h1 h2 h3 hp
    rw [Outcome.urls, papi_GetProperty_urls env hreq R exec params h1 h2 h3 hp]
    rfl
  · intro exec params h1 h2 h3 hp
    rw [Outcome.urls, papi_RemoveProperty_urls env hreq exec params h1 h2 h3 hp]
    rfl
  · intro F exec params h1 h2 h3 hp
    rw [Outcome.urls, papi_ListIncludeActivations_urls env hreq F exec params h1 h2 h3 hp]
    rfl

/-- Witness of the amended claim C12: `RemoveProperty` of `prp_1` with the
contract `ctr_1` and the group `grp_1`. -/
theorem query_construction_sorted_and_escaped_witness :
    (∀ m u, refEnv.newRequestErr m u = none)
    ∧ refEnv.parsesAsPath ("/papi/v1/properties/" ++ "prp_1")
    ∧ (papi.RemoveProperty refEnv (failWith (.other "timeout"))
          { PropertyID := "prp_1", ContractID := "ctr_1", GroupID := "grp_1" }).urls
        = ["/papi/v1/properties/" ++ "prp_1" ++ "?"
            ++ ("contractId=" ++ url.QueryEscape "ctr_1" ++ "&groupId=" ++ url.QueryEscape "grp_1")]
    ∧ "/papi/v1/properties/" ++ "prp_1" ++ "?"
            ++ ("contractId=" ++ url.QueryEscape "ctr_1" ++ "&groupId=" ++ url.QueryEscape "grp_1")
        = "/papi/v1/properties/prp_1?contractId=ctr_1&groupId=grp_1" :=
  ⟨fun _ _ => rfl, refEnv_parsesAsPath _,
    (query_construction_sorted_and_escaped refEnv (fun _ _ => rfl)).2.2.2.1
      (failWith (.other "timeout"))
      { PropertyID := "prp_1", ContractID := "ctr_1", GroupID := "grp_1" }
      (by decide) (by decide) (by decide) (refEnv_parsesAsPath _),
    by decide⟩

/-! ## The shape of validation messages -/

/-- Claim C13 as stated fails: for `ListUsersForProperty` with `PropertyID` 0
the message has a line break, not a space, before the validation text. -/
theorem validation_message_has_line_break :
    (iam.ListUsersForProperty refEnv (failWith (.other "unreachable")) ⟨0, ""⟩).result.message? refEnv
      = some "list users for property: struct validation:\nPropertyID"
    ∧ (iam.ListUsersForProperty refEnv (failWith (.other "unreachable")) ⟨0, ""⟩).result.message? refEnv
      ≠ some ("list users for property" ++ ": " ++ "struct validation" ++ ": " ++ "PropertyID") := by
  decide

/-- Claim C13, amended. For every iam properties and papi include-activation
operation and every request failing validation, the message of the returned
error is the operation sentinel's text, `: `, the text of `ErrStructValidation`,
a separator and the validation error's text; the separator is `: ` for
`MoveProperty`, `BlockUsers` and the four papi include-activation operations,
and a colon followed by a line break for `ListUsersForProperty`, `GetProperty`
and `MapPropertyIDToName`; `MapPropertyNameToID` with a blank name ends with a
colon, a line break and ` name cannot be blank`. -/
theorem validation_message_shape (env : Env) :
    (∀ (exec : Exec Unit iam.ListUsersForPropertyResponse) params err,
      iam.ListUsersForPropertyRequest.Validate env params = some err →
      (iam.ListUsersForProperty env exec params).result.message? env
        = some (iam.ErrListUsersForProperty.Error env ++ ": " ++ iam.ErrStructValidation.Error env ++ ":\n"
            ++ env.validationText err))
    ∧ (∀ (exec : Exec Unit iam.GetPropertyResponse) params err,
      iam.GetPropertyRequest.Validate params = some err →
      (iam.GetProperty env exec params).result.message? env
        = some (iam.ErrGetProperty.Error env ++ ": " ++ iam.ErrStructValidation.Error env ++ ":\n"
            ++ env.validationText err))
    ∧ (∀ (exec : Exec Unit iam.GetPropertyResponse) params err,
      iam.MapPropertyIDToNameRequest.Validate params = some err →
      (iam.MapPropertyIDToName env exec params).result.message? env
        = some (iam.ErrMapPropertyIDToName.Error env ++ ": " ++ iam.ErrStructValidation.Error env ++ ":\n"
            ++ env.validationText err))
    ∧ (∀ (exec : Exec iam.MovePropertyReqBody Unit) params err,
      iam.MovePropertyRequest.Validate params = some err →
      (iam.MoveProperty env exec params).result.message? env
        = some (iam.ErrMoveProperty.Error env ++ ": " ++ iam.ErrStructValidation.Error env ++ ": "
            ++ env.validationText err))
    ∧ (∀ (exec : Exec iam.BlockUsersReqBody iam.BlockUsersResponse) params err,
      iam.BlockUsersRequest.Validate params = some err →
      (iam.BlockUsers env exec params).result.message? env
        = some (iam.ErrBlockUsers.Error env ++ ": " ++ iam.ErrStructValidation.Error env ++ ": "
            ++ env.validationText err))
    ∧ (∀ (exec : Exec papi.IncludeRequestBody papi.ActivationIncludeResponse) params err,
      papi.ActivateIncludeRequest.Validate params = some err →
      (papi.ActivateInclude env exec params).result.message? env
        = some (papi.ErrActivateInclude.Error env ++ ": " ++ papi.ErrStructValidation.Error env ++ ": "
            ++ env.validationText err))
    ∧ (∀ (exec : Exec papi.IncludeRequestBody papi.DeactivationIncludeResponse) params err,
      papi.DeactivateIncludeRequest.Validate params = some err →
      (papi.DeactivateInclude env exec params).result.message? env
        = some (papi.ErrDeactivateInclude.Error env ++ ": " ++ papi.ErrStructValidation.Error env ++ ": "
            ++ env.validationText err))
    ∧ (∀ (F : Type) (exec : Exec Unit (papi.IncludeActivationResponse F)) params err,
      papi.GetIncludeActivationRequest.Validate params = some err →
      (papi.GetIncludeActivation env exec params).result.message? env
        = some (papi.ErrGetIncludeActivation.Error env ++ ": " ++ papi.ErrStructValidation.Error env ++ ": "
            ++ env.validationText err))
    ∧ (∀ (F : Type) (exec : Exec Unit (papi.IncludeActivationsResponse F)) params err,
      papi.ListIncludeActivationsRequest.Validate params = some err →
      (papi.ListIncludeActivations env exec params).result.message? env
        = some (papi.ErrListIncludeActivations.Error env ++ ": " ++ papi.ErrStructValidation.Error env ++ ": "
            ++ env.validationText err))
    ∧ (∀ (exec : Exec Unit iam.ListPropertiesResponse),
      (iam.MapPropertyNameToID env exec "").result.message? env
        = some (iam.ErrMapPropertyNameToID.Error env ++ ": " ++ iam.ErrStructValidation.Error env
            ++ ":\n name cannot be blank")) := by
  refine ⟨?_, ?_, ?_, ?_, ?_, ?_, ?_, ?_, ?_, ?_⟩
  · intro exec params err h
    simp [iam.ListUsersForProperty, iam.ListUsersForProperty.prog, h, Errorf_s_w_s, Errorf_s_w_nl_s, Res.message?, Res.error?, GoErr.Error,
      fmt.Arg.text]
  · intro exec params err h
    simp [iam.GetProperty, iam.GetProperty.prog, h, Errorf_s_w_s, Errorf_s_w_nl_s, Res.message?, Res.error?, GoErr.Error,
      fmt.Arg.text]
  · intro exec params err h
    simp [iam.MapPropertyIDToName, iam.MapPropertyIDToName.prog, h, Errorf_s_w_s, Errorf_s_w_nl_s, Res.message?, Res.error?, GoErr.Error,
      fmt.Arg.text]
  · intro exec params err h
    simp [iam.MoveProperty, iam.MoveProperty.prog, h, Errorf_s_w_s, Errorf_s_w_nl_s, Res.message?, Res.error?, GoErr.Error,
      fmt.Arg.text]
  · intro exec params err h
    simp [iam.BlockUsers, iam.BlockUsers.prog, h, Errorf_s_w_s, Errorf_s_w_nl_s, Res.message?, Res.error?, GoErr.Error,
      fmt.Arg.text]
  · intro exec params err h
    simp [papi.ActivateInclude, papi.ActivateInclude.prog, h, Errorf_s_w_s, Errorf_s_w_nl_s, Res.message?, Res.error?, GoErr.Error,
      fmt.Arg.text]
  · intro exec params err h
    simp [papi.DeactivateInclude, papi.DeactivateInclude.prog, h, Errorf_s_w_s, Errorf_s_w_nl_s, Res.message?, Res.error?, GoErr.Error,
      fmt.Arg.text]
  · intro F exec params err h
    simp [papi.GetIncludeActivation, papi.GetIncludeActivation.prog, h, Errorf_s_w_s, Errorf_s_w_nl_s, Res.message?, Res.error?, GoErr.Error,
      fmt.Arg.text]
  · intro F exec params err h
    simp [papi.ListIncludeActivations, papi.ListIncludeActivations.prog, h, Errorf_s_w_s, Errorf_s_w_nl_s, Res.message?, Res.error?, GoErr.Error,
      fmt.Arg.text]
  · intro exec
    simp [iam.MapPropertyNameToID, iam.MapPropertyNameToID.prog, Errorf_s_w_blank, Res.message?, Res.error?, GoErr.Error,
      fmt.Arg.text]

/-! ## The two mapping operations of iam -/

theorem find_first_named (name : String) (pre : List iam.Property) (p : iam.Property)
    (post : List iam.Property) (hp : p.PropertyName = name)
    (hpre : ∀ q ∈ pre, q.PropertyName ≠ name) :
    (pre ++ p :: post).find? (fun property => decide (property.PropertyName = name)) = some p := by
  induction pre with
  | nil => simp [hp]
  | cons q qs ih =>
    have hq : q.PropertyName ≠ name := hpre q (by simp)
    simp only [List.cons_append, List.find?_cons, hq, decide_False]
    exact ih (fun x hx => hpre x (by simp [hx]))

theorem iam_ListProperties_ok (env : Env) (hb : env.builds) (resp : Response)
    (hs : resp.StatusCode = 200) (properties : iam.ListPropertiesResponse)
    (params : iam.ListPropertiesRequest) :
    ∃ calls, iam.ListProperties env (respond resp properties) params = ⟨.ok properties, calls⟩ := by
  obtain ⟨u, hu⟩ := hb.1 "/identity-management/v3/user-admin/properties"
  simp [iam.ListProperties, iam.ListProperties.prog, hu, http.NewRequestWithContext, hb.2, respond, hs]

/-- Claim C14. `MapPropertyNameToID` finds by name or reports `ErrNoProperty`:
in an environment where requests build, for every non-empty name and every
successful `ListProperties` result (status 200, decoded list `properties`), it
returns the `PropertyID` of the first element whose `PropertyName` equals the
name, and it returns an error matching `ErrNoProperty` under `errors.Is`
exactly when no element has that name. -/
theorem map_name_to_id_first_match (env : Env) (hb : env.builds) (resp : Response)
    (hs : resp.StatusCode = 200) (name : iam.MapPropertyNameToIDRequest) (hn : name ≠ "")
    (properties : iam.ListPropertiesResponse) :
    (∀ pre p post, properties = pre ++ p :: post → p.PropertyName = name →
        (∀ q ∈ pre, q.PropertyName ≠ name) →
        (iam.MapPropertyNameToID env (respond resp properties) name).result = .ok p.PropertyID)
    ∧ ((iam.MapPropertyNameToID env (respond resp properties) name).result.errorIs
          iam.ErrNoProperty = true
        ↔ ∀ q ∈ properties, q.PropertyName ≠ name) := by
  obtain ⟨calls, hl⟩ :=
    iam_ListProperties_ok env hb resp hs properties { GroupID := 0, Actions := false }
  constructor
  · intro pre p post hsplit hp hpre
    have hf := find_first_named name pre p post hp hpre
    rw [← hsplit] at hf
    simp [iam.MapPropertyNameToID, iam.MapPropertyNameToID.prog, hn, Prog.run_andThen,
      iam_ListProperties_run, hl, hf]
  · simp only [iam.MapPropertyNameToID, iam.MapPropertyNameToID.prog, hn, if_false,
      Prog.run_andThen, iam_ListProperties_run, hl]
    cases hf : properties.find? (fun property => decide (property.PropertyName = name)) with
    | none =>
      simp only [Prog.run, Res.errorIs, Errorf_w_s, errors_Is_wrap, errors_Is_sentinel,
        iam.ErrNoProperty]
      simpa using hf
    | some p =>
      have hmem := List.mem_of_find?_eq_some hf
      have hname : p.PropertyName = name := by simpa using List.find?_some hf
      simp only [Prog.run, Res.errorIs]
      constructor
      · intro h
        cases h
      · intro h
        exact absurd hname (h p hmem)

/-- Witness of claim C14: the second of three properties has the name. -/
theorem map_name_to_id_first_match_witness :
    refEnv.builds
    ∧ (iam.MapPropertyNameToID refEnv
        (respond ⟨200, ""⟩
          [⟨1, "a", "", 0, "", ⟨false⟩⟩, ⟨2, "www", "", 0, "", ⟨false⟩⟩, ⟨3, "www", "", 0, "", ⟨true⟩⟩])
        "www").result = .ok 2 :=
  ⟨refEnv_builds,
    (map_name_to_id_first_match refEnv refEnv_builds ⟨200, ""⟩ rfl "www" (by decide)
      [⟨1, "a", "", 0, "", ⟨false⟩⟩, ⟨2, "www", "", 0, "", ⟨false⟩⟩, ⟨3, "www", "", 0, "", ⟨true⟩⟩]).1
      [⟨1, "a", "", 0, "", ⟨false⟩⟩] ⟨2, "www", "", 0, "", ⟨false⟩⟩ [⟨3, "www", "", 0, "", ⟨true⟩⟩]
      rfl rfl (by decide)⟩

/-- Claim C15. `MapPropertyIDToName` returns the property name for the given
id: for every request with non-zero `PropertyID` and `GroupID` and every
transport, it returns exactly the `PropertyName` of the response `GetProperty`
yields for `GetPropertyRequest{PropertyID, GroupID}`, making the same `Exec`
calls; when that `GetProperty` call fails it returns no name and an error
matching `ErrMapPropertyIDToName` under `errors.Is`; and its `Validate`
accepts a request exactly when `GetPropertyRequest.Validate` accepts the
derived request. -/
theorem map_id_to_name_through_get_property (env : Env) (exec : Exec Unit iam.GetPropertyResponse)
    (params : iam.MapPropertyIDToNameRequest) (h1 : params.PropertyID ≠ 0)
    (h2 : params.GroupID ≠ 0) :
    (∀ property,
        (iam.GetProperty env exec
            { PropertyID := params.PropertyID, GroupID := params.GroupID }).result = .ok property →
        (iam.MapPropertyIDToName env exec params).result = .ok property.PropertyName)
    ∧ (∀ e,
        (iam.GetProperty env exec
            { PropertyID := params.PropertyID, GroupID := params.GroupID }).result = .err e →
        (iam.MapPropertyIDToName env exec params).result.value? = none
          ∧ (iam.MapPropertyIDToName env exec params).result.errorIs
              iam.ErrMapPropertyIDToName = true)
    ∧ (iam.MapPropertyIDToName env exec params).calls
        = (iam.GetProperty env exec
            { PropertyID := params.PropertyID, GroupID := params.GroupID }).calls
    ∧ (∀ p : iam.MapPropertyIDToNameRequest,
        p.Validate = none
          ↔ iam.GetPropertyRequest.Validate { PropertyID := p.PropertyID, GroupID := p.GroupID }
              = none) := by
  have hv : params.Validate = none := by
    simp [iam.MapPropertyIDToNameRequest.Validate, edgegriderr.ParseValidationErrors,
      validation.Errors.violations, validation.Validate, validation.applyRules,
      validation.Required, GoValue.isEmpty, GoValue.own, h1, h2]
  refine ⟨?_, ?_, ?_, fun p => Iff.rfl⟩
  · intro property hg
    simp [iam.MapPropertyIDToName, iam.MapPropertyIDToName.prog, hv, Prog.run_andThen,
      iam_GetProperty_run, hg]
  · intro e hg
    simp [iam.MapPropertyIDToName, iam.MapPropertyIDToName.prog, hv, Prog.run_andThen,
      iam_GetProperty_run, hg, Res.value?, Res.errorIs, Errorf_w_failed_s, errors_Is_wrap, errors_Is_sentinel, iam.ErrMapPropertyIDToName]
  · simp only [iam.MapPropertyIDToName, iam.MapPropertyIDToName.prog, hv, Prog.run_andThen,
      iam_GetProperty_run]
    cases (iam.GetProperty env exec
      { PropertyID := params.PropertyID, GroupID := params.GroupID }).result <;> simp

/-- Witness of claim C15: property 7 of group 3, answered with its details. -/
theorem map_id_to_name_through_get_property_witness :
    (iam.MapPropertyIDToName refEnv (respond ⟨200, ""⟩ ⟨"", "", "", 3, "", "", "", 7, "www"⟩)
        { PropertyID := 7, GroupID := 3 }).result = .ok "www" :=
  (map_id_to_name_through_get_property refEnv
      (respond ⟨200, ""⟩ ⟨"", "", "", 3, "", "", "", 7, "www"⟩) { PropertyID := 7, GroupID := 3 }
      (by decide) (by decide)).1 ⟨"", "", "", 3, "", "", "", 7, "www"⟩ rfl

/-! ## Client construction -/

/-- Claim C16. Client construction applies options over the given session: for
every session, `Client` with no options returns a client whose `Session` is
that session; with options it returns the client obtained by applying them in
order to the client initialised with the session, so a further option is
applied to the client the earlier ones built; and an option that sets
`Session` to nil yields a client with nil `Session`. -/
theorem client_applies_options_in_order (S : Type) (sess : session.Session S) :
    (v3.Client sess []).Session = sess
    ∧ (∀ opts : List (v3.Option S),
        v3.Client sess opts = opts.foldl (fun c opt => opt c) { Session := sess })
    ∧ (∀ (opts : List (v3.Option S)) (opt : v3.Option S),
        v3.Client sess (opts ++ [opt]) = opt (v3.Client sess opts))
    ∧ (v3.Client sess [fun c => { c with Session := none }]).Session = none := by
  have hfold : ∀ (opts : List (v3.Option S)) (c : v3.cloudlets S),
      v3.applyOptions c opts = opts.foldl (fun c opt => opt c) c := by
    intro opts
    induction opts with
    | nil => intro c; rfl
    | cons opt rest ih => intro c; exact ih (opt c)
  refine ⟨rfl, fun opts => hfold opts _, ?_, rfl⟩
  intro opts opt
  simp only [v3.Client, hfold, List.foldl_append, List.foldl_cons, List.foldl_nil]

/-! ## Nested validation -/

/-- Claim C17. Nested bodies validate themselves: `MovePropertyRequest.Validate`
returns nil exactly when `PropertyID`, `BodyParams.DestinationGroupID` and
`BodyParams.SourceGroupID` are all non-zero, and a failure of
`MovePropertyReqBody.Validate` makes the enclosing request invalid and is
reported, as it is, under the field `BodyParams`. -/
theorem move_property_validates_body :
    (∀ r : iam.MovePropertyRequest,
      r.Validate = none
        ↔ r.PropertyID ≠ 0 ∧ r.BodyParams.DestinationGroupID ≠ 0
            ∧ r.BodyParams.SourceGroupID ≠ 0)
    ∧ (∀ (r : iam.MovePropertyRequest) (e : VErr), r.BodyParams.Validate = some e →
      ∃ v, r.Validate = some v ∧ "BodyParams" ∈ v.fields ∧ v.at "BodyParams" = some e) := by
  constructor
  · intro r
    by_cases h1 : r.PropertyID = 0 <;> by_cases h2 : r.BodyParams.DestinationGroupID = 0 <;>
      by_cases h3 : r.BodyParams.SourceGroupID = 0 <;>
      simp [iam.MovePropertyRequest.Validate, iam.MovePropertyReqBody.Validate,
        edgegriderr.ParseValidationErrors, validation.Errors.violations, validation.Validate,
        validation.applyRules, validation.Required, GoValue.isEmpty, GoValue.own, h1, h2, h3]
  · intro r e he
    by_cases h1 : r.PropertyID = 0 <;>
      simp [iam.MovePropertyRequest.Validate, edgegriderr.ParseValidationErrors,
        validation.Errors.violations, validation.Validate, validation.applyRules,
        validation.Required, GoValue.isEmpty, GoValue.own, h1, he, VErr.fields, VErr.at]

/-! ## Error identification in the papi property operations -/

theorem Sprintf_prefix_w (env : Env) (a : fmt.Arg) :
    fmt.Sprintf env "getproperties request failed: %w" [a]
        = "getproperties request failed: " ++ a.text env
    ∧ fmt.Sprintf env "createproperty request failed: %w" [a]
        = "createproperty request failed: " ++ a.text env
    ∧ fmt.Sprintf env "getproperty request failed: %w" [a]
        = "getproperty request failed: " ++ a.text env
    ∧ fmt.Sprintf env "delproperty request failed: %w" [a]
        = "delproperty request failed: " ++ a.text env
    ∧ fmt.Sprintf env "failed to create getproperties request: %w" [a]
        = "failed to create getproperties request: " ++ a.text env
    ∧ fmt.Sprintf env "failed to create createproperty request: %w" [a]
        = "failed to create createproperty request: " ++ a.text env
    ∧ fmt.Sprintf env "failed to create getproperty request: %w" [a]
        = "failed to create getproperty request: " ++ a.text env
    ∧ fmt.Sprintf env "failed to create delproperty request: %w" [a]
        = "failed to create delproperty request: " ++ a.text env
    ∧ fmt.Sprintf env "failed to parse url: %w" [a] = "failed to parse url: " ++ a.text env
    ∧ fmt.Sprintf env "failed parse url: %w" [a] = "failed parse url: " ++ a.text env := by
  refine ⟨?_, ?_, ?_, ?_, ?_, ?_, ?_, ?_, ?_, ?_⟩ <;>
    (apply String.ext; simp [fmt.Sprintf, fmt.sprintChars])

theorem Errorf_prefix_w (env : Env) (e : GoErr) :
    fmt.Errorf env "getproperties request failed: %w" [.err e]
        = .wrap ("getproperties request failed: " ++ e.Error env) e
    ∧ fmt.Errorf env "createproperty request failed: %w" [.err e]
        = .wrap ("createproperty request failed: " ++ e.Error env) e
    ∧ fmt.Errorf env "getproperty request failed: %w" [.err e]
        = .wrap ("getproperty request failed: " ++ e.Error env) e
    ∧ fmt.Errorf env "delproperty request failed: %w" [.err e]
        = .wrap ("delproperty request failed: " ++ e.Error env) e
    ∧ fmt.Errorf env "failed to create getproperties request: %w" [.err e]
        = .wrap ("failed to create getproperties request: " ++ e.Error env) e
    ∧ fmt.Errorf env "failed to create createproperty request: %w" [.err e]
        = .wrap ("failed to create createproperty request: " ++ e.Error env) e
    ∧ fmt.Errorf env "failed to create getproperty request: %w" [.err e]
        = .wrap ("failed to create getproperty request: " ++ e.Error env) e
    ∧ fmt.Errorf env "failed to create delproperty request: %w" [.err e]
        = .wrap ("failed to create delproperty request: " ++ e.Error env) e
    ∧ fmt.Errorf env "failed to parse url: %w" [.err e]
        = .wrap ("failed to parse url: " ++ e.Error env) e
    ∧ fmt.Errorf env "failed parse url: %w" [.err e]
        = .wrap ("failed parse url: " ++ e.Error env) e := by
  obtain ⟨h1, h2, h3, h4, h5, h6, h7, h8, h9, h10⟩ := Sprintf_prefix_w env (.err e)
  have ht : (fmt.Arg.err e).text env = e.Error env := rfl
  rw [ht] at h1 h2 h3 h4 h5 h6 h7 h8 h9 h10
  refine ⟨?_, ?_, ?_, ?_, ?_, ?_, ?_, ?_, ?_, ?_⟩
  · rw [← h1]; rfl
  · rw [← h2]; rfl
  · rw [← h3]; rfl
  · rw [← h4]; rfl
  · rw [← h5]; rfl
  · rw [← h6]; rfl
  · rw [← h7]; rfl
  · rw [← h8]; rfl
  · rw [← h9]; rfl
  · rw [← h10]; rfl

/-- Claim C18 as stated fails: for an empty `PropertyID` the validation error
returned by `GetProperty` is the one returned by `RemoveProperty`. -/
theorem papi_validation_error_same_in_two_operations :
    (papi.GetProperty (R := Unit) refEnv (failWith (.other "unreachable"))
        { ContractID := "", GroupID := "", PropertyID := "" }).result.error?
      = (papi.RemoveProperty refEnv (failWith (.other "unreachable"))
        { PropertyID := "", ContractID := "", GroupID := "" }).result.error?
    ∧ (papi.RemoveProperty refEnv (failWith (.other "unreachable"))
        { PropertyID := "", ContractID := "", GroupID := "" }).result.error?.isSome = true := by
  decide

/-- Claim C18, amended. In `GetProperties`, `CreateProperty`, `GetProperty` and
`RemoveProperty` only the request-construction and transport errors name the
operation, by a message prefix around the wrapped cause (`failed to create
getproperty request: `, `getproperty request failed: `, and `failed to parse
url: ` against `failed parse url: `); a validation error is
`ErrStructValidation` with the validation text, a non-matching status returns
`session.NewAPIError(resp)` as it is and a response-link failure wraps
`ErrInvalidResponseLink`, none of which names the operation, so for an empty
`PropertyID` `GetProperty` and `RemoveProperty` return the same error. -/
theorem papi_property_error_identification (env : Env) :
    (∀ (exec : Exec Unit (papi.GetPropertiesResponse)) (params : papi.GetPropertiesRequest) (err : VErr),
      params.Validate = some err →
      (papi.GetProperties env exec params).result.error?
        = some (.wrap ("struct validation: " ++ env.errorsText err) papi.ErrStructValidation))
    ∧ (∀ (resp : Response) (out : papi.GetPropertiesResponse) (params : papi.GetPropertiesRequest),
      env.builds → params.Validate = none → resp.StatusCode ≠ 200 →
      (papi.GetProperties env (respond resp out) params).result.error? = some (env.NewAPIError resp))
    ∧ (∀ (e : GoErr) (params : papi.GetPropertiesRequest),
      env.builds → params.Validate = none →
      (papi.GetProperties env (failWith e) params).result.error?
        = some (.wrap ("getproperties request failed: " ++ e.Error env) e))
    ∧ (∀ (exec : Exec Unit (papi.GetPropertiesResponse)) (e : GoErr) (params : papi.GetPropertiesRequest),
      (∀ s, ∃ u, env.urlParse s = .ok u) → (∀ m u, env.newRequestErr m u = some e) →
      params.Validate = none →
      (papi.GetProperties env exec params).result.error?
        = some (.wrap ("failed to create getproperties request: " ++ e.Error env) e))
    ∧ (∀ (R : Type) (exec : Exec papi.PropertyCreate (papi.CreatePropertyResponse R)) (params : papi.CreatePropertyRequest) (err : VErr),
      params.Validate = some err →
      (papi.CreateProperty env exec params).result.error?
        = some (.wrap ("struct validation: " ++ env.errorsText err) papi.ErrStructValidation))
    ∧ (∀ (R : Type) (resp : Response) (out : papi.CreatePropertyResponse R) (params : papi.CreatePropertyRequest),
      env.builds → params.Validate = none → resp.StatusCode ≠ 201 →
      (papi.CreateProperty env (respond resp out) params).result.error? = some (env.NewAPIError resp))
    ∧ (∀ (R : Type) (e : GoErr) (params : papi.CreatePropertyRequest),
      env.builds → params.Validate = none →
      (papi.CreateProperty (R := R) env (failWith e) params).result.error?
        = some (.wrap ("createproperty request failed: " ++ e.Error env) e))
    ∧ (∀ (R : Type) (exec : Exec papi.PropertyCreate (papi.CreatePropertyResponse R)) (e : GoErr) (params : papi.CreatePropertyRequest),
      (∀ s, ∃ u, env.urlParse s = .ok u) → (∀ m u, env.newRequestErr m u = some e) →
      params.Validate = none →
      (papi.CreateProperty env exec params).result.error?
        = some (.wrap ("failed to create createproperty request: " ++ e.Error env) e))
    ∧ (∀ (R : Type) (exec : Exec Unit (papi.GetPropertyResponse R)) (params : papi.GetPropertyRequest) (err : VErr),
      params.Validate = some err →
      (papi.GetProperty env exec params).result.error?
        = some (.wrap ("struct validation: " ++ env.errorsText err) papi.ErrStructValidation))
    ∧ (∀ (R : Type) (resp : Response) (out : papi.GetPropertyResponse R) (params : papi.GetPropertyRequest),
      env.builds → params.Validate = none → resp.StatusCode ≠ 200 →
      (papi.GetProperty env (respond resp out) params).result.error? = some (env.NewAPIError resp))
    ∧ (∀ (R : Type) (e : GoErr) (params : papi.GetPropertyRequest),
      env.builds → params.Validate = none →
      (papi.GetProperty (R := R) env (failWith e) params).result.error?
        = some (.wrap ("getproperty request failed: " ++ e.Error env) e))
    ∧ (∀ (R : Type) (exec : Exec Unit (papi.GetPropertyResponse R)) (e : GoErr) (params : papi.GetPropertyRequest),
      (∀ s, ∃ u, env.urlParse s = .ok u) → (∀ m u, env.newRequestErr m u = some e) →
      params.Validate = none →
      (papi.GetProperty env exec params).result.error?
        = some (.wrap ("failed to create getproperty request: " ++ e.Error env) e))
    ∧ (∀ (exec : Exec Unit (papi.RemovePropertyResponse)) (params : papi.RemovePropertyRequest) (err : VErr),
      params.Validate = some err →
      (papi.RemoveProperty env exec params).result.error?
        = some (.wrap ("struct validation: " ++ env.errorsText err) papi.ErrStructValidation))
    ∧ (∀ (resp : Response) (out : papi.RemovePropertyResponse) (params : papi.RemovePropertyRequest),
      env.builds → params.Validate = none → resp.StatusCode ≠ 200 →
      (papi.RemoveProperty env (respond resp out) params).result.error? = some (env.NewAPIError resp))
    ∧ (∀ (e : GoErr) (params : papi.RemovePropertyRequest),
      env.builds → params.Validate = none →
      (papi.RemoveProperty env (failWith e) params).result.error?
        = some (.wrap ("delproperty request failed: " ++ e.Error env) e))
    ∧ (∀ (exec : Exec Unit (papi.RemovePropertyResponse)) (e : GoErr) (params : papi.RemovePropertyRequest),
      (∀ s, ∃ u, env.urlParse s = .ok u) → (∀ m u, env.newRequestErr m u = some e) →
      params.Validate = none →
      (papi.RemoveProperty env exec params).result.error?
        = some (.wrap ("failed to create delproperty request: " ++ e.Error env) e))
    ∧ (∀ (R : Type) (exec : Exec Unit (papi.GetPropertyResponse R)) (e : GoErr) (params : papi.GetPropertyRequest),
      (∀ s, env.urlParse s = .error e) → params.Validate = none →
      (papi.GetProperty env exec params).result.error? = some (.wrap ("failed to parse url: " ++ e.Error env) e))
    ∧ (∀ (exec : Exec Unit (papi.RemovePropertyResponse)) (e : GoErr) (params : papi.RemovePropertyRequest),
      (∀ s, env.urlParse s = .error e) → params.Validate = none →
      (papi.RemoveProperty env exec params).result.error? = some (.wrap ("failed parse url: " ++ e.Error env) e))
    ∧ (∀ (R : Type) (resp : Response) (out : papi.CreatePropertyResponse R)
        (params : papi.CreatePropertyRequest) (e : GoErr),
      env.builds → params.Validate = none → resp.StatusCode = 201 →
      papi.ResponseLinkParse out.PropertyLink = .error e →
      (papi.CreateProperty env (respond resp out) params).result.error?
        = some (.wrap ("invalid response link: " ++ e.Error env) papi.ErrInvalidResponseLink))
    ∧ (∀ (R : Type) (exec1 : Exec Unit (papi.GetPropertyResponse R))
        (exec2 : Exec Unit papi.RemovePropertyResponse) (c1 g1 c2 g2 : String),
      (papi.GetProperty env exec1 { ContractID := c1, GroupID := g1, PropertyID := "" }).result.error?
        = (papi.RemoveProperty env exec2
            { PropertyID := "", ContractID := c2, GroupID := g2 }).result.error?) := by
  refine ⟨?_, ?_, ?_, ?_, ?_, ?_, ?_, ?_, ?_, ?_, ?_, ?_, ?_, ?_, ?_, ?_, ?_, ?_, ?_, ?_⟩
  · intro exec params err hv
    simp [papi.GetProperties, papi.GetProperties.prog, hv, Res.error?, Errorf_w_s, fmt.Arg.text, GoErr.Error, papi.ErrStructValidation, papi.ErrInvalidResponseLink]
  · intro resp out params hb hv hs
    simp [papi.GetProperties, papi.GetProperties.prog, hv, http.NewRequestWithContext, hb.2, respond, hs, Res.error?]
  · intro e params hb hv
    simp [papi.GetProperties, papi.GetProperties.prog, hv, http.NewRequestWithContext, hb.2, failWith, Res.error?, Errorf_prefix_w]
  · intro exec e params hp hr hv
    simp [papi.GetProperties, papi.GetProperties.prog, hv, http.NewRequestWithContext, hr, Res.error?, Errorf_prefix_w]
  · intro R exec params err hv
    simp [papi.CreateProperty, papi.CreateProperty.prog, hv, Res.error?, Errorf_w_s, fmt.Arg.text, GoErr.Error, papi.ErrStructValidation, papi.ErrInvalidResponseLink]
  · intro R resp out params hb hv hs
    simp [papi.CreateProperty, papi.CreateProperty.prog, hv, http.NewRequestWithContext, hb.2, respond, hs, Res.error?]
  · intro R e params hb hv
    simp [papi.CreateProperty, papi.CreateProperty.prog, hv, http.NewRequestWithContext, hb.2, failWith, Res.error?, Errorf_prefix_w]
  · intro R exec e params hp hr hv
    simp [papi.CreateProperty, papi.CreateProperty.prog, hv, http.NewRequestWithContext, hr, Res.error?, Errorf_prefix_w]
  · intro R exec params err hv
    simp [papi.GetProperty, papi.GetProperty.prog, hv, Res.error?, Errorf_w_s, fmt.Arg.text, GoErr.Error, papi.ErrStructValidation, papi.ErrInvalidResponseLink]
  · intro R resp out params hb hv hs
    obtain ⟨u, hu⟩ := hb.1 (fmt.Sprintf env "/papi/v1/properties/%s" [.str params.PropertyID])
    simp [papi.GetProperty, papi.GetProperty.prog, hv, hu, http.NewRequestWithContext, hb.2, respond, hs, Res.error?]
  · intro R e params hb hv
    obtain ⟨u, hu⟩ := hb.1 (fmt.Sprintf env "/papi/v1/properties/%s" [.str params.PropertyID])
    simp [papi.GetProperty, papi.GetProperty.prog, hv, hu, http.NewRequestWithContext, hb.2, failWith, Res.error?, Errorf_prefix_w]
  · intro R exec e params hp hr hv
    obtain ⟨u, hu⟩ := hp (fmt.Sprintf env "/papi/v1/properties/%s" [.str params.PropertyID])
    simp [papi.GetProperty, papi.GetProperty.prog, hv, hu, http.NewRequestWithContext, hr, Res.error?, Errorf_prefix_w]
  · intro exec params err hv
    simp [papi.RemoveProperty, papi.RemoveProperty.prog, hv, Res.error?, Errorf_w_s, fmt.Arg.text, GoErr.Error, papi.ErrStructValidation, papi.ErrInvalidResponseLink]
  · intro resp out params hb hv hs
    obtain ⟨u, hu⟩ := hb.1 (fmt.Sprintf env "/papi/v1/properties/%s" [.str params.PropertyID])
    simp [papi.RemoveProperty, papi.RemoveProperty.prog, hv, hu, http.NewRequestWithContext, hb.2, respond, hs, Res.error?]
  · intro e params hb hv
    obtain ⟨u, hu⟩ := hb.1 (fmt.Sprintf env "/papi/v1/properties/%s" [.str params.PropertyID])
    simp [papi.RemoveProperty, papi.RemoveProperty.prog, hv, hu, http.NewRequestWithContext, hb.2, failWith, Res.error?, Errorf_prefix_w]
  · intro exec e params hp hr hv
    obtain ⟨u, hu⟩ := hp (fmt.Sprintf env "/papi/v1/properties/%s" [.str params.PropertyID])
    simp [papi.RemoveProperty, papi.RemoveProperty.prog, hv, hu, http.NewRequestWithContext, hr, Res.error?, Errorf_prefix_w]
  · intro R exec e params hp hv
    simp [papi.GetProperty, papi.GetProperty.prog, hv, hp, Res.error?, Errorf_prefix_w]
  · intro exec e params hp hv
    simp [papi.RemoveProperty, papi.RemoveProperty.prog, hv, hp, Res.error?, Errorf_prefix_w]
  · intro R resp out params e hb hv hs hl
    simp [papi.CreateProperty, papi.CreateProperty.prog, hv, http.NewRequestWithContext, hb.2, respond, hs, hl, Res.error?, Errorf_w_s, fmt.Arg.text, GoErr.Error, papi.ErrStructValidation, papi.ErrInvalidResponseLink]
  · intro R exec1 exec2 c1 g1 c2 g2
    simp [papi.GetProperty, papi.GetProperty.prog, papi.RemoveProperty, papi.RemoveProperty.prog, papi.GetPropertyRequest.Validate,
      papi.RemovePropertyRequest.Validate, validation.Errors.Filter, validation.Errors.violations,
      validation.Validate, validation.applyRules, validation.Required, GoValue.isEmpty, Res.error?]

/-! ## The request body of include activations -/

/-- Claim C19. `IgnoreHTTPErrors` defaults to true only when nil: where
requests build, take an `ActivateIncludeRequest` (resp.
`DeactivateIncludeRequest`) that passes validation, and let `sent` be the
request with `IgnoreHTTPErrors` pointing to true when the caller's is nil and
the request as it is otherwise (an explicit false stays false), every other
field unchanged; let `body` carry `sent` together with the activate (resp.
deactivate) activation type, and `req` be the `POST` to the activations path of
the include. Then `body` is what is handed to `Exec`:
* whatever the transport answers, the calls of `Exec` the operation makes are
  exactly the one call with `req` and `body`;
* the result is a function of what the transport answers to `req` and `body`:
  two transports that agree there give the same result;
* over every transport with a state of its own, the result is the one that the
  transport's answer to `req` and `body` fixes, and the transport is left in
  the state that one call produced. -/
theorem ignore_http_errors_defaults_when_nil (env : Env)
    (hreq : ∀ m u, env.newRequestErr m u = none) :
    (∀ (params sent : papi.ActivateIncludeRequest) (req : HttpRequest) (body : papi.IncludeRequestBody),
      papi.ActivateIncludeRequest.Validate params = none →
      (params.IgnoreHTTPErrors = none → sent = { params with IgnoreHTTPErrors := some true }) →
      (∀ b, params.IgnoreHTTPErrors = some b → sent = params) →
      req = { Method := "POST",
              URL := "/papi/v1/includes/" ++ params.IncludeID ++ "/activations" } →
      body = { Request := sent, ActivationType := env.ActivationTypeActivate } →
      (∀ exec, (papi.ActivateInclude env exec params).calls = [(req, body)])
      ∧ (∀ exec exec2, exec req body = exec2 req body →
          (papi.ActivateInclude env exec params).result = (papi.ActivateInclude env exec2 params).result)
      ∧ (∀ (σ : Type) (transport : Transport σ _ _) (s : σ),
          (papi.ActivateInclude.prog env params).runIn transport s
            = ((papi.ActivateInclude env (fun _ _ => (transport s req body).1) params).result,
                (transport s req body).2)))
    ∧ (∀ (params sent : papi.DeactivateIncludeRequest) (req : HttpRequest) (body : papi.IncludeRequestBody),
      papi.DeactivateIncludeRequest.Validate params = none →
      (params.IgnoreHTTPErrors = none → sent = { params with IgnoreHTTPErrors := some true }) →
      (∀ b, params.IgnoreHTTPErrors = some b → sent = params) →
      req = { Method := "POST",
              URL := "/papi/v1/includes/" ++ params.IncludeID ++ "/activations" } →
      body = { Request := sent, ActivationType := env.ActivationTypeDeactivate } →
      (∀ exec, (papi.DeactivateInclude env exec params).calls = [(req, body)])
      ∧ (∀ exec exec2, exec req body = exec2 req body →
          (papi.DeactivateInclude env exec params).result = (papi.DeactivateInclude env exec2 params).result)
      ∧ (∀ (σ : Type) (transport : Transport σ _ _) (s : σ),
          (papi.DeactivateInclude.prog env params).runIn transport s
            = ((papi.DeactivateInclude env (fun _ _ => (transport s req body).1) params).result,
                (transport s req body).2))) := by
  constructor
  · intro params sent req body hv hnil hset hr hbody
    subst hr hbody
    cases hi : params.IgnoreHTTPErrors with
    | none =>
      have hs := hnil hi
      subst hs
      refine ⟨?_, ?_, ?_⟩
      · intro exec
        simp only [papi.ActivateInclude, papi.ActivateInclude.prog, hv, hi, if_true, papi.BoolPtr,
          http.NewRequestWithContext, hreq, Sprintf_activations_path, Prog.run]
        cases exec _ _ with
        | error e => rfl
        | ok v =>
          obtain ⟨resp, result⟩ := v
          simp only []
          repeat' (first | rfl | split)
      · intro exec exec2 h
        simp only [papi.ActivateInclude, papi.ActivateInclude.prog, hv, hi, if_true, papi.BoolPtr,
          http.NewRequestWithContext, hreq, Sprintf_activations_path, Prog.run]
        rw [h]
        cases exec2 _ _ with
        | error e => rfl
        | ok v =>
          obtain ⟨resp, result⟩ := v
          simp only []
          repeat' (first | rfl | split)
      · intro σ transport s
        simp only [papi.ActivateInclude, papi.ActivateInclude.prog, hv, hi, if_true, papi.BoolPtr,
          http.NewRequestWithContext, hreq, Sprintf_activations_path, Prog.run, Prog.runIn]
        cases (transport s _ _).1 with
        | error e => rfl
        | ok v =>
          obtain ⟨resp, result⟩ := v
          simp only []
          repeat' (first | rfl | split)
    | some b =>
      have hs := hset b hi
      subst hs
      refine ⟨?_, ?_, ?_⟩
      · intro exec
        simp only [papi.ActivateInclude, papi.ActivateInclude.prog, hv, hi, if_false, reduceCtorEq,
          http.NewRequestWithContext, hreq, Sprintf_activations_path, Prog.run]
        cases exec _ _ with
        | error e => rfl
        | ok v =>
          obtain ⟨resp, result⟩ := v
          simp only []
          repeat' (first | rfl | split)
      · intro exec exec2 h
        simp only [papi.ActivateInclude, papi.ActivateInclude.prog, hv, hi, if_false, reduceCtorEq,
          http.NewRequestWithContext, hreq, Sprintf_activations_path, Prog.run]
        rw [h]
        cases exec2 _ _ with
        | error e => rfl
        | ok v =>
          obtain ⟨resp, result⟩ := v
          simp only []
          repeat' (first | rfl | split)
      · intro σ transport s
        simp only [papi.ActivateInclude, papi.ActivateInclude.prog, hv, hi, if_false, reduceCtorEq,
          http.NewRequestWithContext, hreq, Sprintf_activations_path, Prog.run, Prog.runIn]
        cases (transport s _ _).1 with
        | error e => rfl
        | ok v =>
          obtain ⟨resp, result⟩ := v
          simp only []
          repeat' (first | rfl | split)
  · intro params sent req body hv hnil hset hr hbody
    subst hr hbody
    cases hi : params.IgnoreHTTPErrors with
    | none =>
      have hs := hnil hi
      subst hs
      refine ⟨?_, ?_, ?_⟩
      · intro exec
        simp only [papi.DeactivateInclude, papi.DeactivateInclude.prog, hv, hi, if_true, papi.BoolPtr,
          http.NewRequestWithContext, hreq, Sprintf_activations_path, Prog.run]
        cases exec _ _ with
        | error e => rfl
        | ok v =>
          obtain ⟨resp, result⟩ := v
          simp only []
          repeat' (first | rfl | split)
      · intro exec exec2 h
        simp only [papi.DeactivateInclude, papi.DeactivateInclude.prog, hv, hi, if_true, papi.BoolPtr,
          http.NewRequestWithContext, hreq, Sprintf_activations_path, Prog.run]
        rw [h]
        cases exec2 _ _ with
        | error e => rfl
        | ok v =>
          obtain ⟨resp, result⟩ := v
          simp only []
          repeat' (first | rfl | split)
      · intro σ transport s
        simp only [papi.DeactivateInclude, papi.DeactivateInclude.prog, hv, hi, if_true, papi.BoolPtr,
          http.NewRequestWithContext, hreq, Sprintf_activations_path, Prog.run, Prog.runIn]
        cases (transport s _ _).1 with
        | error e => rfl
        | ok v =>
          obtain ⟨resp, result⟩ := v
          simp only []
          repeat' (first | rfl | split)
    | some b =>
      have hs := hset b hi
      subst hs
      refine ⟨?_, ?_, ?_⟩
      · intro exec
        simp only [papi.DeactivateInclude, papi.DeactivateInclude.prog, hv, hi, if_false, reduceCtorEq,
          http.NewRequestWithContext, hreq, Sprintf_activations_path, Prog.run]
        cases exec _ _ with
        | error e => rfl
        | ok v =>
          obtain ⟨resp, result⟩ := v
          simp only []
          repeat' (first | rfl | split)
      · intro exec exec2 h
        simp only [papi.DeactivateInclude, papi.DeactivateInclude.prog, hv, hi, if_false, reduceCtorEq,
          http.NewRequestWithContext, hreq, Sprintf_activations_path, Prog.run]
        rw [h]
        cases exec2 _ _ with
        | error e => rfl
        | ok v =>
          obtain ⟨resp, result⟩ := v
          simp only []
          repeat' (first | rfl | split)
      · intro σ transport s
        simp only [papi.DeactivateInclude, papi.DeactivateInclude.prog, hv, hi, if_false, reduceCtorEq,
          http.NewRequestWithContext, hreq, Sprintf_activations_path, Prog.run, Prog.runIn]
        cases (transport s _ _).1 with
        | error e => rfl
        | ok v =>
          obtain ⟨resp, result⟩ := v
          simp only []
          repeat' (first | rfl | split)

/-- Witness of claim C19: an `ActivateInclude` request with an explicit false,
whose one call carries the false, and the same request with nil, whose one
call carries true. -/
theorem ignore_http_errors_defaults_when_nil_witness :
    (∀ m u, refEnv.newRequestErr m u = none)
    ∧ papi.ActivateIncludeRequest.Validate
        { papi.validActivate with IgnoreHTTPErrors := some false } = none
    ∧ (∀ exec, (papi.ActivateInclude refEnv exec
          { papi.validActivate with IgnoreHTTPErrors := some false }).calls
        = [({ Method := "POST", URL := "/papi/v1/includes/inc_1/activations" },
            { Request := { papi.validActivate with IgnoreHTTPErrors := some false },
              ActivationType := "ACTIVATE" })])
    ∧ (∀ exec, (papi.ActivateInclude refEnv exec papi.validActivate).calls
        = [({ Method := "POST", URL := "/papi/v1/includes/inc_1/activations" },
            { Request := { papi.validActivate with IgnoreHTTPErrors := some true },
              ActivationType := "ACTIVATE" })]) :=
  ⟨fun _ _ => rfl, rfl,
    ((ignore_http_errors_defaults_when_nil refEnv (fun _ _ => rfl)).1
      { papi.validActivate with IgnoreHTTPErrors := some false }
      { papi.validActivate with IgnoreHTTPErrors := some false }
      { Method := "POST", URL := "/papi/v1/includes/inc_1/activations" }
      { Request := { papi.validActivate with IgnoreHTTPErrors := some false },
        ActivationType := "ACTIVATE" }
      rfl (fun h => nomatch h) (fun _ _ => rfl) rfl rfl).1,
    ((ignore_http_errors_defaults_when_nil refEnv (fun _ _ => rfl)).1
      papi.validActivate
      { papi.validActivate with IgnoreHTTPErrors := some true }
      { Method := "POST", URL := "/papi/v1/includes/inc_1/activations" }
      { Request := { papi.validActivate with IgnoreHTTPErrors := some true },
        ActivationType := "ACTIVATE" }
      rfl (fun _ => rfl) (fun _ h => nomatch h) rfl rfl).1⟩

/-! ## Indexing the items of `GetProperty` -/

/-- Where requests build, for every request with a non-empty `PropertyID` and
every 200 response, `GetProperty` returns the decoded response with `Property`
set to the first element of `Properties.Items` when the list has one, and
panics with an index out of range when the list is empty. -/
theorem papi_GetProperty_on_items (env : Env) (hb : env.builds) (resp : Response)
    (hs : resp.StatusCode = 200) (R : Type) (out : papi.GetPropertyResponse R)
    (params : papi.GetPropertyRequest) (hid : params.PropertyID ≠ "") :
    (∀ first rest, out.Properties.Items = first :: rest →
        (papi.GetProperty env (respond resp out) params).result
          = .ok { Response := out.Response, Properties := out.Properties, Property := first })
    ∧ (out.Properties.Items = [] →
        (papi.GetProperty env (respond resp out) params).result
          = .panic "runtime error: index out of range [0] with length 0") := by
  obtain ⟨u, hu⟩ := hb.1 (fmt.Sprintf env "/papi/v1/properties/%s" [.str params.PropertyID])
  have hv : params.Validate = none := papi_property_validate_none _ hid
  constructor
  · intro first rest hitems
    simp [papi.GetProperty, papi.GetProperty.prog, hv, hu, http.NewRequestWithContext, hb.2, respond, hs, hitems]
  · intro hitems
    simp [papi.GetProperty, papi.GetProperty.prog, hv, hu, http.NewRequestWithContext, hb.2, respond, hs, hitems]

/-- Claim C20 fails on the code: `GetProperty` of `prp_1`, answered with status
200 and a body whose item list is empty, does not return normally: it panics
with an index out of range, because `Items[0]` is read without a length check. -/
theorem papi_get_property_panics_on_empty_items :
    (papi.GetProperty refEnv
        (respond ⟨200, ""⟩ { Response := (), Properties := { Items := [] }, Property := none })
        { ContractID := "", GroupID := "", PropertyID := "prp_1" }).result
      = .panic "runtime error: index out of range [0] with length 0" :=
  (papi_GetProperty_on_items refEnv refEnv_builds ⟨200, ""⟩ rfl Unit
    { Response := (), Properties := { Items := [] }, Property := none }
    { ContractID := "", GroupID := "", PropertyID := "prp_1" } (by decide)).2 rfl

/-! ## Validation of the remaining requests -/

theorem validateSliceFrom_eq_nil {α : Type} [GoValue α] (xs : List α) (i : Nat) :
    validation.validateSliceFrom i xs = [] ↔ ∀ x ∈ xs, GoValue.own x = none := by
  induction xs generalizing i with
  | nil => simp [validation.validateSliceFrom]
  | cons x rest ih =>
    cases hx : GoValue.own x with
    | none => simp [validation.validateSliceFrom, hx, ih]
    | some e => simp [validation.validateSliceFrom, hx]

theorem validateSlice_eq_none {α : Type} [GoValue α] (xs : List α) :
    validation.validateSlice xs = none ↔ ∀ x ∈ xs, GoValue.own x = none := by
  rw [← validateSliceFrom_eq_nil xs 0]
  unfold validation.validateSlice
  cases validation.validateSliceFrom 0 xs <;> simp

theorem BlockUserItem_own_eq_none (item : iam.BlockUserItem) :
    GoValue.own item = none ↔ item.UIIdentityID ≠ "" := by
  by_cases h : item.UIIdentityID = "" <;>
    simp [GoValue.own, iam.BlockUserItem.Validate, edgegriderr.ParseValidationErrors,
      validation.Errors.violations, validation.Validate, validation.applyRules,
      validation.Required, GoValue.isEmpty, h]

theorem BlockUsersReqBody_validate (body : iam.BlockUsersReqBody) :
    validation.Validate body [validation.Required] = none
      ↔ body ≠ [] ∧ ∀ item ∈ body, item.UIIdentityID ≠ "" := by
  cases body with
  | nil =>
    simp [validation.Validate, validation.applyRules, validation.Required, GoValue.isEmpty]
  | cons item rest =>
    have h := validateSlice_eq_none (item :: rest)
    simp only [validation.Validate, validation.applyRules, validation.Required, GoValue.isEmpty,
      List.isEmpty_cons, Bool.false_eq_true, if_false, GoValue.own] at h ⊢
    rw [h]
    simp only [ne_eq, reduceCtorEq, not_false_eq_true, true_and]
    constructor
    · intro hall x hx
      exact (BlockUserItem_own_eq_none x).mp (hall x hx)
    · intro hall x hx
      exact (BlockUserItem_own_eq_none x).mpr (hall x hx)

theorem validate_required_int (n : Int) :
    validation.Validate n [validation.Required]
      = if n = 0 then some (.rule "cannot be blank") else none := by
  by_cases h : n = 0 <;>
    simp [validation.Validate, validation.applyRules, validation.Required, GoValue.isEmpty,
      GoValue.own, h]

/-- Claim C21. iam `BlockUsersRequest` validates every body item: `Validate`
returns nil exactly when `PropertyID` is non-zero, `BodyParams` is a non-empty
list and every `BlockUserItem` in it has a non-empty `UIIdentityID`; so a
single item with an empty `UIIdentityID` anywhere in the list makes the
request invalid. -/
theorem block_users_validates_every_item :
    (∀ r : iam.BlockUsersRequest,
      r.Validate = none
        ↔ r.PropertyID ≠ 0 ∧ r.BodyParams ≠ [] ∧ ∀ item ∈ r.BodyParams, item.UIIdentityID ≠ "")
    ∧ (∀ (id : Int) (before after : List iam.BlockUserItem),
      (iam.BlockUsersRequest.Validate
        { PropertyID := id, BodyParams := before ++ { UIIdentityID := "" } :: after }).isSome
        = true) := by
  have main : ∀ r : iam.BlockUsersRequest,
      r.Validate = none
        ↔ r.PropertyID ≠ 0 ∧ r.BodyParams ≠ [] ∧ ∀ item ∈ r.BodyParams, item.UIIdentityID ≠ "" := by
    intro r
    have hb := BlockUsersReqBody_validate r.BodyParams
    unfold iam.BlockUsersRequest.Validate
    rw [validate_required_int]
    cases hbody : validation.Validate r.BodyParams [validation.Required] with
    | none =>
      rw [hbody] at hb
      have hb2 := hb.mp rfl
      by_cases h1 : r.PropertyID = 0
      · simp [edgegriderr.ParseValidationErrors, validation.Errors.violations, h1]
      · simp only [edgegriderr.ParseValidationErrors, validation.Errors.violations, h1, if_false]
        exact ⟨fun _ => ⟨h1, hb2⟩, fun _ => trivial⟩
    | some e =>
      rw [hbody] at hb
      have hb2 : ¬ (r.BodyParams ≠ [] ∧ ∀ item ∈ r.BodyParams, item.UIIdentityID ≠ "") :=
        fun h => by simpa using hb.mpr h
      by_cases h1 : r.PropertyID = 0
      · simp [edgegriderr.ParseValidationErrors, validation.Errors.violations, h1]
      · simp only [edgegriderr.ParseValidationErrors, validation.Errors.violations, h1, if_false]
        exact Iff.intro (fun h => nomatch h) (fun h => absurd h.2 hb2)
  refine ⟨main, ?_⟩
  intro id before after
  cases hv : iam.BlockUsersRequest.Validate
      { PropertyID := id, BodyParams := before ++ { UIIdentityID := "" } :: after } with
  | some e => rfl
  | none =>
    have h := ((main _).mp hv).2.2 { UIIdentityID := "" } (by simp)
    exact absurd rfl h

theorem Sprintf_users_path (env : Env) (id : Int) :
    fmt.Sprintf env "/identity-management/v3/user-admin/properties/%d/users" [.int id]
      = "/identity-management/v3/user-admin/properties/" ++ toString id ++ "/users" := by
  apply String.ext
  simp [fmt.Sprintf, fmt.sprintChars, fmt.Arg.text]

theorem validate_in_user_types (env : Env) (userType : String) :
    validation.Validate userType [validation.In [env.LostAccessUsers, env.GainAccessUsers]] = none
      ↔ userType = "" ∨ userType = env.LostAccessUsers ∨ userType = env.GainAccessUsers := by
  by_cases h0 : userType = ""
  · simp [validation.Validate, validation.applyRules, validation.In, GoValue.isEmpty, GoValue.own,
      h0]
  · by_cases hm : userType = env.LostAccessUsers ∨ userType = env.GainAccessUsers
    · simp [validation.Validate, validation.applyRules, validation.In, GoValue.isEmpty,
        GoValue.own, h0, hm]
    · have hm1 : userType ≠ env.LostAccessUsers := fun h => hm (Or.inl h)
      have hm2 : userType ≠ env.GainAccessUsers := fun h => hm (Or.inr h)
      simp [validation.Validate, validation.applyRules, validation.In, GoValue.isEmpty,
        GoValue.own, h0, hm1, hm2]

theorem refEnv_printsPath (path : String) : refEnv.printsPath path :=
  ⟨(path, ""), rfl, by simp [refEnv]⟩

/-- Claim C22. iam `ListUsersForPropertyRequest.Validate` returns nil exactly
when `PropertyID` is non-zero and `UserType` is empty or one of the constants
`LostAccessUsers` and `GainAccessUsers`; and where requests build and the
environment prints the parsed path back, for a non-zero `PropertyID` and an
empty `UserType`, whatever the transport does, `ListUsersForProperty` builds
the URL `/identity-management/v3/user-admin/properties/<PropertyID>/users`
with no query string. -/
theorem list_users_for_property_validation_and_url (env : Env)
    (hreq : ∀ m u, env.newRequestErr m u = none) :
    (∀ r : iam.ListUsersForPropertyRequest,
      r.Validate env = none
        ↔ r.PropertyID ≠ 0
          ∧ (r.UserType = "" ∨ r.UserType = env.LostAccessUsers
              ∨ r.UserType = env.GainAccessUsers))
    ∧ (∀ (exec : Exec Unit iam.ListUsersForPropertyResponse) (id : Int), id ≠ 0 →
      env.printsPath ("/identity-management/v3/user-admin/properties/" ++ toString id ++ "/users") →
      (iam.ListUsersForProperty env exec { PropertyID := id, UserType := "" }).calls
        = [({ Method := "GET",
              URL := "/identity-management/v3/user-admin/properties/" ++ toString id ++ "/users" },
            ())]) := by
  have main : ∀ r : iam.ListUsersForPropertyRequest,
      r.Validate env = none
        ↔ r.PropertyID ≠ 0
          ∧ (r.UserType = "" ∨ r.UserType = env.LostAccessUsers
              ∨ r.UserType = env.GainAccessUsers) := by
    intro r
    have hu := validate_in_user_types env r.UserType
    unfold iam.ListUsersForPropertyRequest.Validate
    rw [validate_required_int]
    cases hin : validation.Validate r.UserType
        [validation.In [env.LostAccessUsers, env.GainAccessUsers]] with
    | none =>
      rw [hin] at hu
      have hu2 := hu.mp rfl
      by_cases h1 : r.PropertyID = 0
      · simp [edgegriderr.ParseValidationErrors, validation.Errors.violations, h1]
      · simp only [edgegriderr.ParseValidationErrors, validation.Errors.violations, h1, if_false]
        exact ⟨fun _ => ⟨h1, hu2⟩, fun _ => trivial⟩
    | some e =>
      rw [hin] at hu
      have hu2 : ¬ (r.UserType = "" ∨ r.UserType = env.LostAccessUsers
          ∨ r.UserType = env.GainAccessUsers) := fun h => by simpa using hu.mpr h
      by_cases h1 : r.PropertyID = 0
      · simp [edgegriderr.ParseValidationErrors, validation.Errors.violations, h1]
      · simp only [edgegriderr.ParseValidationErrors, validation.Errors.violations, h1, if_false]
        exact Iff.intro (fun h => nomatch h) (fun h => absurd h.2 hu2)
  refine ⟨main, ?_⟩
  intro exec id hid hp
  obtain ⟨u, hu, hs⟩ := hp
  have hv : iam.ListUsersForPropertyRequest.Validate env { PropertyID := id, UserType := "" }
      = none := (main _).mpr ⟨hid, Or.inl rfl⟩
  simp only [iam.ListUsersForProperty, iam.ListUsersForProperty.prog, hv, Sprintf_users_path, hu, ne_eq, not_true_eq_false,
    if_false, hs, http.NewRequestWithContext, hreq]
  simp only [Prog.run]
  cases exec _ () with
  | error e => simp
  | ok v =>
    obtain ⟨resp, result⟩ := v
    simp only
    split <;> simp

/-- Witness of claim C22: the users of property 7. -/
theorem list_users_for_property_validation_and_url_witness :
    (∀ m u, refEnv.newRequestErr m u = none)
    ∧ (iam.ListUsersForProperty refEnv (failWith (.other "timeout"))
          { PropertyID := 7, UserType := "" }).calls
        = [({ Method := "GET",
              URL := "/identity-management/v3/user-admin/properties/" ++ toString (7 : Int)
                ++ "/users" }, ())]
    ∧ "/identity-management/v3/user-admin/properties/" ++ toString (7 : Int) ++ "/users"
        = "/identity-management/v3/user-admin/properties/7/users" :=
  ⟨fun _ _ => rfl,
    (list_users_for_property_validation_and_url refEnv (fun _ _ => rfl)).2
      (failWith (.other "timeout")) 7 (by decide) (refEnv_printsPath _),
    by decide⟩

/-- Claim C23. papi `CreatePropertyRequest.Validate` returns nil exactly when
`ContractID`, `GroupID`, `Property.ProductID` and `Property.PropertyName` are
all non-empty; `PropertyCloneFrom.Validate` accepts every value, also one with
an empty `PropertyID` and `Version` 0, so the optional `Property.CloneFrom`,
nil or not, never causes a violation: the result does not depend on it. -/
theorem create_property_validation :
    (∀ c : papi.PropertyCloneFrom, c.Validate = none)
    ∧ (∀ v : papi.CreatePropertyRequest,
      v.Validate = none
        ↔ v.ContractID ≠ "" ∧ v.GroupID ≠ "" ∧ v.Property.ProductID ≠ ""
            ∧ v.Property.PropertyName ≠ "")
    ∧ (∀ (v : papi.CreatePropertyRequest) (clone : Option papi.PropertyCloneFrom),
      papi.CreatePropertyRequest.Validate
          { v with Property := { v.Property with CloneFrom := clone } }
        = papi.CreatePropertyRequest.Validate
          { v with Property := { v.Property with CloneFrom := none } }) := by
  have hclone : ∀ c : papi.PropertyCloneFrom, c.Validate = none := by
    intro c
    simp [papi.PropertyCloneFrom.Validate, validation.Errors.Filter, validation.Errors.violations,
      validation.Validate, validation.applyRules, GoValue.own]
  refine ⟨hclone, ?_, ?_⟩
  · intro v
    obtain ⟨contract, group, ⟨clone, product, name, format⟩⟩ := v
    cases clone <;> by_cases h1 : contract = "" <;> by_cases h2 : group = "" <;>
      by_cases h3 : product = "" <;> by_cases h4 : name = "" <;>
      simp [papi.CreatePropertyRequest.Validate, papi.PropertyCreate.Validate, hclone,
        validation.Errors.Filter, validation.Errors.violations, validation.Validate,
        validation.applyRules, validation.Required, GoValue.isEmpty, GoValue.own, h1, h2, h3, h4]
  · intro v clone
    cases clone with
    | none => rfl
    | some c =>
      simp [papi.CreatePropertyRequest.Validate, papi.PropertyCreate.Validate, hclone,
        validation.Validate, validation.applyRules, GoValue.own]

end EdgeGrid
